import Mathlib

/-!
# Greeter background: configuration resolution and active-monitor selection

A shallow embedding of `src/greeterbackground.c`.

Conventions of the embedding:

* a `Monitor*` is the index of the monitor in the `priv->monitors` array
  (`Option Nat`, `none` being `NULL`);
* a `GHashTable` with string keys is an association list with unique keys;
* the toolkit calls that the C code issues (signal emission, pointer warp,
  window re-stacking, redraw requests, image decoding) are recorded in an
  event log carried by the state;
* `gint` values are `Int`, the sums of the geometry tests being reduced to
  32 bits (`gint_add`); `gdouble` values are the rationals that binary64
  represents, every `gdouble` operation being rounded (`gdouble_round`);
* a function that dereferences `NULL` or reads past the monitor array
  returns `none`; in `greeter_background_save_xroot`, whose last iteration
  always reads one entry past the array, what that read finds is the parameter
  `past_end`.
-/

namespace GreeterBackground

/-! ## Data model (lines 11-141) -/

/-- The enum `BackgroundType` (lines 11-22). -/
inductive BackgroundType
  | INVALID
  | SKIP
  | COLOR
  | IMAGE
  deriving DecidableEq, Repr

/-- The enum `ScalingMode` (lines 26-33). -/
inductive ScalingMode
  | SOURCE
  | ZOOMED
  | STRETCHED
  deriving DecidableEq, Repr

/-- Numeric value of a `ScalingMode`, as printed with `%d`. -/
def ScalingMode.toNat : ScalingMode → Nat
  | .SOURCE => 0
  | .ZOOMED => 1
  | .STRETCHED => 2

/-- The toolkit colour `GdkRGBA`. -/
structure GdkRGBA where
  red : Rat
  green : Rat
  blue : Rat
  alpha : Rat
  deriving DecidableEq, Repr

/-- The struct `BackgroundConfig` (lines 39-51): the tag together with the
member of the union that the tag selects. -/
inductive BackgroundConfig
  | invalid
  | skip
  | color (color : GdkRGBA)
  | image (path : String) (mode : ScalingMode)
  deriving DecidableEq, Repr

/-- The field `type` of a `BackgroundConfig`. -/
def BackgroundConfig.type : BackgroundConfig → BackgroundType
  | .invalid => .INVALID
  | .skip => .SKIP
  | .color _ => .COLOR
  | .image _ _ => .IMAGE

/-- The struct `MonitorConfig` (lines 54-59). -/
structure MonitorConfig where
  bg : BackgroundConfig
  user_bg : Bool
  laptop : Bool
  deriving DecidableEq, Repr

/-- A `GdkPixbuf`, described by how it was produced: decoded from a file,
composited into a fresh `width x height` buffer (`gdk_pixbuf_new` followed by
`gdk_pixbuf_composite`), or resized with `gdk_pixbuf_scale_simple`. -/
inductive GdkPixbuf
  | file (path : String) (width height : Int)
  | composite (source : GdkPixbuf) (width height : Int)
      (offset_x offset_y : Int) (scale_x scale_y : Rat)
  | scale_simple (source : GdkPixbuf) (width height : Int)
  deriving DecidableEq, Repr

/-- The function `gdk_pixbuf_get_width`. -/
def gdk_pixbuf_get_width : GdkPixbuf → Int
  | .file _ w _ => w
  | .composite _ w _ _ _ _ _ => w
  | .scale_simple _ w _ => w

/-- The function `gdk_pixbuf_get_height`. -/
def gdk_pixbuf_get_height : GdkPixbuf → Int
  | .file _ _ h => h
  | .composite _ _ h _ _ _ _ => h
  | .scale_simple _ _ h => h

/-- The struct `Background` (lines 63-71); a zeroed struct has type
`BACKGROUND_TYPE_INVALID`. -/
inductive Background
  | invalid
  | color (color : GdkRGBA)
  | image (image : GdkPixbuf)
  deriving DecidableEq, Repr

/-- The field `type` of a `Background`. -/
def Background.type : Background → BackgroundType
  | .invalid => .INVALID
  | .color _ => .COLOR
  | .image _ => .IMAGE

/-- The toolkit rectangle `GdkRectangle`. -/
structure GdkRectangle where
  x : Int
  y : Int
  width : Int
  height : Int
  deriving DecidableEq, Repr

/-- Target of the pointer `Monitor.background` (line 88):
`&background_configured` or `&background_custom`. -/
inductive BackgroundRef
  | configured
  | custom
  deriving DecidableEq, Repr

/-- The struct `Monitor` (lines 73-89), without its window handle. -/
structure Monitor where
  number : Nat
  name : Option String
  geometry : GdkRectangle
  background_configured : Background
  background_custom : Background
  background : Option BackgroundRef
  deriving DecidableEq, Repr

/-- A `Monitor` as `g_new0` leaves it (line 431). -/
def Monitor.zero : Monitor :=
  { number := 0, name := none, geometry := ⟨0, 0, 0, 0⟩,
    background_configured := .invalid, background_custom := .invalid,
    background := none }

/-- What the display subsystem reports for one monitor:
`gdk_screen_get_monitor_plug_name` and `gdk_screen_get_monitor_geometry`. -/
structure ScreenMonitor where
  plug_name : Option String
  geometry : GdkRectangle
  deriving DecidableEq, Repr

/-- A `GdkScreen`: its monitors in index order and the value of
`gdk_screen_get_primary_monitor`. -/
structure GdkScreen where
  monitors : List ScreenMonitor
  primary : Nat
  deriving DecidableEq, Repr

/-- An overlay window registered with `greeter_background_add_subwindow`,
with the answer of `gtk_widget_get_visible`. -/
structure GtkWindow where
  id : Nat
  visible : Bool
  deriving DecidableEq, Repr

/-- The power service as seen through the proxy: the cached properties
`LidIsPresent` and `LidIsClosed`. -/
structure UPower where
  lid_is_present : Bool
  lid_is_closed : Bool
  deriving DecidableEq, Repr

/-- Calls into the toolkit that the code issues, in the order issued. -/
inductive Event
  /-- `g_signal_emit` of `active-monitor-changed` (line 644). -/
  | active_monitor_changed
  /-- `gdk_device_warp` (lines 651-653). -/
  | set_cursor_position (x y : Int)
  /-- `gtk_window_set_screen` on an overlay window (line 659). -/
  | window_set_screen (window : Nat)
  /-- Hide, show and `gtk_widget_queue_resize` of an overlay window (lines 662-664). -/
  | window_restack (window : Nat)
  /-- `gtk_widget_queue_draw` on an overlay window (line 862). -/
  | window_queue_draw (window : Nat)
  /-- `gtk_widget_queue_draw` on the window of a monitor (line 1008). -/
  | monitor_queue_draw (monitor : Nat)
  /-- `gdk_pixbuf_new_from_file` (line 1105). -/
  | pixbuf_new_from_file (path : String)
  deriving DecidableEq, Repr

/-! ## String-keyed hash tables -/

/-- A `GHashTable` with `g_str_hash`/`g_str_equal` keys. -/
abbrev GHashTable (α : Type) := List (String × α)

/-- The lookup `g_hash_table_lookup` / `g_hash_table_lookup_extended`. -/
def g_hash_table_lookup {α : Type} : GHashTable α → String → Option α
  | [], _ => none
  | (k, v) :: t, key => if k = key then some v else g_hash_table_lookup t key

/-- The function `g_hash_table_remove`. -/
def g_hash_table_remove {α : Type} (t : GHashTable α) (key : String) : GHashTable α :=
  t.filter (fun p => decide (p.1 ≠ key))

/-- The function `g_hash_table_insert`: an existing entry for the key is replaced. -/
def g_hash_table_insert {α : Type} (t : GHashTable α) (key : String) (v : α) :
    GHashTable α :=
  (key, v) :: g_hash_table_remove t key

/-! ## Constants (lines 24, 35, 151-171) -/

/-- The constant `BACKGROUND_TYPE_SKIP_VALUE` (line 24). -/
def BACKGROUND_TYPE_SKIP_VALUE : String := "#skip"

/-- The table `SCALING_MODE_PREFIXES` (line 35), each entry with the mode its
position stands for. -/
def SCALING_MODE_PREFIXES : List (String × ScalingMode) :=
  [("#source:", .SOURCE), ("#zoomed:", .ZOOMED), ("#stretched:", .STRETCHED)]

/-- The constant `DEFAULT_MONITOR_CONFIG` (lines 151-163). -/
def DEFAULT_MONITOR_CONFIG : MonitorConfig :=
  { bg := .color ⟨0, 0, 0, 1⟩, user_bg := true, laptop := false }

/-- The constant `ACTIVE_MONITOR_CURSOR_TAG` (line 171). -/
def ACTIVE_MONITOR_CURSOR_TAG : String := "#cursor"

/-! ## The private state (lines 104-141) -/

/-- The struct `_GreeterBackgroundPrivate` (lines 104-141), together with the
pointer position of the display and the log of toolkit calls. -/
structure GreeterBackgroundPrivate where
  screen : Option GdkScreen
  greeter_windows : List GtkWindow
  configs : GHashTable MonitorConfig
  default_config : MonitorConfig
  monitors : List Monitor
  monitors_map : GHashTable Nat
  active_monitors_config : List String
  active_monitor : Option Nat
  customized_monitors : List Nat
  laptop_monitors : List Nat
  laptop_upower_proxy : Bool
  laptop_lid_closed : Bool
  follow_cursor : Bool
  follow_cursor_to_init : Bool
  cursor : Int × Int
  events : List Event
  deriving DecidableEq, Repr

/-- The state after `greeter_background_init` (lines 281-303), for a pointer at
`cursor`. -/
def greeter_background_init (cursor : Int × Int) : GreeterBackgroundPrivate :=
  { screen := none
    greeter_windows := []
    configs := []
    default_config := DEFAULT_MONITOR_CONFIG
    monitors := []
    monitors_map := []
    active_monitors_config := []
    active_monitor := none
    customized_monitors := []
    laptop_monitors := []
    laptop_upower_proxy := false
    laptop_lid_closed := false
    follow_cursor := false
    follow_cursor_to_init := false
    cursor := cursor
    events := [] }

/-! ## Background specifications (lines 902-948) -/

/-- The scan `while(*prefix && !g_str_has_prefix(value, *prefix)) ++prefix;`
(lines 915-917): the first entry of the table that `value` starts with. -/
def find_scaling_mode (value : String) :
    List (String × ScalingMode) → Option (String × ScalingMode)
  | [] => none
  | (p, m) :: rest =>
    if p.data.isPrefixOf value.data then some (p, m) else find_scaling_mode value rest

/-- The function `background_config_initialize` (lines 902-931): the returned
flag and the `BackgroundConfig` written to `config`. The colour parser of the
toolkit is the parameter `gdk_rgba_parse`. -/
def background_config_initialize (gdk_rgba_parse : String → Option GdkRGBA)
    (value : Option String) : Bool × BackgroundConfig :=
  match value with
  | none => (false, .invalid)
  | some value =>
    if value = "" then (false, .invalid)
    else if value = BACKGROUND_TYPE_SKIP_VALUE then (true, .skip)
    else
      match gdk_rgba_parse value with
      | some color => (true, .color color)
      | none =>
        match find_scaling_mode value SCALING_MODE_PREFIXES with
        | some (p, mode) => (true, .image (String.mk (value.data.drop p.data.length)) mode)
        | none => (true, .image value .ZOOMED)

/-- The function `background_config_copy` (lines 941-948): a deep copy. -/
def background_config_copy (source : BackgroundConfig) : BackgroundConfig := source

/-- The function `monitor_config_copy` (lines 957-966). -/
def monitor_config_copy (source : MonitorConfig) : MonitorConfig :=
  { bg := background_config_copy source.bg, user_bg := source.user_bg,
    laptop := source.laptop }

/-! ## Configuration store (lines 311-410) -/

/-- Splitting at a delimiter character, on character lists. -/
def g_strsplit_chars (delim : Char) : List Char → List (List Char)
  | [] => [[]]
  | c :: cs =>
    if c = delim then [] :: g_strsplit_chars delim cs
    else
      match g_strsplit_chars delim cs with
      | [] => [[c]]
      | t :: ts => (c :: t) :: ts

/-- The function `g_strsplit` with a one-character delimiter and no limit; the
empty string gives the empty vector. -/
def g_strsplit (value : String) (delim : Char) : List String :=
  if value = "" then [] else (g_strsplit_chars delim value.data).map String.mk

/-- The loop of lines 330-340 over the tokens: the flags `follow_cursor` and
`follow_cursor_to_init` and the list built with `g_list_prepend`. -/
def active_monitor_config_loop :
    List String → Bool × Bool × List String → Bool × Bool × List String
  | [], st => st
  | value :: rest, (follow_cursor, follow_cursor_to_init, config) =>
    if value = ACTIVE_MONITOR_CURSOR_TAG then
      active_monitor_config_loop rest (true, decide (config = []), config)
    else
      active_monitor_config_loop rest (follow_cursor, follow_cursor_to_init, value :: config)

/-- The function `greeter_background_set_active_monitor_config` (lines 311-344). -/
def greeter_background_set_active_monitor_config (priv : GreeterBackgroundPrivate)
    (value : Option String) : GreeterBackgroundPrivate :=
  let priv := { priv with active_monitors_config := [], follow_cursor := false,
                          follow_cursor_to_init := false }
  match value with
  | none => priv
  | some value =>
    if value = "" then priv
    else
      let r := active_monitor_config_loop (g_strsplit value ';') (false, false, [])
      { priv with follow_cursor := r.1, follow_cursor_to_init := r.2.1,
                  active_monitors_config := r.2.2.reverse }

/-- The function `greeter_background_set_default_config` (lines 346-363). -/
def greeter_background_set_default_config (gdk_rgba_parse : String → Option GdkRGBA)
    (priv : GreeterBackgroundPrivate) (bg : Option String) (user_bg laptop : Bool) :
    GreeterBackgroundPrivate :=
  let r := background_config_initialize gdk_rgba_parse bg
  let config_bg := if !r.1 then background_config_copy DEFAULT_MONITOR_CONFIG.bg else r.2
  { priv with default_config := { bg := config_bg, user_bg := user_bg, laptop := laptop } }

/-- The function `greeter_background_set_monitor_config` (lines 365-383). -/
def greeter_background_set_monitor_config (gdk_rgba_parse : String → Option GdkRGBA)
    (priv : GreeterBackgroundPrivate) (name : String) (bg : Option String)
    (user_bg user_bg_used laptop laptop_used : Bool) : GreeterBackgroundPrivate :=
  let r := background_config_initialize gdk_rgba_parse bg
  let config_bg := if !r.1 then background_config_copy priv.default_config.bg else r.2
  let config : MonitorConfig :=
    { bg := config_bg
      user_bg := if user_bg_used then user_bg else priv.default_config.user_bg
      laptop := if laptop_used then laptop else priv.default_config.laptop }
  { priv with configs := g_hash_table_insert priv.configs name config }

/-- The function `greeter_background_remove_monitor_config` (lines 385-391). -/
def greeter_background_remove_monitor_config (priv : GreeterBackgroundPrivate)
    (name : String) : GreeterBackgroundPrivate :=
  { priv with configs := g_hash_table_remove priv.configs name }

/-- The function `greeter_background_get_configured_monitors` (lines 393-410):
the keys, filled in from the end of the vector. -/
def greeter_background_get_configured_monitors (priv : GreeterBackgroundPrivate) :
    List String :=
  (priv.configs.map Prod.fst).reverse

/-- The function `greeter_background_find_monitor_data` (lines 567-582): the
entry under the name of the monitor when it has a name and the table has that
key, otherwise the entry under its number printed with `%d`. -/
def greeter_background_find_monitor_data {α : Type} (table : GHashTable α)
    (monitor : Monitor) : Option α :=
  match monitor.name.bind (g_hash_table_lookup table) with
  | some data => some data
  | none => g_hash_table_lookup table (toString monitor.number)

/-! ## Machine arithmetic -/

/-- The sum of two `gint` as the machine computes it: reduced to the 32-bit
two's complement range. -/
def gint_add (a b : Int) : Int :=
  (a + b + 2147483648) % 4294967296 - 2147483648

/-- The number of halvings that take `n` below 2, at most `fuel` of them. -/
def floor_log2_fuel : Nat → Nat → Nat
  | 0, _ => 0
  | fuel + 1, n => if 2 ≤ n then floor_log2_fuel fuel (n / 2) + 1 else 0

/-- The position of the highest bit of `n`: the `k` with `2 ^ k ≤ n < 2 ^ (k + 1)`
for `n ≥ 1`. -/
def floor_log2 (n : Nat) : Nat := floor_log2_fuel n n

/-- The integer nearest to `m`, the even one of the two when `m` lies half way. -/
def round_half_even (m : Rat) : Int :=
  let f := Rat.floor m
  let r := m - f
  if r < 1 / 2 then f else if 1 / 2 < r then f + 1 else if f % 2 = 0 then f else f + 1

/-- The exponent `e` of the last of the 53 significant bits of a positive
`a`: `2 ^ (e + 52) ≤ a < 2 ^ (e + 53)`. -/
def gdouble_exponent (a : Rat) : Int :=
  let k : Int := (floor_log2 a.num.natAbs : Int) - (floor_log2 a.den : Int)
  (if (2 : Rat) ^ k ≤ a then k else k - 1) - 52

/-- The `gdouble` nearest to `q`, which is the result of an arithmetic operation
on `gdouble` whose exact result is `q`: IEEE 754 binary64 with 53 significant
bits, rounded to nearest, ties to even. The exponent range of the format is not
modelled; quotients, products and differences of `gint` values and of their
quotients lie within it. -/
def gdouble_round (q : Rat) : Rat :=
  if q = 0 then 0
  else if q < 0 then
    -((round_half_even (-q / (2 : Rat) ^ gdouble_exponent (-q)) : Rat) *
      (2 : Rat) ^ gdouble_exponent (-q))
  else
    (round_half_even (q / (2 : Rat) ^ gdouble_exponent q) : Rat) *
      (2 : Rat) ^ gdouble_exponent q

/-! ## Image scaling and its cache (lines 1087-1164) -/

/-- Conversion of a `gdouble` to `gint`: truncation towards zero. -/
def gint_of_gdouble (q : Rat) : Int :=
  if 0 ≤ q then Rat.floor q else -Rat.floor (-q)

/-- The function `scale_image` (lines 1127-1164). The quotients of lines
1138-1139 and the product, difference and quotient of lines 1144 and 1149 are
`gdouble` operations, each rounded by `gdouble_round`; the conversions of
`gint` values to `gdouble` are exact, and the assignment to the `gint` offsets
truncates. -/
def scale_image (source : GdkPixbuf) (mode : ScalingMode) (width height : Int) :
    GdkPixbuf :=
  match mode with
  | .ZOOMED =>
    let p_width := gdk_pixbuf_get_width source
    let p_height := gdk_pixbuf_get_height source
    let scale_x : Rat := gdouble_round ((width : Rat) / p_width)
    let scale_y : Rat := gdouble_round ((height : Rat) / p_height)
    if scale_x < scale_y then
      let scale_x := scale_y
      let offset_x := gint_of_gdouble
        (gdouble_round (gdouble_round ((width : Rat) - gdouble_round (p_width * scale_x)) / 2))
      .composite source width height offset_x 0 scale_x scale_y
    else
      let scale_y := scale_x
      let offset_y := gint_of_gdouble
        (gdouble_round (gdouble_round ((height : Rat) - gdouble_round (p_height * scale_y)) / 2))
      .composite source width height 0 offset_y scale_x scale_y
  | .STRETCHED => .scale_simple source width height
  | .SOURCE => source

/-- The cache key of line 1097, `"%s\n%d %dx%d"`. -/
def scale_image_key (path : String) (mode : ScalingMode) (width height : Int) : String :=
  path ++ "\n" ++ toString mode.toNat ++ " " ++ toString width ++ "x" ++ toString height

/-- The function `scale_image_file` (lines 1087-1125): the returned pixbuf, the
cache afterwards and the files handed to `gdk_pixbuf_new_from_file`. The
decoder of the toolkit is the parameter `gdk_pixbuf_new_from_file`. -/
def scale_image_file (gdk_pixbuf_new_from_file : String → Option GdkPixbuf)
    (path : String) (mode : ScalingMode) (width height : Int)
    (cache : Option (GHashTable GdkPixbuf)) :
    Option GdkPixbuf × Option (GHashTable GdkPixbuf) × List String :=
  let key := scale_image_key path mode width height
  match cache.bind (fun c => g_hash_table_lookup c key) with
  | some pixbuf => (some pixbuf, cache, [])
  | none =>
    let r : Option GdkPixbuf × Option (GHashTable GdkPixbuf) × List String :=
      match cache.bind (fun c => g_hash_table_lookup c path) with
      | some pixbuf => (some pixbuf, cache, [])
      | none =>
        match gdk_pixbuf_new_from_file path with
        | none => (none, cache, [path])
        | some pixbuf => (some pixbuf, cache.map (fun c => g_hash_table_insert c path pixbuf), [path])
    match r.1 with
    | some pixbuf =>
      let scaled := scale_image pixbuf mode width height
      (some scaled, r.2.1.map (fun c => g_hash_table_insert c key scaled), r.2.2)
    | none => (none, r.2.1, r.2.2)

/-! ## Rendered backgrounds (lines 968-1009) -/

/-- The function `background_initialize` (lines 968-993): the returned flag,
the value of `*bg` afterwards, the cache afterwards and the files decoded. -/
def background_initialize (gdk_pixbuf_new_from_file : String → Option GdkPixbuf)
    (bg : Background) (config : BackgroundConfig) (monitor : Monitor)
    (images_cache : Option (GHashTable GdkPixbuf)) :
    Bool × Background × Option (GHashTable GdkPixbuf) × List String :=
  match config with
  | .image path mode =>
    let r := scale_image_file gdk_pixbuf_new_from_file path mode
               monitor.geometry.width monitor.geometry.height images_cache
    match r.1 with
    | none => (false, bg, r.2.1, r.2.2)
    | some pixbuf => (true, .image pixbuf, r.2.1, r.2.2)
  | .color color => (true, .color color, images_cache, [])
  | _ => (false, bg, images_cache, [])

/-- The function `background_finalize` (lines 995-1001). -/
def background_finalize (_bg : Background) : Background := .invalid

/-- The function `monitor_set_background` (lines 1003-1009) on the monitor
with index `monitor`. -/
def monitor_set_background (priv : GreeterBackgroundPrivate) (monitor : Nat)
    (background : Option BackgroundRef) : GreeterBackgroundPrivate :=
  { priv with
    monitors := priv.monitors.modify (fun m => { m with background := background }) monitor
    events := priv.events ++ [Event.monitor_queue_draw monitor] }

/-! ## Lid state (lines 692-755) -/

/-- The function `greeter_background_stop_dbus` (lines 738-744). -/
def greeter_background_stop_dbus (priv : GreeterBackgroundPrivate) :
    GreeterBackgroundPrivate :=
  { priv with laptop_upower_proxy := false }

/-- The function `greeter_background_try_init_dbus` (lines 692-736). The
parameter `upower` is the outcome of `g_dbus_proxy_new_for_bus_sync`: `none`
when no proxy could be created. -/
def greeter_background_try_init_dbus (priv : GreeterBackgroundPrivate)
    (upower : Option UPower) : GreeterBackgroundPrivate :=
  let priv := if priv.laptop_upower_proxy then greeter_background_stop_dbus priv else priv
  match upower with
  | none => { priv with laptop_upower_proxy := false }
  | some up =>
    let priv := { priv with laptop_upower_proxy := true }
    if !up.lid_is_present then greeter_background_stop_dbus priv
    else { priv with laptop_lid_closed := up.lid_is_closed }

/-- The function `greeter_background_monitor_enabled` (lines 746-755). -/
def greeter_background_monitor_enabled (priv : GreeterBackgroundPrivate)
    (monitor : Nat) : Bool :=
  if priv.laptop_upower_proxy && decide (monitor ∈ priv.laptop_monitors) then
    !priv.laptop_lid_closed
  else true

/-! ## Active monitor (lines 584-667) -/

/-- The field `background` of the monitor with index `monitor`. -/
def monitor_background (priv : GreeterBackgroundPrivate) (monitor : Nat) :
    Option BackgroundRef :=
  priv.monitors[monitor]?.bind (fun m => m.background)

/-- The loop of lines 602-607 over `active_monitors_config`: the first listed
identity that `monitors_map` knows and whose monitor has a background and is
enabled. -/
def active_monitor_from_config (priv : GreeterBackgroundPrivate) :
    List String → Option Nat
  | [] => none
  | id :: rest =>
    match g_hash_table_lookup priv.monitors_map id with
    | some monitor =>
      if (monitor_background priv monitor).isSome
          && greeter_background_monitor_enabled priv monitor then some monitor
      else active_monitor_from_config priv rest
    | none => active_monitor_from_config priv rest

/-- The primary-monitor step of lines 612-617. The outer `none` is a read
outside the monitor array (or without a screen). -/
def active_monitor_primary (priv : GreeterBackgroundPrivate) : Option (Option Nat) :=
  match priv.screen with
  | none => none
  | some screen =>
    match priv.monitors[screen.primary]? with
    | none => none
    | some m =>
      if m.background.isNone || !greeter_background_monitor_enabled priv screen.primary then
        some none
      else some (some screen.primary)

/-- The loop of lines 624-633 from index `i` on, for the monitors still to
visit: the values of `active` and `first_not_skipped` when it ends. -/
def active_monitor_fallback_loop (priv : GreeterBackgroundPrivate) :
    List Monitor → Nat → Option Nat → Option Nat × Option Nat
  | [], _, first_not_skipped => (none, first_not_skipped)
  | monitor :: rest, i, first_not_skipped =>
    if monitor.background.isNone then
      active_monitor_fallback_loop priv rest (i + 1) first_not_skipped
    else
      let active : Option Nat :=
        if greeter_background_monitor_enabled priv i then some i else none
      let first_not_skipped := if first_not_skipped.isNone then active else first_not_skipped
      if active.isSome then (active, first_not_skipped)
      else active_monitor_fallback_loop priv rest (i + 1) first_not_skipped

/-- The fallback of lines 620-636. -/
def active_monitor_fallback (priv : GreeterBackgroundPrivate) : Option Nat :=
  let r := active_monitor_fallback_loop priv priv.monitors 0 none
  if r.1.isNone then r.2 else r.1

/-- The automatic choice of lines 598-637, taken when `active` is `NULL`. -/
def active_monitor_auto (priv : GreeterBackgroundPrivate) : Option (Option Nat) :=
  match active_monitor_from_config priv priv.active_monitors_config with
  | some monitor => some (some monitor)
  | none =>
    match active_monitor_primary priv with
    | none => none
    | some (some monitor) => some (some monitor)
    | some none => some (active_monitor_fallback priv)

/-- The loop of lines 657-666 over the overlay windows. -/
def greeter_windows_update : List GtkWindow → List Event
  | [] => []
  | w :: rest =>
    (if w.visible then [Event.window_set_screen w.id, Event.window_restack w.id]
     else [Event.window_set_screen w.id]) ++ greeter_windows_update rest

/-- The lines 639-666: nothing when `active` is the current active monitor;
otherwise the new active monitor is stored, the signal emitted, the pointer
centred when it is outside the monitor, and the overlay windows re-stacked.
The sums of lines 649-653 are `gint` sums. With `active` being `NULL` the lines
643-653 dereference it. -/
def active_monitor_commit (priv : GreeterBackgroundPrivate) (active : Option Nat) :
    Option GreeterBackgroundPrivate :=
  if active = priv.active_monitor then some priv
  else
    match active with
    | none => none
    | some a =>
      match priv.monitors[a]? with
      | none => none
      | some m =>
        let priv := { priv with active_monitor := some a,
                                events := priv.events ++ [Event.active_monitor_changed] }
        let x := priv.cursor.1
        let y := priv.cursor.2
        let priv :=
          if x < m.geometry.x || x ≥ gint_add m.geometry.x m.geometry.width ||
             y < m.geometry.y || y ≥ gint_add m.geometry.y m.geometry.height then
            let cx := gint_add m.geometry.x (Int.tdiv m.geometry.width 2)
            let cy := gint_add m.geometry.y (Int.tdiv m.geometry.height 2)
            { priv with cursor := (cx, cy),
                        events := priv.events ++ [Event.set_cursor_position cx cy] }
          else priv
        some { priv with events := priv.events ++ greeter_windows_update priv.greeter_windows }

/-- The function `greeter_background_set_active_monitor` (lines 584-667). -/
def greeter_background_set_active_monitor (priv : GreeterBackgroundPrivate)
    (active : Option Nat) : Option GreeterBackgroundPrivate :=
  let auto : Option GreeterBackgroundPrivate :=
    match active_monitor_auto priv with
    | none => none
    | some chosen => active_monitor_commit priv chosen
  match active with
  | some a =>
    if (monitor_background priv a).isNone then
      if priv.active_monitor.isSome then some priv else auto
    else active_monitor_commit priv (some a)
  | none => auto

/-- The function `greeter_background_dbus_changed_cb` (lines 757-781);
`new_state` is the cached `LidIsClosed` property of the proxy. -/
def greeter_background_dbus_changed_cb (priv : GreeterBackgroundPrivate)
    (new_state : Bool) : Option GreeterBackgroundPrivate :=
  if new_state = priv.laptop_lid_closed then some priv
  else
    let priv := { priv with laptop_lid_closed := new_state }
    match priv.laptop_monitors with
    | [] => some priv
    | head :: _ =>
      if !priv.follow_cursor || (new_state && decide (some head = priv.active_monitor)) then
        greeter_background_set_active_monitor priv none
      else some priv

/-- The function `monitor_window_enter_notify_cb` (lines 1076-1085). -/
def monitor_window_enter_notify_cb (priv : GreeterBackgroundPrivate) (monitor : Nat) :
    Option GreeterBackgroundPrivate :=
  if decide (priv.active_monitor ≠ some monitor)
      && greeter_background_monitor_enabled priv monitor then
    greeter_background_set_active_monitor priv (some monitor)
  else some priv

/-! ## Screen connection (lines 412-565) -/

/-- The function `greeter_background_disconnect` (lines 539-565). -/
def greeter_background_disconnect (priv : GreeterBackgroundPrivate) :
    GreeterBackgroundPrivate :=
  { priv with screen := none, active_monitor := none, monitors := [],
              monitors_map := [], customized_monitors := [], laptop_monitors := [] }

/-- The lines 450-454: the configuration found for the monitor by
`greeter_background_find_monitor_data`, or else `default_config`. -/
def monitor_config_resolve (priv : GreeterBackgroundPrivate) (monitor : Monitor) :
    MonitorConfig :=
  match greeter_background_find_monitor_data priv.configs monitor with
  | some config => config
  | none => priv.default_config

/-- The lines 450-473 for the monitor with index `i` out of `monitors_size`:
the configuration the rest of the loop body uses, `none` when the body ends
with `continue` at line 467. Inside the loop `monitors_size` is at least 1, so
the unsigned `monitors_size - 1` of line 466 does not wrap. -/
def connect_monitor_config (priv : GreeterBackgroundPrivate) (monitors_size i : Nat)
    (first_not_skipped_monitor : Option Nat) (monitor : Monitor) : Option MonitorConfig :=
  let config := monitor_config_resolve priv monitor
  if config.bg.type = .SKIP then
    if decide (i < monitors_size - 1) || first_not_skipped_monitor.isSome then none
    else if priv.default_config.bg.type ≠ .SKIP then some priv.default_config
    else some DEFAULT_MONITOR_CONFIG
  else some config

/-- The lines 500-501: `background_initialize` with the configuration, and on
failure once more with the background of `DEFAULT_MONITOR_CONFIG`. The result
is `background_configured`, the cache and the files decoded. -/
def connect_background (gdk_pixbuf_new_from_file : String → Option GdkPixbuf)
    (bg : Background) (config : BackgroundConfig) (monitor : Monitor)
    (images_cache : Option (GHashTable GdkPixbuf)) :
    Background × Option (GHashTable GdkPixbuf) × List String :=
  let r := background_initialize gdk_pixbuf_new_from_file bg config monitor images_cache
  if !r.1 then
    let r2 := background_initialize gdk_pixbuf_new_from_file r.2.1
                DEFAULT_MONITOR_CONFIG.bg monitor r.2.2.1
    (r2.2.1, r2.2.2.1, r.2.2.2 ++ r2.2.2.2)
  else (r.2.1, r.2.2.1, r.2.2.2)

/-- The variables that the loop of lines 439-507 carries from one monitor to
the next. -/
structure ConnectLoop where
  priv : GreeterBackgroundPrivate
  first_not_skipped_monitor : Option Nat
  images_cache : Option (GHashTable GdkPixbuf)

/-- The body of the loop of lines 439-507 for the monitor with index `i`,
which the screen reports as `sm`. -/
def connect_monitor (gdk_pixbuf_new_from_file : String → Option GdkPixbuf)
    (monitors_size : Nat) (sm : ScreenMonitor) (i : Nat) (st : ConnectLoop) : ConnectLoop :=
  let priv := st.priv
  let monitor : Monitor :=
    { (priv.monitors.getD i Monitor.zero) with
      name := sm.plug_name, number := i, geometry := sm.geometry }
  let priv := { priv with monitors := priv.monitors.set i monitor }
  match connect_monitor_config priv monitors_size i st.first_not_skipped_monitor monitor with
  | none => { st with priv := priv }
  | some config =>
    let first_not_skipped_monitor :=
      if st.first_not_skipped_monitor.isNone then some i else st.first_not_skipped_monitor
    let priv :=
      if config.user_bg then { priv with customized_monitors := i :: priv.customized_monitors }
      else priv
    let priv :=
      if config.laptop then { priv with laptop_monitors := i :: priv.laptop_monitors }
      else priv
    let r := connect_background gdk_pixbuf_new_from_file monitor.background_configured
               config.bg monitor st.images_cache
    let monitor := { monitor with background_configured := r.1 }
    let priv := { priv with monitors := priv.monitors.set i monitor,
                            events := priv.events ++ r.2.2.map Event.pixbuf_new_from_file }
    let priv := monitor_set_background priv i (some .configured)
    let monitors_map :=
      match monitor.name with
      | some name => g_hash_table_insert priv.monitors_map name i
      | none => priv.monitors_map
    let monitors_map := g_hash_table_insert monitors_map (toString i) i
    { priv := { priv with monitors_map := monitors_map },
      first_not_skipped_monitor := first_not_skipped_monitor,
      images_cache := r.2.1 }

/-- The loop of lines 439-507 over the monitors the screen reports, from
index `i` on. -/
def connect_loop (gdk_pixbuf_new_from_file : String → Option GdkPixbuf)
    (monitors_size : Nat) : List ScreenMonitor → Nat → ConnectLoop → ConnectLoop
  | [], _, st => st
  | sm :: rest, i, st =>
    connect_loop gdk_pixbuf_new_from_file monitors_size rest (i + 1)
      (connect_monitor gdk_pixbuf_new_from_file monitors_size sm i st)

/-- The loop of lines 519-526 from index `i` on, for the monitors still to
visit and the pointer position `(x, y)` read at line 518. The sums of lines
523-524 are `gint` sums. -/
def connect_cursor_loop (x y : Int) :
    List Monitor → Nat → GreeterBackgroundPrivate → Option GreeterBackgroundPrivate
  | [], _, priv => some priv
  | monitor :: rest, i, priv =>
    if priv.active_monitor.isSome then some priv
    else if greeter_background_monitor_enabled priv i &&
        decide (x ≥ monitor.geometry.x) &&
        decide (x < gint_add monitor.geometry.x monitor.geometry.width) &&
        decide (y ≥ monitor.geometry.y) &&
        decide (y < gint_add monitor.geometry.y monitor.geometry.height) then
      match greeter_background_set_active_monitor priv (some i) with
      | none => none
      | some priv => connect_cursor_loop x y rest (i + 1) priv
    else connect_cursor_loop x y rest (i + 1) priv

/-- The lines 429-508 of `greeter_background_connect`: the monitor array, the
identity map and the two monitor lists are rebuilt for `screen`. -/
def connect_monitors (gdk_pixbuf_new_from_file : String → Option GdkPixbuf)
    (priv : GreeterBackgroundPrivate) (screen : GdkScreen) : GreeterBackgroundPrivate :=
  let monitors_size := screen.monitors.length
  let priv := { priv with screen := some screen,
                          monitors := List.replicate monitors_size Monitor.zero,
                          monitors_map := [] }
  (connect_loop gdk_pixbuf_new_from_file monitors_size screen.monitors 0
    { priv := priv, first_not_skipped_monitor := none, images_cache := some [] }).priv

/-- The function `greeter_background_connect` (lines 412-537). The parameter
`upower` is what `greeter_background_try_init_dbus` would find on the bus. -/
def greeter_background_connect (gdk_pixbuf_new_from_file : String → Option GdkPixbuf)
    (upower : Option UPower) (priv : GreeterBackgroundPrivate) (screen : GdkScreen) :
    Option GreeterBackgroundPrivate :=
  let priv := if priv.screen.isSome then greeter_background_disconnect priv else priv
  let priv := connect_monitors gdk_pixbuf_new_from_file priv screen
  let priv :=
    if !priv.laptop_monitors.isEmpty && !priv.laptop_upower_proxy then
      greeter_background_try_init_dbus priv upower
    else if priv.laptop_monitors.isEmpty then greeter_background_stop_dbus priv
    else priv
  let r : Option GreeterBackgroundPrivate :=
    if priv.follow_cursor_to_init then
      connect_cursor_loop priv.cursor.1 priv.cursor.2 priv.monitors 0 priv
    else some priv
  match r with
  | none => none
  | some priv =>
    if priv.active_monitor.isNone then greeter_background_set_active_monitor priv none
    else some priv

/-- The function `greeter_background_monitors_changed_cb` (lines 783-789). -/
def greeter_background_monitors_changed_cb
    (gdk_pixbuf_new_from_file : String → Option GdkPixbuf) (upower : Option UPower)
    (priv : GreeterBackgroundPrivate) (screen : GdkScreen) :
    Option GreeterBackgroundPrivate :=
  greeter_background_connect gdk_pixbuf_new_from_file upower priv screen

/-! ## Overlay windows and custom background (lines 791-863) -/

/-- The function `greeter_background_add_subwindow` (lines 791-807). -/
def greeter_background_add_subwindow (priv : GreeterBackgroundPrivate) (window : GtkWindow) :
    GreeterBackgroundPrivate :=
  let priv :=
    if window.id ∈ priv.greeter_windows.map GtkWindow.id then priv
    else { priv with greeter_windows := window :: priv.greeter_windows }
  if priv.screen.isSome then
    { priv with events := priv.events ++ [Event.window_set_screen window.id] }
  else priv

/-- The function `greeter_background_remove_subwindow` (lines 809-825). -/
def greeter_background_remove_subwindow (priv : GreeterBackgroundPrivate) (window : Nat) :
    GreeterBackgroundPrivate :=
  { priv with greeter_windows := priv.greeter_windows.filter (fun w => decide (w.id ≠ window)) }

/-- The body of the loop of lines 845-855 for the customizable monitor with
index `m`; the state is paired with the image cache. -/
def custom_background_monitor (gdk_pixbuf_new_from_file : String → Option GdkPixbuf)
    (config : BackgroundConfig) (m : Nat)
    (st : GreeterBackgroundPrivate × Option (GHashTable GdkPixbuf)) :
    GreeterBackgroundPrivate × Option (GHashTable GdkPixbuf) :=
  let priv := st.1
  match priv.monitors[m]? with
  | none => st
  | some monitor =>
    let monitor := { monitor with
                     background_custom := background_finalize monitor.background_custom }
    if config.type ≠ .INVALID then
      let r := background_initialize gdk_pixbuf_new_from_file monitor.background_custom
                 config monitor st.2
      let monitor := { monitor with background_custom := r.2.1 }
      let priv := { priv with monitors := priv.monitors.set m monitor,
                              events := priv.events ++ r.2.2.2.map Event.pixbuf_new_from_file }
      if r.1 then (monitor_set_background priv m (some .custom), r.2.2.1)
      else (monitor_set_background priv m (some .configured), r.2.2.1)
    else
      let priv := { priv with monitors := priv.monitors.set m monitor }
      (monitor_set_background priv m (some .configured), st.2)

/-- The loop of lines 845-855 over `customized_monitors`. -/
def custom_background_loop (gdk_pixbuf_new_from_file : String → Option GdkPixbuf)
    (config : BackgroundConfig) :
    List Nat → GreeterBackgroundPrivate × Option (GHashTable GdkPixbuf) →
      GreeterBackgroundPrivate × Option (GHashTable GdkPixbuf)
  | [], st => st
  | m :: rest, st =>
    custom_background_loop gdk_pixbuf_new_from_file config rest
      (custom_background_monitor gdk_pixbuf_new_from_file config m st)

/-- The function `greeter_background_set_custom_background` (lines 827-863). -/
def greeter_background_set_custom_background (gdk_rgba_parse : String → Option GdkRGBA)
    (gdk_pixbuf_new_from_file : String → Option GdkPixbuf)
    (priv : GreeterBackgroundPrivate) (value : Option String) : GreeterBackgroundPrivate :=
  if priv.customized_monitors.isEmpty then priv
  else
    let config := ( background_config_initialize gdk_rgba_parse value).2
    let images_cache : Option (GHashTable GdkPixbuf) :=
      if config.type = .IMAGE then some [] else none
    let st := custom_background_loop gdk_pixbuf_new_from_file config
                priv.customized_monitors (priv, images_cache)
    { st.1 with events := st.1.events ++
                  priv.greeter_windows.map (fun w => Event.window_queue_draw w.id) }

/-! ## Reachable states -/

/-- The states the greeter can be in: the state after `greeter_background_init`,
and every state one call of the interface or one event (layout change, pointer
entering the window of a monitor, lid property change, pointer motion) leads
to from such a state. The toolkit oracles (colour parser, image decoder, power
service) are arbitrary at every step; a step that ends in a fault has no
successor. The pointer may enter the window of any monitor of the array, and
`greeter_background_set_active_monitor` may be called with any monitor of the
array or with `NULL`. -/
inductive Reachable : GreeterBackgroundPrivate → Prop
  | init (cursor : Int × Int) : Reachable (greeter_background_init cursor)
  | set_active_monitor_config {s : GreeterBackgroundPrivate} (h : Reachable s)
      (value : Option String) :
      Reachable (greeter_background_set_active_monitor_config s value)
  | set_default_config {s : GreeterBackgroundPrivate} (h : Reachable s)
      (gdk_rgba_parse : String → Option GdkRGBA) (bg : Option String) (user_bg laptop : Bool) :
      Reachable (greeter_background_set_default_config gdk_rgba_parse s bg user_bg laptop)
  | set_monitor_config {s : GreeterBackgroundPrivate} (h : Reachable s)
      (gdk_rgba_parse : String → Option GdkRGBA) (name : String) (bg : Option String)
      (user_bg user_bg_used laptop laptop_used : Bool) :
      Reachable (greeter_background_set_monitor_config gdk_rgba_parse s name bg
        user_bg user_bg_used laptop laptop_used)
  | remove_monitor_config {s : GreeterBackgroundPrivate} (h : Reachable s) (name : String) :
      Reachable (greeter_background_remove_monitor_config s name)
  | connect {s s' : GreeterBackgroundPrivate} (h : Reachable s)
      (gdk_pixbuf_new_from_file : String → Option GdkPixbuf) (upower : Option UPower)
      (screen : GdkScreen)
      (step : greeter_background_connect gdk_pixbuf_new_from_file upower s screen = some s') :
      Reachable s'
  | disconnect {s : GreeterBackgroundPrivate} (h : Reachable s) :
      Reachable (greeter_background_disconnect s)
  | set_active_monitor {s s' : GreeterBackgroundPrivate} (h : Reachable s)
      (active : Option Nat) (valid : ∀ a, active = some a → a < s.monitors.length)
      (step : greeter_background_set_active_monitor s active = some s') :
      Reachable s'
  | enter_notify {s s' : GreeterBackgroundPrivate} (h : Reachable s)
      (monitor : Nat) (valid : monitor < s.monitors.length)
      (step : monitor_window_enter_notify_cb s monitor = some s') :
      Reachable s'
  | dbus_changed {s s' : GreeterBackgroundPrivate} (h : Reachable s)
      (proxy : s.laptop_upower_proxy = true) (new_state : Bool)
      (step : greeter_background_dbus_changed_cb s new_state = some s') :
      Reachable s'
  | set_custom_background {s : GreeterBackgroundPrivate} (h : Reachable s)
      (gdk_rgba_parse : String → Option GdkRGBA)
      (gdk_pixbuf_new_from_file : String → Option GdkPixbuf) (value : Option String) :
      Reachable (greeter_background_set_custom_background gdk_rgba_parse
        gdk_pixbuf_new_from_file s value)
  | add_subwindow {s : GreeterBackgroundPrivate} (h : Reachable s) (window : GtkWindow) :
      Reachable (greeter_background_add_subwindow s window)
  | remove_subwindow {s : GreeterBackgroundPrivate} (h : Reachable s) (window : Nat) :
      Reachable (greeter_background_remove_subwindow s window)
  | pointer_moved {s : GreeterBackgroundPrivate} (h : Reachable s) (x y : Int) :
      Reachable { s with cursor := (x, y) }

/-- A monitor qualifies for automatic selection: it has a background and is enabled. -/
def selectable (s : GreeterBackgroundPrivate) (m : Nat) : Prop :=
  (monitor_background s m).isSome = true ∧ greeter_background_monitor_enabled s m = true

instance (s : GreeterBackgroundPrivate) (m : Nat) : Decidable (selectable s m) := by
  unfold selectable; infer_instance

/-- The state `s'` differs from `s` at most in the monitor array, the identity
map, the two monitor lists and the log of toolkit calls. -/
def registry_frame (s s' : GreeterBackgroundPrivate) : Prop :=
  s'.screen = s.screen ∧ s'.greeter_windows = s.greeter_windows ∧
  s'.configs = s.configs ∧ s'.default_config = s.default_config ∧
  s'.active_monitors_config = s.active_monitors_config ∧
  s'.active_monitor = s.active_monitor ∧
  s'.laptop_upower_proxy = s.laptop_upower_proxy ∧
  s'.laptop_lid_closed = s.laptop_lid_closed ∧
  s'.follow_cursor = s.follow_cursor ∧
  s'.follow_cursor_to_init = s.follow_cursor_to_init ∧ s'.cursor = s.cursor

/-- The state `s'` has the monitor registry, the lid state and the
configuration of `s`: it differs at most in the active monitor, the pointer
position and the log of toolkit calls. -/
def selection_frame (s s' : GreeterBackgroundPrivate) : Prop :=
  s'.monitors = s.monitors ∧ s'.screen = s.screen ∧
  s'.customized_monitors = s.customized_monitors ∧
  s'.laptop_monitors = s.laptop_monitors ∧
  s'.laptop_upower_proxy = s.laptop_upower_proxy ∧
  s'.laptop_lid_closed = s.laptop_lid_closed ∧
  s'.monitors_map = s.monitors_map ∧ s'.configs = s.configs ∧
  s'.default_config = s.default_config

/-! ## Example screens and states -/

/-- A screen with the monitors `A`, `B` and `C` side by side, `C` being the
primary one. -/
def screen_abc : GdkScreen :=
  { monitors := [⟨some "A", ⟨0, 0, 100, 100⟩⟩, ⟨some "B", ⟨100, 0, 100, 100⟩⟩,
                 ⟨some "C", ⟨200, 0, 100, 100⟩⟩],
    primary := 2 }

/-- A screen with the external monitor `HDMI` (primary) and the panel `LVDS`. -/
def screen_laptop : GdkScreen :=
  { monitors := [⟨some "HDMI", ⟨0, 0, 100, 100⟩⟩, ⟨some "LVDS", ⟨100, 0, 100, 100⟩⟩],
    primary := 0 }

/-- A screen with the panel `LVDS` alone. -/
def screen_panel : GdkScreen :=
  { monitors := [⟨some "LVDS", ⟨0, 0, 100, 100⟩⟩], primary := 0 }

/-- A colour parser that accepts `black` only. -/
def parse_black (value : String) : Option GdkRGBA :=
  if value = "black" then some ⟨0, 0, 0, 1⟩ else none

/-- A decoder for which no file is readable. -/
def no_file (_path : String) : Option GdkPixbuf := none

/-- The configuration `active-monitor=B;A` with default backgrounds. -/
def config_abc : GreeterBackgroundPrivate :=
  greeter_background_set_active_monitor_config (greeter_background_init (0, 0)) (some "B;A")

/-- The state after `config_abc` is connected to `screen_abc`. -/
def state_abc : GreeterBackgroundPrivate :=
  (greeter_background_connect no_file none config_abc screen_abc).getD config_abc

/-- The configuration in which the monitor `LVDS` is flagged `laptop`. -/
def config_laptop : GreeterBackgroundPrivate :=
  greeter_background_set_monitor_config parse_black (greeter_background_init (0, 0))
    "LVDS" none false false true true

/-- The state after `config_laptop` is connected to `screen_laptop` while the
lid is closed. -/
def state_laptop_closed : GreeterBackgroundPrivate :=
  (greeter_background_connect no_file (some ⟨true, true⟩) config_laptop screen_laptop).getD
    config_laptop

/-- The state after `config_laptop` is connected to `screen_panel` while the
lid is open. -/
def state_panel_open : GreeterBackgroundPrivate :=
  (greeter_background_connect no_file (some ⟨true, false⟩) config_laptop screen_panel).getD
    config_laptop

/-- The configuration in which every monitor is skipped by default. -/
def config_skip : GreeterBackgroundPrivate :=
  greeter_background_set_default_config parse_black (greeter_background_init (0, 0))
    (some "#skip") false true

/-! ## The rebuild in closed form -/

/-- The configuration that the monitor with index `i` of `screen` resolves to
(lines 450-454); `none` when the screen has no such monitor. -/
def screen_monitor_config (priv : GreeterBackgroundPrivate) (screen : GdkScreen) (i : Nat) :
    Option MonitorConfig :=
  screen.monitors[i]?.map
    (fun sm => monitor_config_resolve priv { Monitor.zero with name := sm.plug_name, number := i })

/-- The configuration with which a rebuild for `screen` constructs the monitor
with index `i`, and `none` when the monitor is skipped: a monitor whose
resolved background is not `#skip` is constructed with its resolved
configuration; one whose resolved background is `#skip` is constructed only
when it is the last monitor and every earlier monitor resolves to `#skip`, and
then with `default_config` when that is not `#skip` and with
`DEFAULT_MONITOR_CONFIG` otherwise. This is the effective configuration of the
specification, a closed form of the lines 450-473; `connect_monitors_rebuild`
relates it to the loop. -/
def rebuild_config (priv : GreeterBackgroundPrivate) (screen : GdkScreen) (i : Nat) :
    Option MonitorConfig :=
  match screen_monitor_config priv screen i with
  | none => none
  | some config =>
    if config.bg.type ≠ .SKIP then some config
    else if i + 1 = screen.monitors.length ∧
        (List.range i).all (fun k =>
          decide ((screen_monitor_config priv screen k).map (fun c => c.bg.type)
            = some BackgroundType.SKIP)) = true then
      some (if priv.default_config.bg.type ≠ .SKIP then priv.default_config
            else DEFAULT_MONITOR_CONFIG)
    else none

/-- The entry of the monitor array after a rebuild, for the monitor with index
`i` that the screen reports as `sm`: as `g_new0` and the lines 444-456 leave it
when the monitor is skipped, and with `background` pointing to a configured
background rendered by the lines 500-501 when it is constructed with `cfg`. -/
def rebuilt_monitor (load : String → Option GdkPixbuf) (i : Nat) (sm : ScreenMonitor) :
    Option MonitorConfig → Monitor → Prop
  | none, mon =>
    mon = { Monitor.zero with name := sm.plug_name, number := i, geometry := sm.geometry }
  | some cfg, mon =>
    ∃ cache : Option (GHashTable GdkPixbuf),
      mon = { number := i, name := sm.plug_name, geometry := sm.geometry,
              background_configured :=
                (connect_background load .invalid cfg.bg
                  { Monitor.zero with name := sm.plug_name, number := i,
                                      geometry := sm.geometry } cache).1,
              background_custom := .invalid, background := some .configured }

/-- The invariant of the loop of lines 439-507 when it reaches index `i`,
started from `priv0`. -/
def rebuild_inv (load : String → Option GdkPixbuf) (priv0 : GreeterBackgroundPrivate)
    (screen : GdkScreen) (i : Nat) (st : ConnectLoop) : Prop :=
  st.priv.monitors.length = screen.monitors.length ∧
  st.priv.configs = priv0.configs ∧ st.priv.default_config = priv0.default_config ∧
  (st.first_not_skipped_monitor.isSome = true ↔
    ∃ k, k < i ∧ rebuild_config priv0 screen k ≠ none) ∧
  (∀ k, k ∈ st.priv.customized_monitors ↔
    (k ∈ priv0.customized_monitors ∨
      (k < i ∧ ∃ cfg, rebuild_config priv0 screen k = some cfg ∧ cfg.user_bg = true))) ∧
  (∀ k, k ∈ st.priv.laptop_monitors ↔
    (k ∈ priv0.laptop_monitors ∨
      (k < i ∧ ∃ cfg, rebuild_config priv0 screen k = some cfg ∧ cfg.laptop = true))) ∧
  (∀ k sm, k < i → screen.monitors[k]? = some sm →
    ∃ mon, st.priv.monitors[k]? = some mon ∧
      rebuilt_monitor load k sm (rebuild_config priv0 screen k) mon) ∧
  (∀ k, i ≤ k → k < screen.monitors.length → st.priv.monitors[k]? = some Monitor.zero)

/-- The configuration whose default is black and not customizable. -/
def config_no_user_bg : GreeterBackgroundPrivate :=
  greeter_background_set_default_config parse_black (greeter_background_init (0, 0))
    (some "black") false false

/-- The state after `config_no_user_bg` is connected to `screen_abc` and the
overlay window 7 is attached. -/
def state_overlay : GreeterBackgroundPrivate :=
  greeter_background_add_subwindow
    ((greeter_background_connect no_file none config_no_user_bg screen_abc).getD
      config_no_user_bg) ⟨7, true⟩

/-- The configuration in which the monitor `B` is black and not customizable,
the default being customizable. -/
def config_plain_b : GreeterBackgroundPrivate :=
  greeter_background_set_monitor_config parse_black (greeter_background_init (0, 0))
    "B" (some "black") false true false false

/-- The state after `config_plain_b` is connected to `screen_abc`. -/
def state_plain_b : GreeterBackgroundPrivate :=
  (greeter_background_connect no_file none config_plain_b screen_abc).getD config_plain_b

/-- The configuration `config_laptop` with `active-monitor=LVDS`. -/
def config_lvds_first : GreeterBackgroundPrivate :=
  greeter_background_set_active_monitor_config config_laptop (some "LVDS")

/-- The state after `config_lvds_first` is connected to `screen_laptop` while
the lid is open. -/
def state_lvds_open : GreeterBackgroundPrivate :=
  (greeter_background_connect no_file (some ⟨true, false⟩) config_lvds_first
    screen_laptop).getD config_lvds_first

/-- The state after the lid is closed in `state_lvds_open`. -/
def state_lvds_closed : GreeterBackgroundPrivate :=
  (greeter_background_dbus_changed_cb state_lvds_open true).getD state_lvds_open

/-- A decoder for which `/a.png`, an image of 10 x 10 pixels, is the only
readable file. -/
def one_file (path : String) : Option GdkPixbuf :=
  if path = "/a.png" then some (.file "/a.png" 10 10) else none

/-! ## Saving the root pixmap (lines 865-891) -/

/-- What `greeter_background_save_xroot` does with the monitor array: the
indices `i` at which it reads `priv->monitors[i].background` (line 878), and
the monitors it hands to `monitor_draw_background` (line 884), both in the
order of execution. -/
structure XRootTrace where
  reads : List Nat
  draws : List Nat
  deriving DecidableEq, Repr

/-- The body of the loop of lines 875-886 for the index `i`. The array has
`priv.monitors.length` entries; what the read at an index past the last entry
finds is the parameter `past_end`. The result is `none` when `active_monitor`
is `NULL` where line 883 dereferences it. -/
def save_xroot_step (past_end : Monitor) (priv : GreeterBackgroundPrivate) (i : Nat)
    (t : XRootTrace) : Option XRootTrace :=
  if some i = priv.active_monitor then some t
  else
    let monitor := priv.monitors.getD i past_end
    let t := { t with reads := t.reads ++ [i] }
    if monitor.background.isNone then some t
    else if i = priv.monitors.length then
      match priv.active_monitor with
      | none => none
      | some active => some { t with draws := t.draws ++ [active] }
    else some { t with draws := t.draws ++ [i] }

/-- The loop of lines 875-886 over the indices still to visit. -/
def save_xroot_loop (past_end : Monitor) (priv : GreeterBackgroundPrivate) :
    List Nat → XRootTrace → Option XRootTrace
  | [], t => some t
  | i :: rest, t =>
    match save_xroot_step past_end priv i t with
    | none => none
    | some t => save_xroot_loop past_end priv rest t

/-- The function `greeter_background_save_xroot` (lines 865-891): the loop runs
for `i = 0, ..., monitors_size`, the bound of line 875 being
`i <= priv->monitors_size`. -/
def greeter_background_save_xroot (past_end : Monitor) (priv : GreeterBackgroundPrivate) :
    Option XRootTrace :=
  save_xroot_loop past_end priv (List.range (priv.monitors.length + 1)) ⟨[], []⟩

/-! ## The state between the rebuild and the selection -/

/-- The state at line 514 of `greeter_background_connect`: after the rebuild of
the lines 429-508 and the lines 510-513, which start or stop the lid
tracking. -/
def connect_registry (gdk_pixbuf_new_from_file : String → Option GdkPixbuf)
    (upower : Option UPower) (priv : GreeterBackgroundPrivate) (screen : GdkScreen) :
    GreeterBackgroundPrivate :=
  let priv := if priv.screen.isSome then greeter_background_disconnect priv else priv
  let priv := connect_monitors gdk_pixbuf_new_from_file priv screen
  if !priv.laptop_monitors.isEmpty && !priv.laptop_upower_proxy then
    greeter_background_try_init_dbus priv upower
  else if priv.laptop_monitors.isEmpty then greeter_background_stop_dbus priv
  else priv

/-- The configuration in which the monitors `A` and `B` are flagged `laptop`
and the active monitor follows the pointer, which is at `cursor`. -/
def config_two_laptops (cursor : Int × Int) : GreeterBackgroundPrivate :=
  greeter_background_set_active_monitor_config
    (greeter_background_set_monitor_config parse_black
      (greeter_background_set_monitor_config parse_black (greeter_background_init cursor)
        "A" none false false true true)
      "B" none false false true true)
    (some "#cursor")

/-- The state after `config_two_laptops cursor` is connected to `screen_abc`
while the lid is open. -/
def state_two_laptops (cursor : Int × Int) : GreeterBackgroundPrivate :=
  (greeter_background_connect no_file (some ⟨true, false⟩) (config_two_laptops cursor)
    screen_abc).getD (config_two_laptops cursor)

/-- The configuration `active-monitor=#cursor` with the pointer at `(150, 50)`. -/
def config_cursor : GreeterBackgroundPrivate :=
  greeter_background_set_active_monitor_config (greeter_background_init (150, 50))
    (some "#cursor")

/-- The configuration in which both `HDMI` and `LVDS` are flagged `laptop`. -/
def config_all_laptops : GreeterBackgroundPrivate :=
  greeter_background_set_monitor_config parse_black
    (greeter_background_set_monitor_config parse_black (greeter_background_init (0, 0))
      "HDMI" none false false true true)
    "LVDS" none false false true true

/-- The state after `config_all_laptops` is connected to `screen_laptop` while
the lid is open. -/
def state_all_laptops : GreeterBackgroundPrivate :=
  (greeter_background_connect no_file (some ⟨true, false⟩) config_all_laptops
    screen_laptop).getD config_all_laptops

/-- A screen whose second monitor ends beyond the `gint` range: `FAR` starts
at x = 2147483600 and is 100 wide. -/
def screen_far : GdkScreen :=
  { monitors := [⟨some "NEAR", ⟨0, 0, 100, 100⟩⟩, ⟨some "FAR", ⟨2147483600, 0, 100, 100⟩⟩],
    primary := 0 }

/-- The configuration `active-monitor=#cursor` with the pointer at
`(2147483620, 50)`. -/
def config_far : GreeterBackgroundPrivate :=
  greeter_background_set_active_monitor_config (greeter_background_init (2147483620, 50))
    (some "#cursor")

theorem lookup_remove_self {α : Type} (t : GHashTable α) (key : String) :
    g_hash_table_lookup (g_hash_table_remove t key) key = none := by
  induction t with
  | nil => rfl
  | cons p t ih =>
    obtain ⟨k, v⟩ := p
    by_cases hk : k = key
    · simp [g_hash_table_remove, List.filter, hk] at ih ⊢
      exact ih
    · simp [g_hash_table_remove, List.filter, hk, g_hash_table_lookup] at ih ⊢
      exact ih

theorem lookup_remove_other {α : Type} (t : GHashTable α) (key k' : String) (h : k' ≠ key) :
    g_hash_table_lookup (g_hash_table_remove t key) k' = g_hash_table_lookup t k' := by
  induction t with
  | nil => rfl
  | cons p t ih =>
    obtain ⟨k, v⟩ := p
    by_cases hk : k = key
    · have hk' : k ≠ k' := fun e => h (e ▸ hk ▸ rfl)
      simp [g_hash_table_remove, List.filter, hk, g_hash_table_lookup] at ih ⊢
      rw [ih]
      have : ¬ key = k' := fun e => h e.symm
      simp [this]
    · simp [g_hash_table_remove, List.filter, hk, g_hash_table_lookup] at ih ⊢
      rw [ih]

theorem lookup_insert_self {α : Type} (t : GHashTable α) (key : String) (v : α) :
    g_hash_table_lookup (g_hash_table_insert t key v) key = some v := by
  simp [g_hash_table_insert, g_hash_table_lookup]

theorem lookup_insert_other {α : Type} (t : GHashTable α) (key k' : String) (v : α)
    (h : k' ≠ key) :
    g_hash_table_lookup (g_hash_table_insert t key v) k' = g_hash_table_lookup t k' := by
  have : ¬ key = k' := fun e => h e.symm
  simp [g_hash_table_insert, g_hash_table_lookup, this]
  exact lookup_remove_other t key k' h

theorem monitor_enabled_eq_false_iff (s : GreeterBackgroundPrivate) (monitor : Nat) :
    greeter_background_monitor_enabled s monitor = false ↔
      (monitor ∈ s.laptop_monitors ∧ s.laptop_upower_proxy = true ∧
        s.laptop_lid_closed = true) := by
  unfold greeter_background_monitor_enabled
  by_cases hp : s.laptop_upower_proxy = true <;> by_cases hm : monitor ∈ s.laptop_monitors <;>
    simp [hp, hm]

theorem try_init_dbus_no_proxy (s : GreeterBackgroundPrivate) (upower : Option UPower)
    (h : upower = none ∨ ∃ up, upower = some up ∧ up.lid_is_present = false) :
    (greeter_background_try_init_dbus s upower).laptop_upower_proxy = false := by
  rcases h with h | ⟨up, h, hl⟩
  · subst h
    simp [greeter_background_try_init_dbus]
  · subst h
    simp [greeter_background_try_init_dbus, hl, greeter_background_stop_dbus]

theorem find_monitor_data_by_name {α : Type} (table : GHashTable α) (monitor : Monitor)
    (name : String) (c : α) (hn : monitor.name = some name)
    (hc : g_hash_table_lookup table name = some c) :
    greeter_background_find_monitor_data table monitor = some c := by
  simp [greeter_background_find_monitor_data, hn, hc]

theorem find_monitor_data_by_number {α : Type} (table : GHashTable α) (monitor : Monitor)
    (hn : monitor.name = none ∨
      ∃ name, monitor.name = some name ∧ g_hash_table_lookup table name = none) :
    greeter_background_find_monitor_data table monitor =
      g_hash_table_lookup table (toString monitor.number) := by
  rcases hn with hn | ⟨name, hn, hl⟩
  · simp [greeter_background_find_monitor_data, hn]
  · simp [greeter_background_find_monitor_data, hn, hl]

theorem monitor_background_lt {s : GreeterBackgroundPrivate} {m : Nat}
    (h : (monitor_background s m).isSome = true) : m < s.monitors.length := by
  unfold monitor_background at h
  by_contra hlt
  have : s.monitors[m]? = none := List.getElem?_eq_none (Nat.le_of_not_lt hlt)
  simp [this] at h

theorem monitor_background_getElem {s : GreeterBackgroundPrivate} {m : Nat} {mon : Monitor}
    (h : s.monitors[m]? = some mon) : monitor_background s m = mon.background := by
  simp [monitor_background, h]

/-! ### The commit step -/

theorem commit_same (s : GreeterBackgroundPrivate) :
    active_monitor_commit s s.active_monitor = some s := by
  simp [active_monitor_commit]

theorem commit_frame {s s' : GreeterBackgroundPrivate} {a : Option Nat}
    (h : active_monitor_commit s a = some s') :
    s' = { s with active_monitor := s'.active_monitor, cursor := s'.cursor,
                  events := s'.events } := by
  unfold active_monitor_commit at h
  split at h
  · cases h; rfl
  · split at h
    · cases h
    · split at h
      · cases h
      · simp only [Option.some.injEq] at h
        subst h
        split <;> rfl

theorem commit_active {s s' : GreeterBackgroundPrivate} {a : Option Nat}
    (h : active_monitor_commit s a = some s') : s'.active_monitor = a := by
  unfold active_monitor_commit at h
  split at h
  · cases h; symm; assumption
  · split at h
    · cases h
    · split at h
      · cases h
      · simp only [Option.some.injEq] at h
        subst h
        split <;> rfl

theorem commit_isSome (s : GreeterBackgroundPrivate) (a : Nat) (h : a < s.monitors.length) :
    ∃ s', active_monitor_commit s (some a) = some s' := by
  unfold active_monitor_commit
  split
  · exact ⟨_, rfl⟩
  · have : s.monitors[a]? = some s.monitors[a] := List.getElem?_eq_getElem h
    simp only [this]
    exact ⟨_, rfl⟩

theorem commit_none_cases (s : GreeterBackgroundPrivate) :
    (s.active_monitor = none ∧ active_monitor_commit s none = some s) ∨
    (s.active_monitor ≠ none ∧ active_monitor_commit s none = none) := by
  unfold active_monitor_commit
  by_cases h : s.active_monitor = none
  · left; simp [h]
  · right
    refine ⟨h, ?_⟩
    have : ¬ (none = s.active_monitor) := fun e => h e.symm
    simp [this]

/-! ### The three selection steps -/

theorem from_config_some {s : GreeterBackgroundPrivate} {l : List String} {m : Nat}
    (h : active_monitor_from_config s l = some m) :
    ∃ pre id post, l = pre ++ id :: post ∧ g_hash_table_lookup s.monitors_map id = some m ∧
      selectable s m ∧
      ∀ id' ∈ pre, ∀ m', g_hash_table_lookup s.monitors_map id' = some m' → ¬ selectable s m' := by
  induction l with
  | nil => simp [active_monitor_from_config] at h
  | cons id rest ih =>
    unfold active_monitor_from_config at h
    cases hl : g_hash_table_lookup s.monitors_map id with
    | none =>
      simp only [hl] at h
      obtain ⟨pre, id2, post, e, h1, h2, h3⟩ := ih h
      refine ⟨id :: pre, id2, post, by simp [e], h1, h2, ?_⟩
      intro id' hid m' hm'
      rcases List.mem_cons.mp hid with e' | hin
      · subst e'; rw [hl] at hm'; cases hm'
      · exact h3 id' hin m' hm'
    | some mon =>
      simp only [hl] at h
      by_cases hq : ((monitor_background s mon).isSome
          && greeter_background_monitor_enabled s mon) = true
      · simp only [hq, if_true, Option.some.injEq] at h
        subst h
        refine ⟨[], id, rest, rfl, hl, ?_, by simp⟩
        simpa [selectable] using hq
      · simp only [hq] at h
        obtain ⟨pre, id2, post, e, h1, h2, h3⟩ := ih h
        refine ⟨id :: pre, id2, post, by simp [e], h1, h2, ?_⟩
        intro id' hid m' hm'
        rcases List.mem_cons.mp hid with e' | hin
        · subst e'; rw [hl] at hm'; cases hm'
          intro hs
          apply hq
          simpa [selectable] using hs
        · exact h3 id' hin m' hm'

theorem from_config_none {s : GreeterBackgroundPrivate} {l : List String} :
    active_monitor_from_config s l = none ↔
      ∀ id ∈ l, ∀ m, g_hash_table_lookup s.monitors_map id = some m → ¬ selectable s m := by
  induction l with
  | nil => simp [active_monitor_from_config]
  | cons id rest ih =>
    unfold active_monitor_from_config
    cases hl : g_hash_table_lookup s.monitors_map id with
    | none =>
      simp only [ih, List.mem_cons]
      constructor
      · intro h id' hid m hm
        rcases hid with e | hin
        · subst e; rw [hl] at hm; cases hm
        · exact h id' hin m hm
      · intro h id' hid m hm
        exact h id' (Or.inr hid) m hm
    | some mon =>
      by_cases hq : ((monitor_background s mon).isSome
          && greeter_background_monitor_enabled s mon) = true
      · simp only [hq, if_true, List.mem_cons]
        constructor
        · intro h; cases h
        · intro h
          exfalso
          apply h id (Or.inl rfl) mon hl
          simpa [selectable] using hq
      · simp only []
        rw [if_neg hq, ih]
        simp only [List.mem_cons]
        constructor
        · intro h id' hid m hm
          rcases hid with e | hin
          · subst e; rw [hl] at hm; cases hm
            intro hs
            apply hq
            simpa [selectable] using hs
          · exact h id' hin m hm
        · intro h id' hid m hm
          exact h id' (Or.inr hid) m hm

theorem from_config_first {s : GreeterBackgroundPrivate} {pre post : List String} {id : String}
    {m : Nat} (hm : g_hash_table_lookup s.monitors_map id = some m) (hq : selectable s m)
    (hpre : ∀ id' ∈ pre, ∀ m', g_hash_table_lookup s.monitors_map id' = some m' →
      ¬ selectable s m') :
    active_monitor_from_config s (pre ++ id :: post) = some m := by
  induction pre with
  | nil =>
    have : ((monitor_background s m).isSome && greeter_background_monitor_enabled s m) = true := by
      simpa [selectable] using hq
    simp [active_monitor_from_config, hm, this]
  | cons id0 pre ih =>
    have ih' := ih (fun id' hin => hpre id' (List.mem_cons_of_mem _ hin))
    simp only [List.cons_append]
    unfold active_monitor_from_config
    cases hl : g_hash_table_lookup s.monitors_map id0 with
    | none => simpa using ih'
    | some mon =>
      have hn := hpre id0 (List.mem_cons_self _ _) mon hl
      have : ¬ ((monitor_background s mon).isSome
          && greeter_background_monitor_enabled s mon) = true := by
        intro hc; apply hn; simpa [selectable] using hc
      simpa [this] using ih'

theorem primary_cases {s : GreeterBackgroundPrivate} {screen : GdkScreen}
    (hs : s.screen = some screen) (hp : screen.primary < s.monitors.length) :
    active_monitor_primary s =
      some (if selectable s screen.primary then some screen.primary else none) := by
  have hg : s.monitors[screen.primary]? = some s.monitors[screen.primary] :=
    List.getElem?_eq_getElem hp
  have hb := monitor_background_getElem hg
  unfold active_monitor_primary
  simp only [hs, hg]
  by_cases hq : selectable s screen.primary
  · have h1 := hq.1
    have h2 := hq.2
    rw [hb] at h1
    have h1' : s.monitors[screen.primary].background.isNone = false := by
      cases hx : s.monitors[screen.primary].background <;> simp [hx] at h1 ⊢
    simp [hq, h1', h2]
  · simp only [hq, if_false]
    have : (s.monitors[screen.primary].background.isNone
        || !greeter_background_monitor_enabled s screen.primary) = true := by
      by_contra hc
      apply hq
      simp only [Bool.or_eq_true, not_or, Bool.not_eq_true, Bool.not_eq_true', Bool.not_eq_false] at hc
      refine ⟨?_, by simpa using hc.2⟩
      rw [hb]
      cases hx : s.monitors[screen.primary].background <;> simp [hx] at hc ⊢
    simp [this]

theorem not_selectable_of_length_le {s : GreeterBackgroundPrivate} {j : Nat}
    (h : s.monitors.length ≤ j) : ¬ selectable s j := by
  intro hq
  exact absurd (monitor_background_lt hq.1) (Nat.not_lt.mpr h)

theorem drop_cons_getElem? {α : Type} {l rest : List α} {a : α} {i : Nat}
    (h : l.drop i = a :: rest) : l[i]? = some a ∧ l.drop (i + 1) = rest := by
  have hlt : i < l.length := by
    by_contra hc
    rw [List.drop_eq_nil_of_le (Nat.le_of_not_lt hc)] at h
    cases h
  rw [List.drop_eq_getElem_cons hlt] at h
  injection h with h1 h2
  exact ⟨by rw [List.getElem?_eq_getElem hlt, h1], h2⟩

theorem fallback_loop_snd (s : GreeterBackgroundPrivate) (l : List Monitor) :
    ∀ (i : Nat) (fns : Option Nat),
      (active_monitor_fallback_loop s l i fns).2 =
        if fns.isSome then fns else (active_monitor_fallback_loop s l i fns).1 := by
  induction l with
  | nil =>
    intro i fns
    cases fns <;> simp [active_monitor_fallback_loop]
  | cons mon rest ih =>
    intro i fns
    unfold active_monitor_fallback_loop
    by_cases hb : mon.background.isNone = true
    · simp only [hb, if_true]
      exact ih (i + 1) fns
    · simp only [hb]
      by_cases he : greeter_background_monitor_enabled s i = true
      · cases fns <;> simp [he]
      · simp only [he]
        cases fns with
        | none => simpa using ih (i + 1) none
        | some f => simpa using ih (i + 1) (some f)

theorem fallback_shift {s : GreeterBackgroundPrivate} {i : Nat} (hns : ¬ selectable s i)
    (r : Option Nat)
    (h : (∀ m, r = some m →
        i + 1 ≤ m ∧ selectable s m ∧ ∀ j, i + 1 ≤ j → j < m → ¬ selectable s j) ∧
      (r = none → ∀ j, i + 1 ≤ j → ¬ selectable s j)) :
    (∀ m, r = some m → i ≤ m ∧ selectable s m ∧ ∀ j, i ≤ j → j < m → ¬ selectable s j) ∧
      (r = none → ∀ j, i ≤ j → ¬ selectable s j) := by
  refine ⟨?_, ?_⟩
  · intro m hm
    obtain ⟨h1, h2, h3⟩ := h.1 m hm
    refine ⟨by omega, h2, ?_⟩
    intro j hj hjm
    rcases Nat.eq_or_lt_of_le hj with e | hlt
    · subst e; exact hns
    · exact h3 j hlt hjm
  · intro hr j hj
    rcases Nat.eq_or_lt_of_le hj with e | hlt
    · subst e; exact hns
    · exact h.2 hr j hlt

theorem fallback_loop_fst (s : GreeterBackgroundPrivate) (l : List Monitor) :
    ∀ (i : Nat) (fns : Option Nat), s.monitors.drop i = l →
      (∀ m, (active_monitor_fallback_loop s l i fns).1 = some m →
        i ≤ m ∧ selectable s m ∧ ∀ j, i ≤ j → j < m → ¬ selectable s j) ∧
      ((active_monitor_fallback_loop s l i fns).1 = none → ∀ j, i ≤ j → ¬ selectable s j) := by
  induction l with
  | nil =>
    intro i fns hd
    refine ⟨fun m hm => ?_, fun _ j hj => ?_⟩
    · simp [active_monitor_fallback_loop] at hm
    · exact not_selectable_of_length_le (Nat.le_trans (List.drop_eq_nil_iff.mp hd) hj)
  | cons mon rest ih =>
    intro i fns hd
    obtain ⟨hg, hd'⟩ := drop_cons_getElem? hd
    have hb := monitor_background_getElem hg
    unfold active_monitor_fallback_loop
    by_cases hbn : mon.background.isNone = true
    · simp only [hbn, if_true]
      have hns : ¬ selectable s i := by
        intro hq
        have := hq.1
        rw [hb] at this
        cases hx : mon.background <;> simp [hx] at this hbn
      exact fallback_shift hns _ (ih (i + 1) fns hd')
    · simp only [hbn, Bool.false_eq_true, if_false]
      by_cases he : greeter_background_monitor_enabled s i = true
      · simp only [he, if_true, Option.isSome_some]
        refine ⟨fun m hm => ?_, fun hm => by cases hm⟩
        simp only [Option.some.injEq] at hm
        subst hm
        refine ⟨Nat.le_refl _, ⟨?_, he⟩, ?_⟩
        · rw [hb]
          cases hx : mon.background <;> simp [hx] at hbn ⊢
        · intro j hj hjm
          omega
      · have hns : ¬ selectable s i := fun hq => he hq.2
        simp only [he]
        simp only [Bool.false_eq_true, if_false, Option.isSome_none]
        exact fallback_shift hns _ (ih (i + 1) (if fns.isNone = true then none else fns) hd')

/-- The fallback of lines 620-636 never differs from the first enabled monitor with a
background: `first_not_skipped` is only ever assigned the value of `active`. -/
theorem fallback_eq_loop (s : GreeterBackgroundPrivate) :
    active_monitor_fallback s = (active_monitor_fallback_loop s s.monitors 0 none).1 := by
  unfold active_monitor_fallback
  have h := fallback_loop_snd s s.monitors 0 none
  simp only [Option.isSome_none, Bool.false_eq_true, if_false] at h
  simp only [h]
  cases (active_monitor_fallback_loop s s.monitors 0 none).1 <;> simp

theorem fallback_some {s : GreeterBackgroundPrivate} {m : Nat}
    (h : active_monitor_fallback s = some m) :
    selectable s m ∧ ∀ j, j < m → ¬ selectable s j := by
  rw [fallback_eq_loop] at h
  have := (fallback_loop_fst s s.monitors 0 none (by simp)).1 m h
  exact ⟨this.2.1, fun j hj => this.2.2 j (Nat.zero_le _) hj⟩

theorem fallback_none {s : GreeterBackgroundPrivate}
    (h : active_monitor_fallback s = none) : ∀ j, ¬ selectable s j := by
  rw [fallback_eq_loop] at h
  have := (fallback_loop_fst s s.monitors 0 none (by simp)).2 h
  exact fun j => this j (Nat.zero_le _)

theorem fallback_first {s : GreeterBackgroundPrivate} {m : Nat} (hq : selectable s m)
    (hfirst : ∀ j, j < m → ¬ selectable s j) : active_monitor_fallback s = some m := by
  cases h : active_monitor_fallback s with
  | none => exact absurd hq (fallback_none h m)
  | some m' =>
    obtain ⟨h1, h2⟩ := fallback_some h
    rcases Nat.lt_trichotomy m m' with hlt | e | hgt
    · exact absurd hq (h2 m hlt)
    · rw [e]
    · exact absurd h1 (hfirst m' hgt)

theorem auto_some {s : GreeterBackgroundPrivate} {m : Nat}
    (h : active_monitor_auto s = some (some m)) : selectable s m := by
  unfold active_monitor_auto at h
  cases hc : active_monitor_from_config s s.active_monitors_config with
  | some m' =>
    simp only [hc, Option.some.injEq] at h
    subst h
    obtain ⟨_, _, _, _, _, hq, _⟩ := from_config_some hc
    exact hq
  | none =>
    simp only [hc] at h
    cases hp : active_monitor_primary s with
    | none => simp [hp] at h
    | some r =>
      cases r with
      | some p =>
        simp only [hp, Option.some.injEq] at h
        subst h
        unfold active_monitor_primary at hp
        cases hsc : s.screen with
        | none => simp [hsc] at hp
        | some screen =>
          simp only [hsc] at hp
          cases hg : s.monitors[screen.primary]? with
          | none => simp [hg] at hp
          | some mon =>
            simp only [hg] at hp
            split at hp
            · cases hp
            · rename_i hcond
              simp only [Option.some.injEq] at hp
              subst hp
              simp only [Bool.or_eq_true, not_or, Bool.not_eq_true, Bool.not_eq_true',
                Bool.not_eq_false] at hcond
              refine ⟨?_, by simpa using hcond.2⟩
              rw [monitor_background_getElem hg]
              cases hx : mon.background <;> simp [hx] at hcond ⊢
      | none =>
        simp only [hp, Option.some.injEq] at h
        exact (fallback_some h).1

theorem auto_isSome {s : GreeterBackgroundPrivate} {screen : GdkScreen}
    (hs : s.screen = some screen) (hp : screen.primary < s.monitors.length) :
    ∃ r, active_monitor_auto s = some r := by
  unfold active_monitor_auto
  cases active_monitor_from_config s s.active_monitors_config with
  | some m => exact ⟨_, rfl⟩
  | none =>
    simp only [primary_cases hs hp]
    by_cases hq : selectable s screen.primary
    · simp only [hq, if_true]; exact ⟨_, rfl⟩
    · simp only [hq, if_false]; exact ⟨_, rfl⟩

/-! ### `greeter_background_set_active_monitor` as a whole -/

theorem set_active_monitor_none (s : GreeterBackgroundPrivate) :
    greeter_background_set_active_monitor s none =
      (active_monitor_auto s).bind (active_monitor_commit s) := by
  unfold greeter_background_set_active_monitor
  cases active_monitor_auto s <;> rfl

theorem set_active_monitor_cases {s s' : GreeterBackgroundPrivate} {req : Option Nat}
    (h : greeter_background_set_active_monitor s req = some s') :
    s' = s ∨ ∃ chosen, active_monitor_commit s chosen = some s' ∧
      ∀ m, chosen = some m → (monitor_background s m).isSome = true := by
  unfold greeter_background_set_active_monitor at h
  have hauto : ∀ {s'' : GreeterBackgroundPrivate},
      (match active_monitor_auto s with
        | none => none
        | some chosen => active_monitor_commit s chosen) = some s'' →
      ∃ chosen, active_monitor_commit s chosen = some s'' ∧
        ∀ m, chosen = some m → (monitor_background s m).isSome = true := by
    intro s'' h
    cases ha : active_monitor_auto s with
    | none => simp [ha] at h
    | some chosen =>
      simp only [ha] at h
      refine ⟨chosen, h, ?_⟩
      intro m hm
      subst hm
      exact (auto_some ha).1
  cases req with
  | none => exact Or.inr (hauto h)
  | some a =>
    simp only at h
    by_cases hb : (monitor_background s a).isNone = true
    · simp only [hb, if_true] at h
      by_cases hact : s.active_monitor.isSome = true
      · simp only [hact, if_true, Option.some.injEq] at h
        exact Or.inl h.symm
      · simp only [hact, Bool.false_eq_true, if_false] at h
        exact Or.inr (hauto h)
    · simp only [hb, Bool.false_eq_true, if_false] at h
      refine Or.inr ⟨some a, h, ?_⟩
      intro m hm
      cases hm
      cases hx : monitor_background s a <;> simp [hx] at hb ⊢

theorem set_active_monitor_frame {s s' : GreeterBackgroundPrivate} {req : Option Nat}
    (h : greeter_background_set_active_monitor s req = some s') :
    s' = { s with active_monitor := s'.active_monitor, cursor := s'.cursor,
                  events := s'.events } := by
  rcases set_active_monitor_cases h with e | ⟨chosen, hc, _⟩
  · subst e; rfl
  · exact commit_frame hc

theorem set_active_monitor_monitors {s s' : GreeterBackgroundPrivate} {req : Option Nat}
    (h : greeter_background_set_active_monitor s req = some s') :
    s'.monitors = s.monitors ∧ s'.screen = s.screen ∧
      s'.customized_monitors = s.customized_monitors ∧
      s'.laptop_monitors = s.laptop_monitors ∧
      s'.laptop_upower_proxy = s.laptop_upower_proxy ∧
      s'.laptop_lid_closed = s.laptop_lid_closed ∧
      s'.monitors_map = s.monitors_map ∧ s'.configs = s.configs ∧
      s'.default_config = s.default_config := by
  have := set_active_monitor_frame h
  rw [this]
  exact ⟨rfl, rfl, rfl, rfl, rfl, rfl, rfl, rfl, rfl⟩

theorem monitor_background_congr {s s' : GreeterBackgroundPrivate}
    (h : s'.monitors = s.monitors) (m : Nat) :
    monitor_background s' m = monitor_background s m := by
  simp [monitor_background, h]

theorem set_active_monitor_active_background {s s' : GreeterBackgroundPrivate}
    {req : Option Nat} (h : greeter_background_set_active_monitor s req = some s')
    (hinv : ∀ a, s.active_monitor = some a → (monitor_background s a).isSome = true) :
    ∀ a, s'.active_monitor = some a → (monitor_background s' a).isSome = true := by
  intro a ha
  rw [monitor_background_congr (set_active_monitor_monitors h).1]
  rcases set_active_monitor_cases h with e | ⟨chosen, hc, hb⟩
  · subst e; exact hinv a ha
  · have := commit_active hc
    rw [ha] at this
    exact hb a this.symm

theorem set_active_monitor_no_fault {s : GreeterBackgroundPrivate} {screen : GdkScreen}
    (req : Option Nat) (hact : s.active_monitor = none) (hs : s.screen = some screen)
    (hp : screen.primary < s.monitors.length) :
    ∃ s', greeter_background_set_active_monitor s req = some s' := by
  have hauto : ∃ s', (match active_monitor_auto s with
        | none => none
        | some chosen => active_monitor_commit s chosen) = some s' := by
    obtain ⟨r, hr⟩ := auto_isSome hs hp
    simp only [hr]
    cases r with
    | none =>
      refine ⟨s, ?_⟩
      have := commit_same s
      rwa [hact] at this
    | some m => exact commit_isSome s m (monitor_background_lt (auto_some hr).1)
  unfold greeter_background_set_active_monitor
  cases req with
  | none => exact hauto
  | some a =>
    simp only
    by_cases hb : (monitor_background s a).isNone = true
    · simp only [hb, if_true, hact, Option.isSome_none, Bool.false_eq_true, if_false]
      exact hauto
    · simp only [hb, Bool.false_eq_true, if_false]
      apply commit_isSome
      apply monitor_background_lt
      cases hx : monitor_background s a <;> simp [hx] at hb ⊢

/-! ### The rebuild of the monitor array -/

theorem monitor_config_resolve_congr {p q : GreeterBackgroundPrivate} {m m' : Monitor}
    (hc : p.configs = q.configs) (hd : p.default_config = q.default_config)
    (hn : m.name = m'.name) (hi : m.number = m'.number) :
    monitor_config_resolve p m = monitor_config_resolve q m' := by
  simp [monitor_config_resolve, greeter_background_find_monitor_data, hc, hd, hn, hi]

theorem connect_monitor_config_congr {p q : GreeterBackgroundPrivate} {m m' : Monitor}
    (hc : p.configs = q.configs) (hd : p.default_config = q.default_config)
    (hn : m.name = m'.name) (hi : m.number = m'.number) (n i : Nat) (f : Option Nat) :
    connect_monitor_config p n i f m = connect_monitor_config q n i f m' := by
  simp [connect_monitor_config, monitor_config_resolve_congr hc hd hn hi, hd]

theorem connect_monitor_config_none {p : GreeterBackgroundPrivate} {m : Monitor} {n i : Nat}
    {f : Option Nat} (h : connect_monitor_config p n i f m = none) :
    (monitor_config_resolve p m).bg.type = .SKIP ∧ (i < n - 1 ∨ f.isSome = true) := by
  unfold connect_monitor_config at h
  by_cases hs : (monitor_config_resolve p m).bg.type = .SKIP
  · refine ⟨hs, ?_⟩
    simp only [hs, if_true] at h
    by_cases hc : (decide (i < n - 1) || f.isSome) = true
    · simpa using hc
    · simp only [hc, Bool.false_eq_true, if_false] at h
      split at h <;> cases h
  · simp [hs] at h

theorem connect_monitor_config_some_ne_skip {p : GreeterBackgroundPrivate} {m : Monitor}
    {n i : Nat} {f : Option Nat} {cfg : MonitorConfig}
    (h : connect_monitor_config p n i f m = some cfg) : cfg.bg.type ≠ .SKIP := by
  unfold connect_monitor_config at h
  by_cases hs : (monitor_config_resolve p m).bg.type = .SKIP
  · simp only [hs, if_true] at h
    by_cases hc : (decide (i < n - 1) || f.isSome) = true
    · simp [hc] at h
    · simp only [hc, Bool.false_eq_true, if_false] at h
      by_cases hd : p.default_config.bg.type = .SKIP
      · simp only [hd, ne_eq, not_true_eq_false, if_false, Option.some.injEq] at h
        subst h; simp [DEFAULT_MONITOR_CONFIG, BackgroundConfig.type]
      · simp only [ne_eq, hd, not_false_eq_true, if_true, Option.some.injEq] at h
        subst h; exact hd
  · simp only [hs, if_false, Option.some.injEq] at h
    subst h; exact hs

/-- The monitor entry as the lines 442-456 leave it. -/
theorem connect_monitor_skip (load : String → Option GdkPixbuf) (n : Nat) (sm : ScreenMonitor)
    (i : Nat) (st : ConnectLoop) (m0 : Monitor) (hn : m0.name = sm.plug_name)
    (hi : m0.number = i)
    (h : connect_monitor_config st.priv n i st.first_not_skipped_monitor m0 = none) :
    connect_monitor load n sm i st =
      (let monitor : Monitor :=
        { (st.priv.monitors.getD i Monitor.zero) with
          name := sm.plug_name, number := i, geometry := sm.geometry }
       { st with priv := { st.priv with monitors := st.priv.monitors.set i monitor } }) := by
  have h' : ∀ (p : GreeterBackgroundPrivate) (m : Monitor), p.configs = st.priv.configs →
      p.default_config = st.priv.default_config → m.name = sm.plug_name → m.number = i →
      connect_monitor_config p n i st.first_not_skipped_monitor m = none := by
    intro p m h1 h2 h3 h4
    rw [← h]
    exact connect_monitor_config_congr h1 h2 (h3.trans hn.symm) (h4.trans hi.symm) n i _
  simp only [connect_monitor]
  split
  · rfl
  · rename_i config heq
    have e := heq.symm.trans (h' _ _ rfl rfl rfl rfl)
    cases e

theorem connect_monitor_keep (load : String → Option GdkPixbuf) (n : Nat) (sm : ScreenMonitor)
    (i : Nat) (st : ConnectLoop) (m0 : Monitor) (hn : m0.name = sm.plug_name)
    (hi : m0.number = i) (cfg : MonitorConfig)
    (h : connect_monitor_config st.priv n i st.first_not_skipped_monitor m0 = some cfg) :
    connect_monitor load n sm i st =
      (let monitor : Monitor :=
        { (st.priv.monitors.getD i Monitor.zero) with
          name := sm.plug_name, number := i, geometry := sm.geometry }
       let r := connect_background load monitor.background_configured cfg.bg monitor
                  st.images_cache
       { priv :=
          { st.priv with
            monitors := (((st.priv.monitors.set i monitor).set i
                { monitor with background_configured := r.1 }).modify
                  (fun m => { m with background := some .configured }) i)
            customized_monitors :=
              if cfg.user_bg then i :: st.priv.customized_monitors
              else st.priv.customized_monitors
            laptop_monitors :=
              if cfg.laptop then i :: st.priv.laptop_monitors else st.priv.laptop_monitors
            events := st.priv.events ++ r.2.2.map Event.pixbuf_new_from_file ++
              [Event.monitor_queue_draw i]
            monitors_map :=
              g_hash_table_insert
                (match sm.plug_name with
                 | some name => g_hash_table_insert st.priv.monitors_map name i
                 | none => st.priv.monitors_map) (toString i) i }
         first_not_skipped_monitor :=
          if st.first_not_skipped_monitor.isNone then some i
          else st.first_not_skipped_monitor
         images_cache := r.2.1 }) := by
  have h' : ∀ (p : GreeterBackgroundPrivate) (m : Monitor), p.configs = st.priv.configs →
      p.default_config = st.priv.default_config → m.name = sm.plug_name → m.number = i →
      connect_monitor_config p n i st.first_not_skipped_monitor m = some cfg := by
    intro p m h1 h2 h3 h4
    rw [← h]
    exact connect_monitor_config_congr h1 h2 (h3.trans hn.symm) (h4.trans hi.symm) n i _
  simp only [connect_monitor]
  split
  · rename_i heq
    have e := heq.symm.trans (h' _ _ rfl rfl rfl rfl)
    cases e
  · rename_i config heq
    have e := heq.symm.trans (h' _ _ rfl rfl rfl rfl)
    cases e
    simp only [monitor_set_background]
    cases cfg.user_bg <;> cases cfg.laptop <;> cases sm.plug_name <;> rfl

theorem registry_frame_refl (s : GreeterBackgroundPrivate) : registry_frame s s :=
  ⟨rfl, rfl, rfl, rfl, rfl, rfl, rfl, rfl, rfl, rfl, rfl⟩

theorem registry_frame_trans {a b c : GreeterBackgroundPrivate}
    (h1 : registry_frame a b) (h2 : registry_frame b c) : registry_frame a c := by
  obtain ⟨a1, a2, a3, a4, a5, a6, a7, a8, a9, a10, a11⟩ := h1
  obtain ⟨b1, b2, b3, b4, b5, b6, b7, b8, b9, b10, b11⟩ := h2
  exact ⟨b1.trans a1, b2.trans a2, b3.trans a3, b4.trans a4, b5.trans a5, b6.trans a6,
    b7.trans a7, b8.trans a8, b9.trans a9, b10.trans a10, b11.trans a11⟩

theorem getElem?_set_background (l : List Monitor) (i j : Nat) (m : Monitor)
    (hm : ∀ old, l[i]? = some old → m.background = old.background) :
    (l.set i m)[j]?.bind (fun x => x.background) = l[j]?.bind (fun x => x.background) := by
  rw [List.getElem?_set]
  by_cases hij : i = j
  · subst hij
    by_cases hlt : i < l.length
    · simp only [if_true, hlt]
      have hg : l[i]? = some l[i] := List.getElem?_eq_getElem hlt
      rw [hg]
      simp [hm _ hg]
    · simp only [if_true, hlt, if_false]
      rw [List.getElem?_eq_none (Nat.le_of_not_lt hlt)]
  · simp [hij]

theorem getD_background (l : List Monitor) (i : Nat) (old : Monitor) (h : l[i]? = some old) :
    l.getD i Monitor.zero = old := by
  simp [List.getD_eq_getElem?_getD, h]

theorem connect_monitor_step (load : String → Option GdkPixbuf) (n : Nat) (sm : ScreenMonitor)
    (i : Nat) (st : ConnectLoop) (hi : i < st.priv.monitors.length) :
    (connect_monitor load n sm i st).priv.monitors.length = st.priv.monitors.length ∧
    registry_frame st.priv (connect_monitor load n sm i st).priv ∧
    (∀ j, (monitor_background st.priv j).isSome = true →
      (monitor_background (connect_monitor load n sm i st).priv j).isSome = true) ∧
    (∀ j, (connect_monitor load n sm i st).first_not_skipped_monitor = some j →
      st.first_not_skipped_monitor = some j ∨
        (monitor_background (connect_monitor load n sm i st).priv j).isSome = true) ∧
    (st.first_not_skipped_monitor.isSome = true →
      (connect_monitor load n sm i st).first_not_skipped_monitor.isSome = true) ∧
    (i + 1 = n → (connect_monitor load n sm i st).first_not_skipped_monitor.isSome = true) := by
  have hg : st.priv.monitors[i]? = some st.priv.monitors[i] := List.getElem?_eq_getElem hi
  cases h : connect_monitor_config st.priv n i st.first_not_skipped_monitor
      { Monitor.zero with name := sm.plug_name, number := i } with
  | none =>
    rw [connect_monitor_skip load n sm i st _ rfl rfl h]
    refine ⟨by simp, registry_frame_refl _, ?_, fun j hj => Or.inl hj, fun hf => hf, ?_⟩
    · intro j hj
      simp only [monitor_background] at hj ⊢
      rw [getElem?_set_background]
      · exact hj
      · intro old ho
        rw [getD_background _ _ _ ho]
    · intro hn
      rcases (connect_monitor_config_none h).2 with hlt | hf
      · omega
      · exact hf
  | some cfg =>
    rw [connect_monitor_keep load n sm i st _ rfl rfl cfg h]
    have hbi : ∀ (l : List Monitor), i < l.length →
        ((l.modify (fun m => { m with background := some BackgroundRef.configured }) i)[i]?.bind
          (fun x => x.background)).isSome = true := by
      intro l hl
      rw [List.getElem?_modify_eq, List.getElem?_eq_getElem hl]
      rfl
    have hself : (monitor_background
        ((let monitor : Monitor :=
            { (st.priv.monitors.getD i Monitor.zero) with
              name := sm.plug_name, number := i, geometry := sm.geometry }
          let r := connect_background load monitor.background_configured cfg.bg monitor
                  st.images_cache
          ({ st.priv with
            monitors := (((st.priv.monitors.set i monitor).set i
                { monitor with background_configured := r.1 }).modify
                  (fun m => { m with background := some .configured }) i) } :
            GreeterBackgroundPrivate))) i).isSome = true := by
      simp only [monitor_background]
      apply hbi
      simp [hi]
    refine ⟨by simp, ⟨rfl, rfl, rfl, rfl, rfl, rfl, rfl, rfl, rfl, rfl, rfl⟩, ?_, ?_, ?_, ?_⟩
    · intro j hj
      by_cases hij : j = i
      · subst hij
        exact hself
      · simp only [monitor_background] at hj ⊢
        rw [List.getElem?_modify_ne _ _ (Ne.symm hij), List.getElem?_set_ne (Ne.symm hij),
          List.getElem?_set_ne (Ne.symm hij)]
        exact hj
    · intro j hj
      simp only at hj
      by_cases hf : st.first_not_skipped_monitor.isNone = true
      · simp only [hf, if_true, Option.some.injEq] at hj
        subst hj
        exact Or.inr hself
      · simp only [hf, Bool.false_eq_true, if_false] at hj
        exact Or.inl hj
    · intro hf
      simp only
      cases hx : st.first_not_skipped_monitor <;> simp [hx] at hf ⊢
    · intro _
      simp only
      cases hx : st.first_not_skipped_monitor <;> simp [hx]

theorem connect_loop_inv (load : String → Option GdkPixbuf) (n : Nat) :
    ∀ (sms : List ScreenMonitor) (i : Nat) (st : ConnectLoop),
      i + sms.length = n → st.priv.monitors.length = n →
      (∀ j, st.first_not_skipped_monitor = some j →
        (monitor_background st.priv j).isSome = true) →
      (connect_loop load n sms i st).priv.monitors.length = n ∧
      registry_frame st.priv (connect_loop load n sms i st).priv ∧
      (∀ j, (monitor_background st.priv j).isSome = true →
        (monitor_background (connect_loop load n sms i st).priv j).isSome = true) ∧
      (∀ j, (connect_loop load n sms i st).first_not_skipped_monitor = some j →
        (monitor_background (connect_loop load n sms i st).priv j).isSome = true) ∧
      (sms ≠ [] → (connect_loop load n sms i st).first_not_skipped_monitor.isSome = true) ∧
      (st.first_not_skipped_monitor.isSome = true →
        (connect_loop load n sms i st).first_not_skipped_monitor.isSome = true) := by
  intro sms
  induction sms with
  | nil =>
    intro i st _ hl hf
    simp only [connect_loop]
    exact ⟨hl, registry_frame_refl _, fun j hj => hj, hf, fun h => absurd rfl h, fun h => h⟩
  | cons sm rest ih =>
    intro i st hlen hl hf
    simp only [List.length_cons] at hlen
    have hi : i < st.priv.monitors.length := by omega
    obtain ⟨s1, s2, s3, s4, s5, s6⟩ := connect_monitor_step load n sm i st hi
    have hf' : ∀ j, (connect_monitor load n sm i st).first_not_skipped_monitor = some j →
        (monitor_background (connect_monitor load n sm i st).priv j).isSome = true := by
      intro j hj
      rcases s4 j hj with h | h
      · exact s3 j (hf j h)
      · exact h
    obtain ⟨r1, r2, r3, r4, r5, r6⟩ :=
      ih (i + 1) (connect_monitor load n sm i st) (by omega) (by omega) hf'
    simp only [connect_loop]
    refine ⟨r1, registry_frame_trans s2 r2, fun j hj => r3 j (s3 j hj), r4, ?_,
      fun h => r6 (s5 h)⟩
    intro _
    cases rest with
    | nil =>
      simp only [connect_loop]
      apply s6
      simp only [List.length_nil] at hlen
      omega
    | cons sm' rest' => exact r5 (by simp)

theorem connect_monitors_spec (load : String → Option GdkPixbuf)
    (s : GreeterBackgroundPrivate) (screen : GdkScreen) :
    (connect_monitors load s screen).monitors.length = screen.monitors.length ∧
    (connect_monitors load s screen).screen = some screen ∧
    (connect_monitors load s screen).active_monitor = s.active_monitor ∧
    (connect_monitors load s screen).follow_cursor_to_init = s.follow_cursor_to_init ∧
    (connect_monitors load s screen).laptop_upower_proxy = s.laptop_upower_proxy ∧
    (screen.monitors ≠ [] →
      ∃ j, (monitor_background (connect_monitors load s screen) j).isSome = true) := by
  have h := connect_loop_inv load screen.monitors.length screen.monitors 0
    { priv := { s with screen := some screen,
                       monitors := List.replicate screen.monitors.length Monitor.zero,
                       monitors_map := [] },
      first_not_skipped_monitor := none, images_cache := some [] }
    (by simp) (by simp) (by intro j hj; cases hj)
  obtain ⟨h1, h2, _, h4, h5, _⟩ := h
  unfold connect_monitors
  refine ⟨h1, h2.1, h2.2.2.2.2.2.1, h2.2.2.2.2.2.2.2.2.2.1, h2.2.2.2.2.2.2.1, ?_⟩
  intro hne
  have := h5 hne
  cases hx : (connect_loop load screen.monitors.length screen.monitors 0
    { priv := { s with screen := some screen,
                       monitors := List.replicate screen.monitors.length Monitor.zero,
                       monitors_map := [] },
      first_not_skipped_monitor := none, images_cache := some [] }).first_not_skipped_monitor with
  | none => simp [hx] at this
  | some j => exact ⟨j, h4 j hx⟩

theorem selection_frame_refl (s : GreeterBackgroundPrivate) : selection_frame s s :=
  ⟨rfl, rfl, rfl, rfl, rfl, rfl, rfl, rfl, rfl⟩

theorem selection_frame_trans {a b c : GreeterBackgroundPrivate}
    (h1 : selection_frame a b) (h2 : selection_frame b c) : selection_frame a c := by
  obtain ⟨a1, a2, a3, a4, a5, a6, a7, a8, a9⟩ := h1
  obtain ⟨b1, b2, b3, b4, b5, b6, b7, b8, b9⟩ := h2
  exact ⟨b1.trans a1, b2.trans a2, b3.trans a3, b4.trans a4, b5.trans a5, b6.trans a6,
    b7.trans a7, b8.trans a8, b9.trans a9⟩

theorem set_active_monitor_selection_frame {s s' : GreeterBackgroundPrivate}
    {req : Option Nat} (h : greeter_background_set_active_monitor s req = some s') :
    selection_frame s s' :=
  set_active_monitor_monitors h

theorem connect_cursor_loop_spec (x y : Int) :
    ∀ (l : List Monitor) (i : Nat) (s : GreeterBackgroundPrivate),
      (∀ a, s.active_monitor = some a → (monitor_background s a).isSome = true) →
      (∀ s', connect_cursor_loop x y l i s = some s' →
        selection_frame s s' ∧
        ∀ a, s'.active_monitor = some a → (monitor_background s' a).isSome = true) ∧
      (∀ screen, s.screen = some screen → screen.primary < s.monitors.length →
        ∃ s', connect_cursor_loop x y l i s = some s') := by
  intro l
  induction l with
  | nil =>
    intro i s hinv
    simp only [connect_cursor_loop]
    refine ⟨?_, fun _ _ _ => ⟨s, rfl⟩⟩
    intro s' h
    cases h
    exact ⟨selection_frame_refl _, hinv⟩
  | cons mon rest ih =>
    intro i s hinv
    unfold connect_cursor_loop
    by_cases hact : s.active_monitor.isSome = true
    · simp only [hact, if_true]
      refine ⟨?_, fun _ _ _ => ⟨s, rfl⟩⟩
      intro s' h
      cases h
      exact ⟨selection_frame_refl _, hinv⟩
    · simp only [hact, Bool.false_eq_true, if_false]
      have hnone : s.active_monitor = none := by
        cases hx : s.active_monitor <;> simp [hx] at hact ⊢
      split
      · cases hstep : greeter_background_set_active_monitor s (some i) with
        | none =>
          dsimp only
          refine ⟨fun s' h => (by cases h), ?_⟩
          intro screen hs hp
          obtain ⟨s1, h1⟩ := set_active_monitor_no_fault (some i) hnone hs hp
          rw [h1] at hstep
          cases hstep
        | some s1 =>
          dsimp only
          have hf := set_active_monitor_selection_frame hstep
          have hinv1 := set_active_monitor_active_background hstep hinv
          obtain ⟨ih1, ih2⟩ := ih (i + 1) s1 hinv1
          refine ⟨?_, ?_⟩
          · intro s' h
            obtain ⟨f, g⟩ := ih1 s' h
            exact ⟨selection_frame_trans hf f, g⟩
          · intro screen hs hp
            apply ih2 screen
            · rw [hf.2.1]; exact hs
            · rw [hf.1]; exact hp
      · exact ih (i + 1) s hinv

theorem dbus_adjust_frame (p : GreeterBackgroundPrivate) (upower : Option UPower) :
    ∀ q, q = (if (!p.laptop_monitors.isEmpty && !p.laptop_upower_proxy) = true then
          greeter_background_try_init_dbus p upower
        else if p.laptop_monitors.isEmpty = true then greeter_background_stop_dbus p
        else p) →
      q = { p with laptop_upower_proxy := q.laptop_upower_proxy,
                   laptop_lid_closed := q.laptop_lid_closed } := by
  intro q hq
  subst hq
  split
  · unfold greeter_background_try_init_dbus greeter_background_stop_dbus
    cases upower with
    | none => split <;> rfl
    | some up => dsimp only; split <;> split <;> rfl
  · split
    · rfl
    · rfl

theorem connect_tail_spec (p : GreeterBackgroundPrivate) (hact : p.active_monitor = none) :
    (∀ s', (match (if p.follow_cursor_to_init = true then
                connect_cursor_loop p.cursor.1 p.cursor.2 p.monitors 0 p
              else some p) with
            | none => none
            | some priv =>
              if priv.active_monitor.isNone = true then
                greeter_background_set_active_monitor priv none
              else some priv) = some s' →
        selection_frame p s' ∧
        ∀ a, s'.active_monitor = some a → (monitor_background s' a).isSome = true) ∧
    (∀ screen, p.screen = some screen → screen.primary < p.monitors.length →
      ∃ s', (match (if p.follow_cursor_to_init = true then
                connect_cursor_loop p.cursor.1 p.cursor.2 p.monitors 0 p
              else some p) with
            | none => none
            | some priv =>
              if priv.active_monitor.isNone = true then
                greeter_background_set_active_monitor priv none
              else some priv) = some s') := by
  have hinv : ∀ a, p.active_monitor = some a → (monitor_background p a).isSome = true := by
    intro a ha; rw [hact] at ha; cases ha
  have hfinal : ∀ (q : GreeterBackgroundPrivate), selection_frame p q →
      (∀ a, q.active_monitor = some a → (monitor_background q a).isSome = true) →
      (∀ s', (if q.active_monitor.isNone = true then
                greeter_background_set_active_monitor q none
              else some q) = some s' →
        selection_frame p s' ∧
        ∀ a, s'.active_monitor = some a → (monitor_background s' a).isSome = true) ∧
      (∀ screen, p.screen = some screen → screen.primary < p.monitors.length →
        ∃ s', (if q.active_monitor.isNone = true then
                greeter_background_set_active_monitor q none
              else some q) = some s') := by
    intro q hf hq
    by_cases hn : q.active_monitor.isNone = true
    · simp only [hn, if_true]
      refine ⟨?_, ?_⟩
      · intro s' h
        exact ⟨selection_frame_trans hf (set_active_monitor_selection_frame h),
          set_active_monitor_active_background h hq⟩
      · intro screen hs hp
        apply set_active_monitor_no_fault none _ (hf.2.1.trans hs)
        · rw [hf.1]; exact hp
        · cases hx : q.active_monitor <;> simp [hx] at hn ⊢
    · simp only [hn, Bool.false_eq_true, if_false]
      refine ⟨?_, fun _ _ _ => ⟨q, rfl⟩⟩
      intro s' h
      cases h
      exact ⟨hf, hq⟩
  by_cases hc : p.follow_cursor_to_init = true
  · simp only [hc, if_true]
    obtain ⟨l1, l2⟩ := connect_cursor_loop_spec p.cursor.1 p.cursor.2 p.monitors 0 p hinv
    cases hloop : connect_cursor_loop p.cursor.1 p.cursor.2 p.monitors 0 p with
    | none =>
      dsimp only
      refine ⟨fun s' h => (by cases h), ?_⟩
      intro screen hs hp
      obtain ⟨q, hq⟩ := l2 screen hs hp
      rw [hq] at hloop
      cases hloop
    | some q =>
      dsimp only
      obtain ⟨f, g⟩ := l1 q hloop
      exact hfinal q f g
  · simp only [hc, Bool.false_eq_true, if_false]
    exact hfinal p (selection_frame_refl p) hinv

theorem connect_spec (load : String → Option GdkPixbuf) (upower : Option UPower)
    (s : GreeterBackgroundPrivate) (screen : GdkScreen)
    (hinv : s.screen = none → s.active_monitor = none) :
    (∀ s', greeter_background_connect load upower s screen = some s' →
      s'.monitors = (connect_monitors load
        (if s.screen.isSome then greeter_background_disconnect s else s) screen).monitors ∧
      s'.customized_monitors = (connect_monitors load
        (if s.screen.isSome then greeter_background_disconnect s else s)
          screen).customized_monitors ∧
      s'.laptop_monitors = (connect_monitors load
        (if s.screen.isSome then greeter_background_disconnect s else s)
          screen).laptop_monitors ∧
      s'.screen = some screen ∧
      ∀ a, s'.active_monitor = some a → (monitor_background s' a).isSome = true) ∧
    (screen.primary < screen.monitors.length →
      ∃ s', greeter_background_connect load upower s screen = some s') := by
  have h0 : (if s.screen.isSome then greeter_background_disconnect s else s).active_monitor
      = none := by
    cases hx : s.screen with
    | none => simpa using hinv hx
    | some sc => simp [greeter_background_disconnect]
  unfold greeter_background_connect
  dsimp only
  generalize (if s.screen.isSome = true then greeter_background_disconnect s else s) = s0 at h0 ⊢
  obtain ⟨m1, m2, m3, _, _, _⟩ := connect_monitors_spec load s0 screen
  generalize connect_monitors load s0 screen = p1 at m1 m2 m3 ⊢
  have hq := dbus_adjust_frame p1 upower _ rfl
  generalize (if (!p1.laptop_monitors.isEmpty && !p1.laptop_upower_proxy) = true then
          greeter_background_try_init_dbus p1 upower
        else if p1.laptop_monitors.isEmpty = true then greeter_background_stop_dbus p1
        else p1) = p2 at hq ⊢
  have e1 : p2.monitors = p1.monitors := by rw [hq]
  have e2 : p2.screen = p1.screen := by rw [hq]
  have e3 : p2.customized_monitors = p1.customized_monitors := by rw [hq]
  have e4 : p2.laptop_monitors = p1.laptop_monitors := by rw [hq]
  have e5 : p2.active_monitor = p1.active_monitor := by rw [hq]
  obtain ⟨t1, t2⟩ := connect_tail_spec p2 (by rw [e5, m3, h0])
  refine ⟨?_, ?_⟩
  · intro s' h
    obtain ⟨f, g⟩ := t1 s' h
    exact ⟨f.1.trans e1, f.2.2.1.trans e3, f.2.2.2.1.trans e4,
      (f.2.1.trans e2).trans m2, g⟩
  · intro hp
    apply t2 screen (e2.trans m2)
    rw [e1, m1]
    exact hp

/-! ### The custom background keeps every background pointer set -/

theorem set_modify_background (l : List Monitor) (m : Nat) (mon : Monitor)
    (ref : BackgroundRef) (j : Nat)
    (h : (l[j]?.bind (fun x => x.background)).isSome = true) :
    (((l.set m mon).modify (fun x => { x with background := some ref }) m)[j]?.bind
      (fun x => x.background)).isSome = true := by
  by_cases hj : j = m
  · subst hj
    have hlt : j < l.length := by
      by_contra hc
      rw [List.getElem?_eq_none (Nat.le_of_not_lt hc)] at h
      simp at h
    rw [List.getElem?_modify_eq, List.getElem?_set_self hlt]
    rfl
  · rw [List.getElem?_modify_ne _ _ (Ne.symm hj), List.getElem?_set_ne (Ne.symm hj)]
    exact h

theorem custom_background_monitor_spec (load : String → Option GdkPixbuf)
    (config : BackgroundConfig) (m : Nat)
    (st : GreeterBackgroundPrivate × Option (GHashTable GdkPixbuf)) :
    (custom_background_monitor load config m st).1.monitors.length = st.1.monitors.length ∧
    (custom_background_monitor load config m st).1.active_monitor = st.1.active_monitor ∧
    (custom_background_monitor load config m st).1.screen = st.1.screen ∧
    (custom_background_monitor load config m st).1.customized_monitors
      = st.1.customized_monitors ∧
    (custom_background_monitor load config m st).1.laptop_monitors = st.1.laptop_monitors ∧
    ∀ j, (monitor_background st.1 j).isSome = true →
      (monitor_background (custom_background_monitor load config m st).1 j).isSome = true := by
  unfold custom_background_monitor
  dsimp only
  split
  · exact ⟨rfl, rfl, rfl, rfl, rfl, fun j hj => hj⟩
  · split
    · split
      · refine ⟨by simp [monitor_set_background], rfl, rfl, rfl, rfl, ?_⟩
        intro j hj
        exact set_modify_background _ _ _ _ _ hj
      · refine ⟨by simp [monitor_set_background], rfl, rfl, rfl, rfl, ?_⟩
        intro j hj
        exact set_modify_background _ _ _ _ _ hj
    · refine ⟨by simp [monitor_set_background], rfl, rfl, rfl, rfl, ?_⟩
      intro j hj
      exact set_modify_background _ _ _ _ _ hj

theorem custom_background_loop_spec (load : String → Option GdkPixbuf)
    (config : BackgroundConfig) :
    ∀ (l : List Nat) (st : GreeterBackgroundPrivate × Option (GHashTable GdkPixbuf)),
      (custom_background_loop load config l st).1.monitors.length = st.1.monitors.length ∧
      (custom_background_loop load config l st).1.active_monitor = st.1.active_monitor ∧
      (custom_background_loop load config l st).1.screen = st.1.screen ∧
      (custom_background_loop load config l st).1.customized_monitors
        = st.1.customized_monitors ∧
      (custom_background_loop load config l st).1.laptop_monitors = st.1.laptop_monitors ∧
      ∀ j, (monitor_background st.1 j).isSome = true →
        (monitor_background (custom_background_loop load config l st).1 j).isSome = true := by
  intro l
  induction l with
  | nil => intro st; exact ⟨rfl, rfl, rfl, rfl, rfl, fun j hj => hj⟩
  | cons m rest ih =>
    intro st
    obtain ⟨a1, a2, a3, a4, a5, a6⟩ := custom_background_monitor_spec load config m st
    obtain ⟨b1, b2, b3, b4, b5, b6⟩ := ih (custom_background_monitor load config m st)
    simp only [custom_background_loop]
    exact ⟨b1.trans a1, b2.trans a2, b3.trans a3, b4.trans a4, b5.trans a5,
      fun j hj => b6 j (a6 j hj)⟩

theorem set_custom_background_spec (parse : String → Option GdkRGBA)
    (load : String → Option GdkPixbuf) (s : GreeterBackgroundPrivate) (value : Option String) :
    (greeter_background_set_custom_background parse load s value).monitors.length
      = s.monitors.length ∧
    (greeter_background_set_custom_background parse load s value).active_monitor
      = s.active_monitor ∧
    (greeter_background_set_custom_background parse load s value).screen = s.screen ∧
    (greeter_background_set_custom_background parse load s value).customized_monitors
      = s.customized_monitors ∧
    (greeter_background_set_custom_background parse load s value).laptop_monitors
      = s.laptop_monitors ∧
    ∀ j, (monitor_background s j).isSome = true →
      (monitor_background (greeter_background_set_custom_background parse load s value)
        j).isSome = true := by
  unfold greeter_background_set_custom_background
  split
  · exact ⟨rfl, rfl, rfl, rfl, rfl, fun j hj => hj⟩
  · dsimp only
    exact custom_background_loop_spec load _ _ _

/-! ### Invariant of the reachable states -/

theorem reachable_invariant {s : GreeterBackgroundPrivate} (h : Reachable s) :
    (∀ a, s.active_monitor = some a → (monitor_background s a).isSome = true) ∧
    (s.screen = none →
      s.monitors = [] ∧ s.customized_monitors = [] ∧ s.laptop_monitors = []) := by
  induction h with
  | init cursor =>
    exact ⟨fun a ha => (by cases ha), fun _ => ⟨rfl, rfl, rfl⟩⟩
  | set_active_monitor_config h value ih =>
    unfold greeter_background_set_active_monitor_config
    cases value with
    | none => exact ih
    | some v =>
      dsimp only
      split
      · exact ih
      · exact ih
  | set_default_config h parse bg user_bg laptop ih => exact ih
  | set_monitor_config h parse name bg u uu l lu ih => exact ih
  | remove_monitor_config h name ih => exact ih
  | @connect s s' h load upower screen step ih =>
    have hinv : s.screen = none → s.active_monitor = none := by
      intro hs
      cases ha : s.active_monitor with
      | none => rfl
      | some a =>
        have := ih.1 a ha
        have := monitor_background_lt this
        rw [(ih.2 hs).1] at this
        simp at this
    obtain ⟨_, _, _, hs', hb⟩ := (connect_spec load upower s screen hinv).1 s' step
    exact ⟨hb, fun hn => by rw [hs'] at hn; cases hn⟩
  | disconnect h ih =>
    exact ⟨fun a ha => (by cases ha), fun _ => ⟨rfl, rfl, rfl⟩⟩
  | @set_active_monitor s s' h active valid step ih =>
    have hf := set_active_monitor_selection_frame step
    refine ⟨set_active_monitor_active_background step ih.1, ?_⟩
    intro hs
    rw [hf.1, hf.2.2.1, hf.2.2.2.1]
    exact ih.2 (hf.2.1 ▸ hs)
  | @enter_notify s s' h monitor valid step ih =>
    unfold monitor_window_enter_notify_cb at step
    split at step
    · have hf := set_active_monitor_selection_frame step
      refine ⟨set_active_monitor_active_background step ih.1, ?_⟩
      intro hs
      rw [hf.1, hf.2.2.1, hf.2.2.2.1]
      exact ih.2 (hf.2.1 ▸ hs)
    · cases step
      exact ih
  | @dbus_changed s s' h proxy new_state step ih =>
    unfold greeter_background_dbus_changed_cb at step
    split at step
    · cases step; exact ih
    · dsimp only at step
      split at step
      · cases step; exact ih
      · split at step
        · have hf := set_active_monitor_selection_frame step
          refine ⟨set_active_monitor_active_background step ih.1, ?_⟩
          intro hs
          rw [hf.1, hf.2.2.1, hf.2.2.2.1]
          exact ih.2 (hf.2.1 ▸ hs)
        · cases step; exact ih
  | @set_custom_background s h parse load value ih =>
    obtain ⟨c1, c2, c3, c4, c5, c6⟩ := set_custom_background_spec parse load s value
    refine ⟨?_, ?_⟩
    · intro a ha
      rw [c2] at ha
      exact c6 a (ih.1 a ha)
    · intro hs
      rw [c3] at hs
      obtain ⟨i1, i2, i3⟩ := ih.2 hs
      refine ⟨?_, c4.trans i2, c5.trans i3⟩
      rw [i1] at c1
      exact List.length_eq_zero.mp c1
  | add_subwindow h window ih =>
    unfold greeter_background_add_subwindow
    dsimp only
    split <;> split <;> exact ih
  | remove_subwindow h window ih => exact ih
  | pointer_moved h x y ih => exact ih

/-! ### A screen on which every monitor is configured as skipped -/

theorem connect_loop_append (load : String → Option GdkPixbuf) (n : Nat) :
    ∀ (l1 l2 : List ScreenMonitor) (i : Nat) (st : ConnectLoop),
      connect_loop load n (l1 ++ l2) i st =
        connect_loop load n l2 (i + l1.length) (connect_loop load n l1 i st) := by
  intro l1
  induction l1 with
  | nil => intro l2 i st; simp [connect_loop]
  | cons sm rest ih =>
    intro l2 i st
    show connect_loop load n (rest ++ l2) (i + 1) (connect_monitor load n sm i st) =
      connect_loop load n l2 (i + (rest.length + 1))
        (connect_loop load n rest (i + 1) (connect_monitor load n sm i st))
    rw [ih]
    congr 1
    omega

theorem connect_monitor_config_skipped {p : GreeterBackgroundPrivate} {m : Monitor}
    {n i : Nat} (f : Option Nat) (hs : (monitor_config_resolve p m).bg.type = .SKIP)
    (hi : i < n - 1) : connect_monitor_config p n i f m = none := by
  simp [connect_monitor_config, hs, hi]

theorem connect_monitor_config_forced {p : GreeterBackgroundPrivate} {m : Monitor}
    {n i : Nat} (hs : (monitor_config_resolve p m).bg.type = .SKIP)
    (hi : ¬ i < n - 1) :
    connect_monitor_config p n i none m =
      some (if p.default_config.bg.type ≠ .SKIP then p.default_config
            else DEFAULT_MONITOR_CONFIG) := by
  simp only [connect_monitor_config, hs, if_true, hi, decide_False, Option.isSome_none,
    Bool.or_self, Bool.false_eq_true, if_false]
  split <;> rfl

/-- The three background fields of a monitor entry. -/
theorem connect_loop_skipped (load : String → Option GdkPixbuf) (n : Nat) :
    ∀ (sms : List ScreenMonitor) (i : Nat) (st : ConnectLoop),
      i + sms.length < n → st.priv.monitors.length = n →
      (∀ k sm, sms[k]? = some sm → ∀ m : Monitor, m.name = sm.plug_name → m.number = i + k →
        (monitor_config_resolve st.priv m).bg.type = .SKIP) →
      (connect_loop load n sms i st).first_not_skipped_monitor = st.first_not_skipped_monitor ∧
      (connect_loop load n sms i st).images_cache = st.images_cache ∧
      (connect_loop load n sms i st).priv.customized_monitors = st.priv.customized_monitors ∧
      (connect_loop load n sms i st).priv.laptop_monitors = st.priv.laptop_monitors ∧
      registry_frame st.priv (connect_loop load n sms i st).priv ∧
      (connect_loop load n sms i st).priv.monitors.length = n ∧
      (∀ j : Nat, (connect_loop load n sms i st).priv.monitors[j]?.map
              (fun x : Monitor => (x.background, x.background_configured, x.background_custom)) =
            st.priv.monitors[j]?.map
              (fun x : Monitor => (x.background, x.background_configured, x.background_custom))) := by
  intro sms
  induction sms with
  | nil =>
    intro i st _ hl _
    exact ⟨rfl, rfl, rfl, rfl, registry_frame_refl _, hl, fun j => rfl⟩
  | cons sm rest ih =>
    intro i st hlen hl hskip
    simp only [List.length_cons] at hlen
    have hcfg : connect_monitor_config st.priv n i st.first_not_skipped_monitor
        { Monitor.zero with name := sm.plug_name, number := i } = none := by
      apply connect_monitor_config_skipped
      · exact hskip 0 sm (by simp) _ rfl rfl
      · omega
    have hstep := connect_monitor_skip load n sm i st _ rfl rfl hcfg
    simp only [connect_loop]
    rw [hstep]
    have hi : i < st.priv.monitors.length := by omega
    obtain ⟨r1, r2, r3, r4, r5, r6, r7⟩ := ih (i + 1)
      (let monitor : Monitor :=
        { (st.priv.monitors.getD i Monitor.zero) with
          name := sm.plug_name, number := i, geometry := sm.geometry }
       { st with priv := { st.priv with monitors := st.priv.monitors.set i monitor } })
      (by omega) (by simp [hl])
      (by
        intro k sm' hk m hn hm
        have := hskip (k + 1) sm' (by simpa using hk) m hn (by omega)
        rw [← this]
        exact congrArg (fun c => c.bg.type) (monitor_config_resolve_congr rfl rfl rfl rfl))
    refine ⟨r1, r2, r3, r4, r5, r6, ?_⟩
    intro j
    rw [r7 j]
    dsimp only
    rw [List.getElem?_set]
    by_cases hij : i = j
    · subst hij
      simp only [if_true, hi]
      rw [List.getElem?_eq_getElem hi]
      simp [List.getD_eq_getElem?_getD, List.getElem?_eq_getElem hi]
    · simp [hij]

theorem connect_monitors_all_skip (load : String → Option GdkPixbuf)
    (s : GreeterBackgroundPrivate) (screen : GdkScreen) (front : List ScreenMonitor)
    (last : ScreenMonitor) (hsplit : screen.monitors = front ++ [last])
    (hskip : ∀ k sm, screen.monitors[k]? = some sm → ∀ m : Monitor,
      m.name = sm.plug_name → m.number = k → (monitor_config_resolve s m).bg.type = .SKIP)
    (cfg : MonitorConfig)
    (hcfg : cfg = if s.default_config.bg.type ≠ .SKIP then s.default_config
                  else DEFAULT_MONITOR_CONFIG) :
    (connect_monitors load s screen).monitors[front.length]? =
      some { number := front.length, name := last.plug_name, geometry := last.geometry,
             background_configured :=
               (connect_background load .invalid cfg.bg
                 { number := front.length, name := last.plug_name, geometry := last.geometry,
                   background_configured := .invalid, background_custom := .invalid,
                   background := none } (some [])).1,
             background_custom := .invalid, background := some .configured } ∧
    (∀ j, j ≠ front.length → monitor_background (connect_monitors load s screen) j = none) ∧
    (connect_monitors load s screen).customized_monitors =
      (if cfg.user_bg then front.length :: s.customized_monitors
       else s.customized_monitors) ∧
    (connect_monitors load s screen).laptop_monitors =
      (if cfg.laptop then front.length :: s.laptop_monitors else s.laptop_monitors) := by
  have hn : screen.monitors.length = front.length + 1 := by simp [hsplit]
  unfold connect_monitors
  dsimp only
  rw [hn]
  generalize hst0 : ConnectLoop.mk _ none (some []) = st0
  have e0 : st0.priv.monitors = List.replicate (front.length + 1) Monitor.zero := by
    rw [← hst0]
  have e1 : st0.priv.configs = s.configs := by rw [← hst0]
  have e2 : st0.priv.default_config = s.default_config := by rw [← hst0]
  have e3 : st0.first_not_skipped_monitor = none := by rw [← hst0]
  have e4 : st0.images_cache = some [] := by rw [← hst0]
  have e5 : st0.priv.customized_monitors = s.customized_monitors := by rw [← hst0]
  have e6 : st0.priv.laptop_monitors = s.laptop_monitors := by rw [← hst0]
  have hloop : connect_loop load (front.length + 1) screen.monitors 0 st0 =
      connect_loop load (front.length + 1) [last] (0 + front.length)
        (connect_loop load (front.length + 1) front 0 st0) := by
    rw [hsplit, connect_loop_append]
  rw [hloop]
  obtain ⟨r1, r2, r3, r4, r5, r6, r7⟩ := connect_loop_skipped load (front.length + 1) front 0 st0
    (by omega) (by rw [e0]; simp)
    (by
      intro k sm hk m hmn hmk
      have hk' : screen.monitors[k]? = some sm := by
        rw [hsplit, List.getElem?_append_left (by
          by_contra hc
          rw [List.getElem?_eq_none (Nat.le_of_not_lt hc)] at hk
          cases hk)]
        exact hk
      have := hskip k sm hk' m hmn (by omega)
      rw [← this]
      exact congrArg (fun c => c.bg.type) (monitor_config_resolve_congr e1 e2 rfl rfl))
  generalize connect_loop load (front.length + 1) front 0 st0 = stP at r1 r2 r3 r4 r5 r6 r7 ⊢
  simp only [connect_loop, Nat.zero_add]
  have hforce : connect_monitor_config stP.priv (front.length + 1) front.length
      stP.first_not_skipped_monitor
      { Monitor.zero with name := last.plug_name, number := front.length } = some cfg := by
    rw [r1, e3, hcfg, ← e2, ← r5.2.2.2.1]
    apply connect_monitor_config_forced
    · have hk' : screen.monitors[front.length]? = some last := by
        rw [hsplit]; simp
      have := hskip front.length last hk'
        ⟨front.length, last.plug_name, ⟨0, 0, 0, 0⟩, .invalid, .invalid, none⟩ rfl rfl
      rw [← this]
      exact congrArg (fun c => c.bg.type)
        (monitor_config_resolve_congr (r5.2.2.1.trans e1) (r5.2.2.2.1.trans e2) rfl rfl)
    · omega
  rw [connect_monitor_keep load (front.length + 1) last front.length stP _ rfl rfl cfg hforce]
  have hlt : front.length < stP.priv.monitors.length := by omega
  have hold := r7 front.length
  rw [e0, List.getElem?_eq_getElem hlt] at hold
  simp only [List.getElem?_replicate, Nat.lt_succ_self, if_true, Option.map_some',
    Option.some.injEq, Prod.mk.injEq, Monitor.zero] at hold
  obtain ⟨o1, o2, o3⟩ := hold
  have hgetD : stP.priv.monitors.getD front.length Monitor.zero
      = stP.priv.monitors[front.length] := by
    simp [List.getD_eq_getElem?_getD, List.getElem?_eq_getElem hlt]
  dsimp only
  refine ⟨?_, ?_, ?_, ?_⟩
  · rw [List.getElem?_modify_eq, List.getElem?_set_self (by simp [hlt])]
    simp only [Option.map_some', hgetD, o1, o2, o3, r2, e4]
    rfl
  · intro j hj
    simp only [monitor_background]
    rw [List.getElem?_modify_ne _ _ (Ne.symm hj), List.getElem?_set_ne (Ne.symm hj),
      List.getElem?_set_ne (Ne.symm hj)]
    have := r7 j
    rw [e0] at this
    cases hx : stP.priv.monitors[j]? with
    | none => rfl
    | some mon =>
      rw [hx] at this
      by_cases hjl : j < front.length + 1
      · simp only [List.getElem?_replicate, hjl, if_true, Option.map_some',
          Option.some.injEq, Prod.mk.injEq, Monitor.zero] at this
        simpa using this.1
      · simp [List.getElem?_replicate, hjl] at this
  · rw [r3, e5]
  · rw [r4, e6]

/-! ### Notifications issued by the commit step -/

theorem greeter_windows_update_count (l : List GtkWindow) :
    (greeter_windows_update l).count Event.active_monitor_changed = 0 := by
  induction l with
  | nil => rfl
  | cons w rest ih =>
    unfold greeter_windows_update
    rw [List.count_append, ih]
    cases w.visible <;> simp [List.count_cons]

theorem commit_changed {s s' : GreeterBackgroundPrivate} {a : Option Nat}
    (h : active_monitor_commit s a = some s') (hne : a ≠ s.active_monitor) :
    ∃ warp : List Event, (warp = [] ∨ ∃ x y, warp = [Event.set_cursor_position x y]) ∧
      s'.events = s.events ++ [Event.active_monitor_changed] ++ warp ++
        greeter_windows_update s.greeter_windows := by
  unfold active_monitor_commit at h
  rw [if_neg hne] at h
  cases a with
  | none => cases h
  | some n =>
    dsimp only at h
    cases hg : s.monitors[n]? with
    | none => rw [hg] at h; cases h
    | some m =>
      rw [hg] at h
      dsimp only at h
      simp only [Option.some.injEq] at h
      subst h
      split
      · exact ⟨[Event.set_cursor_position (gint_add m.geometry.x (Int.tdiv m.geometry.width 2))
            (gint_add m.geometry.y (Int.tdiv m.geometry.height 2))], Or.inr ⟨_, _, rfl⟩,
          by simp only [List.append_assoc]⟩
      · exact ⟨[], Or.inl rfl, by simp only [List.append_assoc, List.append_nil]⟩

theorem commit_changed_count {s s' : GreeterBackgroundPrivate} {a : Option Nat}
    (h : active_monitor_commit s a = some s') (hne : a ≠ s.active_monitor) :
    s'.events.count Event.active_monitor_changed =
      s.events.count Event.active_monitor_changed + 1 := by
  obtain ⟨warp, hw, he⟩ := commit_changed h hne
  rw [he]
  simp only [List.count_append, greeter_windows_update_count]
  rcases hw with hw | ⟨x, y, hw⟩ <;> subst hw <;> simp [List.count_cons]

theorem set_active_monitor_with_background {s : GreeterBackgroundPrivate} {n : Nat}
    (hb : (monitor_background s n).isSome = true) :
    greeter_background_set_active_monitor s (some n) = active_monitor_commit s (some n) := by
  unfold greeter_background_set_active_monitor
  cases hx : monitor_background s n with
  | none => simp [hx] at hb
  | some r => simp [hx]

theorem set_active_monitor_without_background {s : GreeterBackgroundPrivate} {n : Nat}
    (hb : monitor_background s n = none) :
    greeter_background_set_active_monitor s (some n) =
      if s.active_monitor.isSome then some s
      else greeter_background_set_active_monitor s none := by
  unfold greeter_background_set_active_monitor
  simp [hb]

/-! ### Facts about the example states -/

theorem state_abc_step :
    greeter_background_connect no_file none config_abc screen_abc = some state_abc := by
  rfl

theorem state_abc_reachable : Reachable state_abc :=
  Reachable.connect (Reachable.set_active_monitor_config (Reachable.init (0, 0)) (some "B;A"))
    no_file none screen_abc state_abc_step

theorem state_laptop_closed_step :
    greeter_background_connect no_file (some ⟨true, true⟩) config_laptop screen_laptop
      = some state_laptop_closed := by
  rfl

theorem config_skip_reachable : Reachable config_skip :=
  Reachable.set_default_config (Reachable.init (0, 0)) parse_black (some "#skip") false true

theorem auto_commit {s : GreeterBackgroundPrivate} {m : Nat}
    (h : active_monitor_auto s = some (some m)) :
    ∃ s', greeter_background_set_active_monitor s none = some s' ∧
      s'.active_monitor = some m := by
  obtain ⟨s', hs'⟩ := commit_isSome s m (monitor_background_lt (auto_some h).1)
  refine ⟨s', ?_, commit_active hs'⟩
  rw [set_active_monitor_none, h]
  exact hs'

theorem screen_none_active_none {s : GreeterBackgroundPrivate} (hs : Reachable s) :
    s.screen = none → s.active_monitor = none := by
  intro hn
  obtain ⟨i1, i2⟩ := reachable_invariant hs
  cases ha : s.active_monitor with
  | none => rfl
  | some a =>
    have := monitor_background_lt (i1 a ha)
    rw [(i2 hn).1] at this
    simp at this

/-! ### Parsing of background specifications -/

theorem has_prefix_iff (p v : String) :
    p.data.isPrefixOf v.data = true ↔ ∃ rest : String, v = p ++ rest := by
  rw [List.isPrefixOf_iff_prefix]
  constructor
  · rintro ⟨t, ht⟩
    exact ⟨String.mk t, String.ext (by simp [ht])⟩
  · rintro ⟨rest, hr⟩
    exact ⟨rest.data, by rw [hr]; simp⟩

theorem drop_prefix (p rest : String) :
    String.mk ((p ++ rest).data.drop p.data.length) = rest := by
  apply String.ext
  simp

theorem source_data : "#source:".data = ['#', 's', 'o', 'u', 'r', 'c', 'e', ':'] := rfl

theorem zoomed_data : "#zoomed:".data = ['#', 'z', 'o', 'o', 'm', 'e', 'd', ':'] := rfl

theorem stretched_data :
    "#stretched:".data = ['#', 's', 't', 'r', 'e', 't', 'c', 'h', 'e', 'd', ':'] := rfl

theorem skip_data : "#skip".data = ['#', 's', 'k', 'i', 'p'] := rfl

theorem find_scaling_mode_source (rest : String) :
    find_scaling_mode ("#source:" ++ rest) SCALING_MODE_PREFIXES
      = some ("#source:", ScalingMode.SOURCE) := by
  have h : "#source:".data.isPrefixOf ("#source:" ++ rest).data = true :=
    (has_prefix_iff _ _).mpr ⟨rest, rfl⟩
  simp only [SCALING_MODE_PREFIXES, find_scaling_mode, h, if_true]

theorem find_scaling_mode_zoomed (rest : String) :
    find_scaling_mode ("#zoomed:" ++ rest) SCALING_MODE_PREFIXES
      = some ("#zoomed:", ScalingMode.ZOOMED) := by
  have h : "#zoomed:".data.isPrefixOf ("#zoomed:" ++ rest).data = true :=
    (has_prefix_iff _ _).mpr ⟨rest, rfl⟩
  have h0 : "#source:".data.isPrefixOf ("#zoomed:" ++ rest).data = false := by
    rw [String.data_append, source_data, zoomed_data]
    simp [List.isPrefixOf]
  simp only [SCALING_MODE_PREFIXES, find_scaling_mode, h, h0, if_true, Bool.false_eq_true,
    if_false]

theorem find_scaling_mode_stretched (rest : String) :
    find_scaling_mode ("#stretched:" ++ rest) SCALING_MODE_PREFIXES
      = some ("#stretched:", ScalingMode.STRETCHED) := by
  have h : "#stretched:".data.isPrefixOf ("#stretched:" ++ rest).data = true :=
    (has_prefix_iff _ _).mpr ⟨rest, rfl⟩
  have h0 : "#source:".data.isPrefixOf ("#stretched:" ++ rest).data = false := by
    rw [String.data_append, source_data, stretched_data]
    simp [List.isPrefixOf]
  have h1 : "#zoomed:".data.isPrefixOf ("#stretched:" ++ rest).data = false := by
    rw [String.data_append, zoomed_data, stretched_data]
    simp [List.isPrefixOf]
  simp only [SCALING_MODE_PREFIXES, find_scaling_mode, h, h0, h1, if_true,
    Bool.false_eq_true, if_false]

theorem find_scaling_mode_none (v : String)
    (h0 : ∀ rest : String, v ≠ "#source:" ++ rest)
    (h1 : ∀ rest : String, v ≠ "#zoomed:" ++ rest)
    (h2 : ∀ rest : String, v ≠ "#stretched:" ++ rest) :
    find_scaling_mode v SCALING_MODE_PREFIXES = none := by
  have e0 : ¬ "#source:".data.isPrefixOf v.data = true := fun h =>
    let ⟨r, hr⟩ := (has_prefix_iff _ _).mp h; h0 r hr
  have e1 : ¬ "#zoomed:".data.isPrefixOf v.data = true := fun h =>
    let ⟨r, hr⟩ := (has_prefix_iff _ _).mp h; h1 r hr
  have e2 : ¬ "#stretched:".data.isPrefixOf v.data = true := fun h =>
    let ⟨r, hr⟩ := (has_prefix_iff _ _).mp h; h2 r hr
  simp only [SCALING_MODE_PREFIXES, find_scaling_mode, e0, e1, e2, Bool.false_eq_true, if_false]

theorem prefixed_ne_empty_skip (p rest : String) (hp : 6 ≤ p.data.length) :
    p ++ rest ≠ "" ∧ p ++ rest ≠ BACKGROUND_TYPE_SKIP_VALUE := by
  have hl : 6 ≤ (p ++ rest).data.length := by
    rw [String.data_append, List.length_append]; omega
  refine ⟨?_, ?_⟩
  · intro h
    rw [h] at hl
    simp at hl
  · intro h
    rw [h] at hl
    simp [BACKGROUND_TYPE_SKIP_VALUE, skip_data] at hl

/-! ### The active-monitor configuration string -/

theorem g_strsplit_chars_ne_nil (delim : Char) (l : List Char) :
    g_strsplit_chars delim l ≠ [] := by
  cases l with
  | nil => simp [g_strsplit_chars]
  | cons c cs =>
    unfold g_strsplit_chars
    split
    · simp
    · split <;> simp

theorem g_strsplit_chars_join (delim : Char) (l : List Char) :
    List.intercalate [delim] (g_strsplit_chars delim l) = l := by
  induction l with
  | nil => simp [g_strsplit_chars, List.intercalate]
  | cons c cs ih =>
    unfold g_strsplit_chars
    by_cases hc : c = delim
    · simp only [hc, if_true]
      cases hr : g_strsplit_chars delim cs with
      | nil => exact absurd hr (g_strsplit_chars_ne_nil delim cs)
      | cons t ts =>
        rw [hr] at ih
        simp only [List.intercalate] at ih ⊢
        simp [List.intersperse, ih]
    · simp only [hc, if_false]
      cases hr : g_strsplit_chars delim cs with
      | nil => exact absurd hr (g_strsplit_chars_ne_nil delim cs)
      | cons t ts =>
        rw [hr] at ih
        simp only [List.intercalate] at ih ⊢
        cases ts with
        | nil => simpa [List.intersperse] using ih
        | cons t2 ts2 => simpa [List.intersperse] using ih

theorem g_strsplit_chars_no_delim (delim : Char) (l : List Char) :
    ∀ t ∈ g_strsplit_chars delim l, delim ∉ t := by
  induction l with
  | nil => simp [g_strsplit_chars]
  | cons c cs ih =>
    unfold g_strsplit_chars
    by_cases hc : c = delim
    · simp only [hc, if_true]
      intro t ht
      rcases List.mem_cons.mp ht with e | h
      · subst e; simp
      · exact ih t h
    · simp only [hc, if_false]
      cases hr : g_strsplit_chars delim cs with
      | nil => exact absurd hr (g_strsplit_chars_ne_nil delim cs)
      | cons t ts =>
        rw [hr] at ih
        intro t' ht'
        rcases List.mem_cons.mp ht' with e | h
        · subst e
          intro hmem
          rcases List.mem_cons.mp hmem with e2 | h2
          · exact hc e2.symm
          · exact ih t (List.mem_cons_self _ _) h2
        · exact ih t' (List.mem_cons_of_mem _ h)

theorem config_loop_list (tokens : List String) :
    ∀ (fc fci : Bool) (cfg : List String),
      (active_monitor_config_loop tokens (fc, fci, cfg)).2.2 =
        (tokens.filter (fun t => decide (t ≠ ACTIVE_MONITOR_CURSOR_TAG))).reverse ++ cfg := by
  induction tokens with
  | nil => intro fc fci cfg; simp [active_monitor_config_loop]
  | cons t rest ih =>
    intro fc fci cfg
    unfold active_monitor_config_loop
    by_cases ht : t = ACTIVE_MONITOR_CURSOR_TAG
    · simp only [ht, if_true]
      rw [ih]
      simp
    · simp only [ht, if_false]
      rw [ih]
      simp [ht]

theorem config_loop_follow (tokens : List String) :
    ∀ (fc fci : Bool) (cfg : List String),
      (active_monitor_config_loop tokens (fc, fci, cfg)).1 =
        (fc || decide (ACTIVE_MONITOR_CURSOR_TAG ∈ tokens)) := by
  induction tokens with
  | nil => intro fc fci cfg; simp [active_monitor_config_loop]
  | cons t rest ih =>
    intro fc fci cfg
    unfold active_monitor_config_loop
    by_cases ht : t = ACTIVE_MONITOR_CURSOR_TAG
    · simp only [ht, if_true]
      rw [ih]
      simp
    · simp only [ht, if_false]
      rw [ih]
      have : ¬ ACTIVE_MONITOR_CURSOR_TAG = t := fun e => ht e.symm
      simp [this]

theorem config_loop_init (tokens : List String) :
    ∀ (fc fci : Bool) (cfg : List String),
      (active_monitor_config_loop tokens (fc, fci, cfg)).2.1 = true ↔
        (ACTIVE_MONITOR_CURSOR_TAG ∉ tokens ∧ fci = true) ∨
        (∃ pre post, tokens = pre ++ ACTIVE_MONITOR_CURSOR_TAG :: post ∧
          ACTIVE_MONITOR_CURSOR_TAG ∉ post ∧ cfg = [] ∧
          ∀ t ∈ pre, t = ACTIVE_MONITOR_CURSOR_TAG) := by
  induction tokens with
  | nil =>
    intro fc fci cfg
    simp [active_monitor_config_loop]
  | cons t rest ih =>
    intro fc fci cfg
    unfold active_monitor_config_loop
    by_cases ht : t = ACTIVE_MONITOR_CURSOR_TAG
    · simp only [ht, if_true]
      rw [ih]
      constructor
      · rintro (⟨h1, h2⟩ | ⟨pre, post, h1, h2, h3, h4⟩)
        · right
          exact ⟨[], rest, rfl, h1, by simpa using h2, by simp⟩
        · right
          refine ⟨ACTIVE_MONITOR_CURSOR_TAG :: pre, post, by simp [h1], h2, h3, ?_⟩
          intro t' ht'
          rcases List.mem_cons.mp ht' with e | h
          · exact e
          · exact h4 t' h
      · rintro (⟨h1, _⟩ | ⟨pre, post, h1, h2, h3, h4⟩)
        · exact absurd (List.mem_cons_self _ _) h1
        · cases pre with
          | nil =>
            simp only [List.nil_append, List.cons.injEq, true_and] at h1
            subst h1
            left
            exact ⟨h2, by simpa using h3⟩
          | cons p pre' =>
            simp only [List.cons_append, List.cons.injEq] at h1
            right
            exact ⟨pre', post, h1.2, h2, h3,
              fun t' ht' => h4 t' (List.mem_cons_of_mem _ ht')⟩
    · simp only [ht, if_false]
      rw [ih]
      have hne : ¬ ACTIVE_MONITOR_CURSOR_TAG = t := fun e => ht e.symm
      constructor
      · rintro (⟨h1, h2⟩ | ⟨pre, post, _, _, h3, _⟩)
        · left
          exact ⟨by simp [hne, h1], h2⟩
        · cases h3
      · rintro (⟨h1, h2⟩ | ⟨pre, post, h1, _, _, h4⟩)
        · left
          exact ⟨fun h => h1 (List.mem_cons_of_mem _ h), h2⟩
        · cases pre with
          | nil =>
            simp only [List.nil_append, List.cons.injEq] at h1
            exact absurd h1.1 ht
          | cons p pre' =>
            simp only [List.cons_append, List.cons.injEq] at h1
            have := h4 p (List.mem_cons_self _ _)
            rw [← h1.1] at this
            exact absurd this ht

/-! ### The custom background, monitor by monitor -/

theorem scale_image_file_isSome (load : String → Option GdkPixbuf) (path : String)
    (mode : ScalingMode) (width height : Int) (cache : Option (GHashTable GdkPixbuf))
    (h : load path ≠ none) :
    (scale_image_file load path mode width height cache).1 ≠ none := by
  unfold scale_image_file
  dsimp only
  split
  · simp
  · cases hl : load path with
    | none => exact absurd hl h
    | some pb =>
      cases hp : cache.bind (fun c => g_hash_table_lookup c path) <;> simp

theorem background_initialize_image (load : String → Option GdkPixbuf) (bg : Background)
    (path : String) (mode : ScalingMode) (monitor : Monitor)
    (cache : Option (GHashTable GdkPixbuf)) (h : load path ≠ none) :
    ( background_initialize load bg (.image path mode) monitor cache).1 = true ∧
    ( background_initialize load bg (.image path mode) monitor cache).2.1.type = .IMAGE := by
  have hs := scale_image_file_isSome load path mode monitor.geometry.width
    monitor.geometry.height cache h
  unfold background_initialize
  dsimp only
  cases hx : (scale_image_file load path mode monitor.geometry.width
      monitor.geometry.height cache).1 with
  | none => exact absurd hx hs
  | some pb => exact ⟨rfl, rfl⟩

theorem background_initialize_result (load : String → Option GdkPixbuf) (bg : Background)
    (config : BackgroundConfig) (monitor : Monitor) (cache : Option (GHashTable GdkPixbuf)) :
    (( background_initialize load bg config monitor cache).1 = true ∧
      ( background_initialize load bg config monitor cache).2.1.type = config.type ∧
      (config.type = .COLOR ∨ config.type = .IMAGE)) ∨
    (( background_initialize load bg config monitor cache).1 = false ∧
      ( background_initialize load bg config monitor cache).2.1 = bg) := by
  unfold background_initialize
  cases config with
  | invalid => right; exact ⟨rfl, rfl⟩
  | skip => right; exact ⟨rfl, rfl⟩
  | color c => left; exact ⟨rfl, rfl, Or.inl rfl⟩
  | image path mode =>
    dsimp only
    split
    · right; exact ⟨rfl, rfl⟩
    · left; exact ⟨rfl, rfl, Or.inr rfl⟩

theorem custom_background_monitor_absent (load : String → Option GdkPixbuf)
    (config : BackgroundConfig) (m : Nat)
    (st : GreeterBackgroundPrivate × Option (GHashTable GdkPixbuf))
    (h : st.1.monitors[m]? = none) : custom_background_monitor load config m st = st := by
  unfold custom_background_monitor
  dsimp only
  rw [h]

theorem custom_background_monitor_other (load : String → Option GdkPixbuf)
    (config : BackgroundConfig) (m : Nat)
    (st : GreeterBackgroundPrivate × Option (GHashTable GdkPixbuf)) (i : Nat) (hi : i ≠ m) :
    (custom_background_monitor load config m st).1.monitors[i]? = st.1.monitors[i]? := by
  unfold custom_background_monitor
  dsimp only
  split
  · rfl
  · split
    · split <;>
        simp only [monitor_set_background, List.getElem?_modify_ne _ _ (Ne.symm hi),
          List.getElem?_set_ne (Ne.symm hi)]
    · simp only [monitor_set_background, List.getElem?_modify_ne _ _ (Ne.symm hi),
        List.getElem?_set_ne (Ne.symm hi)]

theorem custom_background_monitor_at (load : String → Option GdkPixbuf)
    (config : BackgroundConfig) (m : Nat)
    (st : GreeterBackgroundPrivate × Option (GHashTable GdkPixbuf)) (old : Monitor)
    (h : st.1.monitors[m]? = some old) :
    ∃ (X : Background) (R : BackgroundRef),
      (custom_background_monitor load config m st).1.monitors[m]? =
        some { old with background_custom := X, background := some R } ∧
      (config.type = .INVALID → X = .invalid ∧ R = .configured) ∧
      (∀ c, config = .color c → X = .color c ∧ R = .custom) ∧
      (∀ path mode, config = .image path mode → load path ≠ none →
        X.type = .IMAGE ∧ R = .custom) ∧
      ((R = .custom ∧ X.type = config.type ∧ (config.type = .COLOR ∨ config.type = .IMAGE)) ∨
        (R = .configured ∧ X = .invalid)) := by
  have hlt : m < st.1.monitors.length := by
    by_contra hc
    rw [List.getElem?_eq_none (Nat.le_of_not_lt hc)] at h
    cases h
  unfold custom_background_monitor
  dsimp only
  rw [h]
  dsimp only [background_finalize]
  by_cases hinv : config.type = .INVALID
  · rw [if_neg (by simpa using hinv)]
    refine ⟨.invalid, .configured, ?_, fun _ => ⟨rfl, rfl⟩, ?_, ?_, Or.inr ⟨rfl, rfl⟩⟩
    · simp only [monitor_set_background]
      rw [List.getElem?_modify_eq, List.getElem?_set_self hlt]
      rfl
    · intro c hc; rw [hc] at hinv; cases hinv
    · intro p md hc; rw [hc] at hinv; cases hinv
  · rw [if_pos hinv]
    generalize hr : background_initialize load Background.invalid config
      { number := old.number, name := old.name, geometry := old.geometry,
        background_configured := old.background_configured,
        background_custom := Background.invalid, background := old.background } st.2 = r
    have hres := background_initialize_result load Background.invalid config
      { number := old.number, name := old.name, geometry := old.geometry,
        background_configured := old.background_configured,
        background_custom := Background.invalid, background := old.background } st.2
    rw [hr] at hres
    by_cases hok : r.1 = true
    · rw [if_pos hok]
      rcases hres with ⟨_, h2, h3⟩ | ⟨h1, _⟩
      · refine ⟨r.2.1, .custom, ?_, fun hc => absurd hc hinv, ?_, ?_, Or.inl ⟨rfl, h2, h3⟩⟩
        · simp only [monitor_set_background]
          rw [List.getElem?_modify_eq, List.getElem?_set_self hlt]
          rfl
        · intro c hc
          subst hc
          rw [← hr]
          exact ⟨rfl, rfl⟩
        · intro p md hc _
          rw [hc] at h2
          exact ⟨h2, rfl⟩
      · rw [h1] at hok; cases hok
    · rw [if_neg hok]
      rcases hres with ⟨h1, _, _⟩ | ⟨_, h2⟩
      · exact absurd h1 hok
      · refine ⟨.invalid, .configured, ?_, fun hc => absurd hc hinv, ?_, ?_,
          Or.inr ⟨rfl, rfl⟩⟩
        · simp only [monitor_set_background]
          rw [List.getElem?_modify_eq, List.getElem?_set_self hlt, h2]
          rfl
        · intro c hc
          subst hc
          rw [← hr] at hok
          exact absurd rfl hok
        · intro p md hc hl
          subst hc
          rw [← hr] at hok
          exact absurd (background_initialize_image load _ p md _ st.2 hl).1 hok

/-! ### The rebuild in closed form -/

theorem screen_monitor_config_congr {p q : GreeterBackgroundPrivate}
    (hc : p.configs = q.configs) (hd : p.default_config = q.default_config)
    (screen : GdkScreen) (i : Nat) :
    screen_monitor_config p screen i = screen_monitor_config q screen i := by
  unfold screen_monitor_config
  cases screen.monitors[i]? with
  | none => rfl
  | some sm =>
    simp only [Option.map_some']
    rw [monitor_config_resolve_congr hc hd rfl rfl]

theorem rebuild_config_congr {p q : GreeterBackgroundPrivate}
    (hc : p.configs = q.configs) (hd : p.default_config = q.default_config)
    (screen : GdkScreen) (i : Nat) :
    rebuild_config p screen i = rebuild_config q screen i := by
  unfold rebuild_config
  have h : screen_monitor_config p screen = screen_monitor_config q screen :=
    funext (screen_monitor_config_congr hc hd screen)
  rw [h, hd]

theorem rebuild_config_lt {p : GreeterBackgroundPrivate} {screen : GdkScreen} {i : Nat}
    {cfg : MonitorConfig} (h : rebuild_config p screen i = some cfg) :
    i < screen.monitors.length := by
  by_contra hc
  unfold rebuild_config screen_monitor_config at h
  rw [List.getElem?_eq_none (Nat.le_of_not_lt hc)] at h
  cases h

theorem rebuild_config_ne_skip {p : GreeterBackgroundPrivate} {screen : GdkScreen} {i : Nat}
    {cfg : MonitorConfig} (h : rebuild_config p screen i = some cfg) :
    cfg.bg.type ≠ .SKIP := by
  unfold rebuild_config at h
  cases hs : screen_monitor_config p screen i with
  | none => rw [hs] at h; cases h
  | some c =>
    rw [hs] at h
    dsimp only at h
    by_cases h1 : c.bg.type = .SKIP
    · rw [if_neg (by simpa using h1)] at h
      split at h
      · simp only [Option.some.injEq] at h
        subst h
        split
        · assumption
        · simp [DEFAULT_MONITOR_CONFIG, BackgroundConfig.type]
      · cases h
    · rw [if_pos h1] at h
      simp only [Option.some.injEq] at h
      subst h; exact h1

theorem rebuild_config_early {p : GreeterBackgroundPrivate} {screen : GdkScreen} {k : Nat}
    (hk : k + 1 < screen.monitors.length) :
    rebuild_config p screen k ≠ none ↔
      (screen_monitor_config p screen k).map (fun c => c.bg.type)
        ≠ some BackgroundType.SKIP := by
  have hlt : k < screen.monitors.length := by omega
  unfold rebuild_config
  have hsome : ∃ c, screen_monitor_config p screen k = some c := by
    unfold screen_monitor_config
    rw [List.getElem?_eq_getElem hlt]
    exact ⟨_, rfl⟩
  obtain ⟨c, hc⟩ := hsome
  rw [hc]
  simp only [Option.map_some']
  by_cases hs : c.bg.type = .SKIP
  · have hne : ¬ (k + 1 = screen.monitors.length) := by omega
    simp [hs, hne]
  · simp [hs]

theorem connect_monitor_config_rebuild {priv0 p : GreeterBackgroundPrivate}
    {screen : GdkScreen} {i : Nat} {sm : ScreenMonitor} {f : Option Nat} {m0 : Monitor}
    (hc : p.configs = priv0.configs) (hd : p.default_config = priv0.default_config)
    (hsm : screen.monitors[i]? = some sm) (hn : m0.name = sm.plug_name)
    (hi : m0.number = i)
    (hf : f.isSome = true ↔ ∃ k, k < i ∧ rebuild_config priv0 screen k ≠ none) :
    connect_monitor_config p screen.monitors.length i f m0 = rebuild_config priv0 screen i := by
  have hlt : i < screen.monitors.length := by
    by_contra hcon
    rw [List.getElem?_eq_none (Nat.le_of_not_lt hcon)] at hsm
    cases hsm
  have hres : screen_monitor_config priv0 screen i = some (monitor_config_resolve p m0) := by
    unfold screen_monitor_config
    rw [hsm]
    simp only [Option.map_some']
    rw [@monitor_config_resolve_congr priv0 p
      { Monitor.zero with name := sm.plug_name, number := i } m0 hc.symm hd.symm hn.symm hi.symm]
  unfold connect_monitor_config rebuild_config
  rw [hres]
  dsimp only
  by_cases hs : (monitor_config_resolve p m0).bg.type = .SKIP
  · have hns : ¬ ((monitor_config_resolve p m0).bg.type ≠ .SKIP) := fun h => h hs
    rw [if_pos hs, if_neg hns]
    have hcond : ((decide (i < screen.monitors.length - 1) || f.isSome) = true) ↔
        ¬ (i + 1 = screen.monitors.length ∧
          (List.range i).all (fun k =>
            decide ((screen_monitor_config priv0 screen k).map (fun c => c.bg.type)
              = some BackgroundType.SKIP)) = true) := by
      constructor
      · intro hcnd hlast
        obtain ⟨hl, hall⟩ := hlast
        simp only [Bool.or_eq_true, decide_eq_true_eq] at hcnd
        rcases hcnd with h1 | h1
        · omega
        · obtain ⟨k, hk, hne⟩ := hf.1 h1
          have := (@rebuild_config_early priv0 screen k
            (by omega)).1 hne
          rw [List.all_eq_true] at hall
          have h2 := hall k (List.mem_range.2 hk)
          simp only [decide_eq_true_eq] at h2
          exact this h2
      · intro hnl
        simp only [Bool.or_eq_true, decide_eq_true_eq]
        by_cases h1 : i < screen.monitors.length - 1
        · exact Or.inl h1
        · right
          have hl : i + 1 = screen.monitors.length := by omega
          have hna : ¬ ((List.range i).all (fun k =>
            decide ((screen_monitor_config priv0 screen k).map (fun c => c.bg.type)
              = some BackgroundType.SKIP)) = true) := fun ha => hnl ⟨hl, ha⟩
          rw [List.all_eq_true] at hna
          push_neg at hna
          obtain ⟨k, hk, hne⟩ := hna
          have hne2 : (screen_monitor_config priv0 screen k).map (fun c => c.bg.type)
              ≠ some BackgroundType.SKIP := by simpa using hne
          exact hf.2 ⟨k, List.mem_range.1 hk,
            (rebuild_config_early (by have := List.mem_range.1 hk; omega)).2 hne2⟩
    by_cases hcnd : (decide (i < screen.monitors.length - 1) || f.isSome) = true
    · rw [if_pos hcnd, if_neg (hcond.1 hcnd)]
    · rw [if_neg hcnd, if_pos (not_not.1 (mt hcond.2 hcnd)), hd]
      split <;> rfl
  · rw [if_neg hs, if_pos hs]

theorem rebuild_inv_step (load : String → Option GdkPixbuf) (priv0 : GreeterBackgroundPrivate)
    (screen : GdkScreen) (i : Nat) (sm : ScreenMonitor) (st : ConnectLoop)
    (hinv : rebuild_inv load priv0 screen i st) (hsm : screen.monitors[i]? = some sm) :
    rebuild_inv load priv0 screen (i + 1)
      (connect_monitor load screen.monitors.length sm i st) := by
  obtain ⟨hlen, hc, hd, hf, hcust, hlap, hdone, htodo⟩ := hinv
  have hlt : i < screen.monitors.length := by
    by_contra hcon
    rw [List.getElem?_eq_none (Nat.le_of_not_lt hcon)] at hsm
    cases hsm
  have hzero := htodo i (le_refl i) hlt
  have hgetD : st.priv.monitors.getD i Monitor.zero = Monitor.zero :=
    getD_background _ _ _ hzero
  have hcfg := @connect_monitor_config_rebuild priv0 st.priv screen i sm
    st.first_not_skipped_monitor
    { Monitor.zero with name := sm.plug_name, number := i, geometry := sm.geometry }
    hc hd hsm rfl rfl hf
  have hlt2 : i < st.priv.monitors.length := by rw [hlen]; exact hlt
  cases hr : rebuild_config priv0 screen i with
  | none =>
    rw [connect_monitor_skip load _ sm i st _ rfl rfl (hcfg.trans hr)]
    dsimp only
    rw [hgetD]
    refine ⟨?_, hc, hd, ?_, ?_, ?_, ?_, ?_⟩
    · rw [List.length_set]; exact hlen
    · rw [hf]
      constructor
      · rintro ⟨k, hk, hne⟩
        exact ⟨k, by omega, hne⟩
      · rintro ⟨k, hk, hne⟩
        have hki : k ≠ i := by rintro rfl; exact hne hr
        exact ⟨k, by omega, hne⟩
    · intro k
      rw [hcust k]
      constructor
      · rintro (h | ⟨hk, h⟩)
        · exact Or.inl h
        · exact Or.inr ⟨by omega, h⟩
      · rintro (h | ⟨hk, cfg, h1, h2⟩)
        · exact Or.inl h
        · have hki : k ≠ i := by rintro rfl; rw [hr] at h1; cases h1
          exact Or.inr ⟨by omega, cfg, h1, h2⟩
    · intro k
      rw [hlap k]
      constructor
      · rintro (h | ⟨hk, h⟩)
        · exact Or.inl h
        · exact Or.inr ⟨by omega, h⟩
      · rintro (h | ⟨hk, cfg, h1, h2⟩)
        · exact Or.inl h
        · have hki : k ≠ i := by rintro rfl; rw [hr] at h1; cases h1
          exact Or.inr ⟨by omega, cfg, h1, h2⟩
    · intro k sm2 hk hsm2
      by_cases hki : k = i
      · subst hki
        rw [hsm] at hsm2
        cases hsm2
        refine ⟨_, List.getElem?_set_self hlt2, ?_⟩
        rw [hr]
        rfl
      · rw [List.getElem?_set_ne (Ne.symm hki)]
        exact hdone k sm2 (by omega) hsm2
    · intro k hk hkn
      rw [List.getElem?_set_ne (by omega)]
      exact htodo k (by omega) hkn
  | some cfg =>
    rw [connect_monitor_keep load _ sm i st _ rfl rfl cfg (hcfg.trans hr)]
    dsimp only
    rw [hgetD]
    refine ⟨?_, hc, hd, ?_, ?_, ?_, ?_, ?_⟩
    · rw [List.length_modify, List.length_set, List.length_set]; exact hlen
    · constructor
      · intro _
        exact ⟨i, by omega, by rw [hr]; simp⟩
      · intro _
        cases st.first_not_skipped_monitor <;> rfl
    · intro k
      by_cases hu : cfg.user_bg = true
      · rw [if_pos hu, List.mem_cons, hcust k]
        constructor
        · rintro (h | h | ⟨hk, h⟩)
          · subst h; exact Or.inr ⟨by omega, cfg, hr, hu⟩
          · exact Or.inl h
          · exact Or.inr ⟨by omega, h⟩
        · rintro (h | ⟨hk, c, h1, h2⟩)
          · exact Or.inr (Or.inl h)
          · by_cases hki : k = i
            · exact Or.inl hki
            · exact Or.inr (Or.inr ⟨by omega, c, h1, h2⟩)
      · rw [if_neg hu, hcust k]
        constructor
        · rintro (h | ⟨hk, h⟩)
          · exact Or.inl h
          · exact Or.inr ⟨by omega, h⟩
        · rintro (h | ⟨hk, c, h1, h2⟩)
          · exact Or.inl h
          · have hki : k ≠ i := by
              rintro rfl
              rw [hr] at h1
              cases h1
              exact hu h2
            exact Or.inr ⟨by omega, c, h1, h2⟩
    · intro k
      by_cases hu : cfg.laptop = true
      · rw [if_pos hu, List.mem_cons, hlap k]
        constructor
        · rintro (h | h | ⟨hk, h⟩)
          · subst h; exact Or.inr ⟨by omega, cfg, hr, hu⟩
          · exact Or.inl h
          · exact Or.inr ⟨by omega, h⟩
        · rintro (h | ⟨hk, c, h1, h2⟩)
          · exact Or.inr (Or.inl h)
          · by_cases hki : k = i
            · exact Or.inl hki
            · exact Or.inr (Or.inr ⟨by omega, c, h1, h2⟩)
      · rw [if_neg hu, hlap k]
        constructor
        · rintro (h | ⟨hk, h⟩)
          · exact Or.inl h
          · exact Or.inr ⟨by omega, h⟩
        · rintro (h | ⟨hk, c, h1, h2⟩)
          · exact Or.inl h
          · have hki : k ≠ i := by
              rintro rfl
              rw [hr] at h1
              cases h1
              exact hu h2
            exact Or.inr ⟨by omega, c, h1, h2⟩
    · intro k sm2 hk hsm2
      by_cases hki : k = i
      · subst hki
        rw [hsm] at hsm2
        cases hsm2
        refine ⟨⟨k, sm.plug_name, sm.geometry,
          (connect_background load .invalid cfg.bg
            ⟨k, sm.plug_name, sm.geometry, .invalid, .invalid, none⟩ st.images_cache).1,
          .invalid, some .configured⟩, ?_, ?_⟩
        · rw [List.getElem?_modify_eq,
            List.getElem?_set_self (by rw [List.length_set]; exact hlt2)]
          rfl
        · rw [hr]
          exact ⟨st.images_cache, rfl⟩
      · rw [List.getElem?_modify_ne _ _ (Ne.symm hki), List.getElem?_set_ne (Ne.symm hki),
          List.getElem?_set_ne (Ne.symm hki)]
        exact hdone k sm2 (by omega) hsm2
    · intro k hk hkn
      rw [List.getElem?_modify_ne _ _ (by omega), List.getElem?_set_ne (by omega),
        List.getElem?_set_ne (by omega)]
      exact htodo k (by omega) hkn

theorem rebuild_inv_loop (load : String → Option GdkPixbuf) (priv0 : GreeterBackgroundPrivate)
    (screen : GdkScreen) :
    ∀ (sms : List ScreenMonitor) (i : Nat) (st : ConnectLoop),
      screen.monitors.drop i = sms → rebuild_inv load priv0 screen i st →
      rebuild_inv load priv0 screen screen.monitors.length
        (connect_loop load screen.monitors.length sms i st) := by
  intro sms
  induction sms with
  | nil =>
    intro i st hd hinv
    have hle : screen.monitors.length ≤ i := by
      simpa using hd
    obtain ⟨hlen, hc, hdc, hf, hcust, hlap, hdone, htodo⟩ := hinv
    have hnone : ∀ k, screen.monitors.length ≤ k → rebuild_config priv0 screen k = none := by
      intro k hk
      cases hx : rebuild_config priv0 screen k with
      | none => rfl
      | some c => have := rebuild_config_lt hx; omega
    unfold connect_loop
    refine ⟨hlen, hc, hdc, ?_, ?_, ?_, ?_, ?_⟩
    · rw [hf]
      constructor
      · rintro ⟨k, hk, hne⟩
        refine ⟨k, ?_, hne⟩
        by_contra hcon
        exact hne (hnone k (by omega))
      · rintro ⟨k, hk, hne⟩
        exact ⟨k, by omega, hne⟩
    · intro k
      rw [hcust k]
      constructor
      · rintro (h | ⟨hk, c, h1, h2⟩)
        · exact Or.inl h
        · exact Or.inr ⟨rebuild_config_lt h1, c, h1, h2⟩
      · rintro (h | ⟨hk, h⟩)
        · exact Or.inl h
        · exact Or.inr ⟨by omega, h⟩
    · intro k
      rw [hlap k]
      constructor
      · rintro (h | ⟨hk, c, h1, h2⟩)
        · exact Or.inl h
        · exact Or.inr ⟨rebuild_config_lt h1, c, h1, h2⟩
      · rintro (h | ⟨hk, h⟩)
        · exact Or.inl h
        · exact Or.inr ⟨by omega, h⟩
    · intro k sm hk hsm
      exact hdone k sm (by omega) hsm
    · intro k hk hkn
      omega
  | cons sm rest ih =>
    intro i st hd hinv
    have hsm : screen.monitors[i]? = some sm := (drop_cons_getElem? hd).1
    unfold connect_loop
    exact ih (i + 1) _ (drop_cons_getElem? hd).2 (rebuild_inv_step load priv0 screen i sm st hinv hsm)

/-- What a rebuild for `screen` leaves in the monitor array and in the two
monitor lists. -/
theorem connect_monitors_rebuild (load : String → Option GdkPixbuf)
    (s0 : GreeterBackgroundPrivate) (screen : GdkScreen)
    (h1 : s0.customized_monitors = []) (h2 : s0.laptop_monitors = []) :
    (connect_monitors load s0 screen).monitors.length = screen.monitors.length ∧
    (∀ k, k ∈ (connect_monitors load s0 screen).customized_monitors ↔
      ∃ cfg, rebuild_config s0 screen k = some cfg ∧ cfg.user_bg = true) ∧
    (∀ k, k ∈ (connect_monitors load s0 screen).laptop_monitors ↔
      ∃ cfg, rebuild_config s0 screen k = some cfg ∧ cfg.laptop = true) ∧
    (∀ k sm, screen.monitors[k]? = some sm →
      ∃ mon, (connect_monitors load s0 screen).monitors[k]? = some mon ∧
        rebuilt_monitor load k sm (rebuild_config s0 screen k) mon) := by
  have hinv := rebuild_inv_loop load s0 screen screen.monitors 0
    { priv := { s0 with screen := some screen,
                        monitors := List.replicate screen.monitors.length Monitor.zero,
                        monitors_map := [] },
      first_not_skipped_monitor := none, images_cache := some [] } rfl
    ⟨by simp, rfl, rfl, by simp, by simp [h1], by simp [h2],
      fun k sm hk _ => absurd hk (Nat.not_lt_zero k),
      fun k _ hk => by simp [List.getElem?_replicate, hk]⟩
  obtain ⟨hlen, _, _, _, hcust, hlap, hdone, _⟩ := hinv
  unfold connect_monitors
  dsimp only
  refine ⟨hlen, ?_, ?_, ?_⟩
  · intro k
    rw [hcust k]
    constructor
    · rintro (h | ⟨_, h⟩)
      · rw [h1] at h; cases h
      · exact h
    · intro h
      obtain ⟨c, hc1, hc2⟩ := h
      exact Or.inr ⟨rebuild_config_lt hc1, c, hc1, hc2⟩
  · intro k
    rw [hlap k]
    constructor
    · rintro (h | ⟨_, h⟩)
      · rw [h2] at h; cases h
      · exact h
    · intro h
      obtain ⟨c, hc1, hc2⟩ := h
      exact Or.inr ⟨rebuild_config_lt hc1, c, hc1, hc2⟩
  · intro k sm hsm
    have hlt : k < screen.monitors.length := by
      by_contra hcon
      rw [List.getElem?_eq_none (Nat.le_of_not_lt hcon)] at hsm
      cases hsm
    exact hdone k sm hlt hsm

/-- What `greeter_background_connect` leaves in the monitor array and in the
two monitor lists, in terms of the configuration held before the call. -/
theorem connect_rebuild (load : String → Option GdkPixbuf) (upower : Option UPower)
    (s0 s : GreeterBackgroundPrivate) (screen : GdkScreen) (hs0 : Reachable s0)
    (h : greeter_background_connect load upower s0 screen = some s) :
    s.monitors.length = screen.monitors.length ∧
    (∀ k, k ∈ s.customized_monitors ↔
      ∃ cfg, rebuild_config s0 screen k = some cfg ∧ cfg.user_bg = true) ∧
    (∀ k, k ∈ s.laptop_monitors ↔
      ∃ cfg, rebuild_config s0 screen k = some cfg ∧ cfg.laptop = true) ∧
    (∀ k sm, screen.monitors[k]? = some sm →
      ∃ mon, s.monitors[k]? = some mon ∧
        rebuilt_monitor load k sm (rebuild_config s0 screen k) mon) := by
  obtain ⟨i1, i2⟩ := reachable_invariant hs0
  obtain ⟨c1, c2, c3, _, _⟩ := (connect_spec load upower s0 screen
    (fun hx => screen_none_active_none hs0 hx)).1 s h
  have hcfg : ∀ k, rebuild_config
      (if s0.screen.isSome then greeter_background_disconnect s0 else s0) screen k
      = rebuild_config s0 screen k := by
    intro k
    apply rebuild_config_congr
    · split <;> rfl
    · split <;> rfl
  have hcu : (if s0.screen.isSome then greeter_background_disconnect s0
      else s0).customized_monitors = [] := by
    cases hx : s0.screen with
    | none => simpa using (i2 hx).2.1
    | some sc => simp [greeter_background_disconnect]
  have hla : (if s0.screen.isSome then greeter_background_disconnect s0
      else s0).laptop_monitors = [] := by
    cases hx : s0.screen with
    | none => simpa using (i2 hx).2.2
    | some sc => simp [greeter_background_disconnect]
  obtain ⟨r1, r2, r3, r4⟩ := connect_monitors_rebuild load _ screen hcu hla
  rw [c1, c2, c3]
  refine ⟨r1, ?_, ?_, ?_⟩
  · intro k; rw [r2 k, hcfg k]
  · intro k; rw [r3 k, hcfg k]
  · intro k sm hsm
    have := r4 k sm hsm
    rw [hcfg k] at this
    exact this

/-! ### The loop over the customizable monitors -/

theorem custom_background_loop_monitors (load : String → Option GdkPixbuf)
    (config : BackgroundConfig) (Q : Monitor → Monitor → Prop)
    (hstep : ∀ (m : Nat) (st : GreeterBackgroundPrivate × Option (GHashTable GdkPixbuf))
      (old : Monitor), st.1.monitors[m]? = some old →
      ∃ new, (custom_background_monitor load config m st).1.monitors[m]? = some new ∧
        Q old new)
    (htrans : ∀ a b c, Q a b → Q b c → Q a c) :
    ∀ (l : List Nat) (st : GreeterBackgroundPrivate × Option (GHashTable GdkPixbuf))
      (i : Nat) (old : Monitor), st.1.monitors[i]? = some old →
      ∃ new, (custom_background_loop load config l st).1.monitors[i]? = some new ∧
        (i ∈ l → Q old new) ∧ (i ∉ l → new = old) := by
  intro l
  induction l with
  | nil =>
    intro st i old h
    exact ⟨old, h, fun hm => (by cases hm), fun _ => rfl⟩
  | cons m rest ih =>
    intro st i old h
    simp only [custom_background_loop]
    by_cases him : i = m
    · subst him
      obtain ⟨new1, h1, q1⟩ := hstep i st old h
      obtain ⟨new, h2, q2, q3⟩ := ih (custom_background_monitor load config i st) i new1 h1
      refine ⟨new, h2, fun _ => ?_, fun hn => absurd (List.mem_cons_self _ _) hn⟩
      by_cases hr : i ∈ rest
      · exact htrans _ _ _ q1 (q2 hr)
      · rw [q3 hr]; exact q1
    · have h1 : (custom_background_monitor load config m st).1.monitors[i]? = some old := by
        rw [custom_background_monitor_other load config m st i him]; exact h
      obtain ⟨new, h2, q2, q3⟩ := ih (custom_background_monitor load config m st) i old h1
      refine ⟨new, h2, fun hm => ?_, fun hn => ?_⟩
      · rcases List.mem_cons.1 hm with hx | hx
        · exact absurd hx him
        · exact q2 hx
      · exact q3 (fun hx => hn (List.mem_cons_of_mem _ hx))

theorem custom_background_monitor_events (load : String → Option GdkPixbuf)
    (config : BackgroundConfig) (hc : config.type = .INVALID) (m : Nat)
    (st : GreeterBackgroundPrivate × Option (GHashTable GdkPixbuf)) :
    (custom_background_monitor load config m st).1.events =
      st.1.events ++ (if m < st.1.monitors.length then [Event.monitor_queue_draw m] else []) ∧
    (custom_background_monitor load config m st).1.monitors.length = st.1.monitors.length := by
  by_cases hlt : m < st.1.monitors.length
  · unfold custom_background_monitor
    dsimp only
    rw [List.getElem?_eq_getElem hlt]
    dsimp only
    rw [if_neg (by simpa using hc), if_pos hlt]
    simp [monitor_set_background]
  · rw [custom_background_monitor_absent load config m st
      (List.getElem?_eq_none (Nat.le_of_not_lt hlt)), if_neg hlt]
    simp

theorem custom_background_loop_events (load : String → Option GdkPixbuf)
    (config : BackgroundConfig) (hc : config.type = .INVALID) :
    ∀ (l : List Nat) (st : GreeterBackgroundPrivate × Option (GHashTable GdkPixbuf)),
      (custom_background_loop load config l st).1.events =
        st.1.events ++ (l.filter (fun m => decide (m < st.1.monitors.length))).map
          Event.monitor_queue_draw := by
  intro l
  induction l with
  | nil => intro st; simp [custom_background_loop]
  | cons m rest ih =>
    intro st
    obtain ⟨e1, e2⟩ := custom_background_monitor_events load config hc m st
    simp only [custom_background_loop]
    rw [ih, e1, e2]
    by_cases hlt : m < st.1.monitors.length
    · simp [hlt, List.filter_cons]
    · simp [hlt, List.filter_cons]

theorem set_custom_background_monitors (parse : String → Option GdkRGBA)
    (load : String → Option GdkPixbuf) (s : GreeterBackgroundPrivate) (value : Option String) :
    (greeter_background_set_custom_background parse load s value).monitors =
      (custom_background_loop load ( background_config_initialize parse value).2
        s.customized_monitors
        (s, if ( background_config_initialize parse value).2.type = .IMAGE then some []
            else none)).1.monitors := by
  unfold greeter_background_set_custom_background
  split
  · rename_i h
    rw [List.isEmpty_iff.1 h]
    rfl
  · rfl

theorem rebuilt_monitor_background {load : String → Option GdkPixbuf} {k : Nat}
    {sm : ScreenMonitor} {c : Option MonitorConfig} {mon : Monitor}
    (h : rebuilt_monitor load k sm c mon) :
    mon.number = k ∧ mon.name = sm.plug_name ∧ mon.geometry = sm.geometry ∧
    mon.background_custom = .invalid ∧
    (c = none → mon.background = none ∧ mon.background_configured = .invalid) ∧
    (∀ cfg, c = some cfg → mon.background = some .configured ∧
      ∃ cache, mon.background_configured = (connect_background load .invalid cfg.bg
        { Monitor.zero with name := sm.plug_name, number := k, geometry := sm.geometry }
        cache).1) := by
  cases c with
  | none =>
    have h2 : mon = { Monitor.zero with name := sm.plug_name, number := k,
                                        geometry := sm.geometry } := h
    subst h2
    exact ⟨rfl, rfl, rfl, rfl, fun _ => ⟨rfl, rfl⟩, fun cfg hc => (by cases hc)⟩
  | some cfg =>
    obtain ⟨cache, h2⟩ := h
    subst h2
    refine ⟨rfl, rfl, rfl, rfl, fun hc => (by cases hc), fun cfg2 hc => ?_⟩
    cases hc
    exact ⟨rfl, cache, rfl⟩

theorem state_plain_b_step :
    greeter_background_connect no_file none config_plain_b screen_abc = some state_plain_b := by
  rfl

theorem state_overlay_reachable : Reachable state_overlay :=
  Reachable.add_subwindow
    (Reachable.connect
      (Reachable.set_default_config (Reachable.init (0, 0)) parse_black (some "black")
        false false)
      no_file none screen_abc
      (show greeter_background_connect no_file none config_no_user_bg screen_abc
        = some ((greeter_background_connect no_file none config_no_user_bg screen_abc).getD
            config_no_user_bg) from rfl))
    ⟨7, true⟩

/-! ### Lid events -/

theorem auto_selectable {s : GreeterBackgroundPrivate} {screen : GdkScreen} {q : Nat}
    (hs : s.screen = some screen) (hp : screen.primary < s.monitors.length)
    (hq : selectable s q) : ∃ n, active_monitor_auto s = some (some n) := by
  unfold active_monitor_auto
  cases active_monitor_from_config s s.active_monitors_config with
  | some m => exact ⟨m, rfl⟩
  | none =>
    simp only [primary_cases hs hp]
    by_cases hpq : selectable s screen.primary
    · simp only [hpq, if_true]; exact ⟨_, rfl⟩
    · simp only [hpq, if_false]
      cases hf : active_monitor_fallback s with
      | none => exact absurd hq (fallback_none hf q)
      | some n => exact ⟨n, rfl⟩

theorem enabled_lid_open (s : GreeterBackgroundPrivate) (m : Nat) :
    greeter_background_monitor_enabled { s with laptop_lid_closed := false } m = true := by
  unfold greeter_background_monitor_enabled
  split <;> rfl

theorem state_lvds_open_step :
    greeter_background_connect no_file (some ⟨true, false⟩) config_lvds_first screen_laptop
      = some state_lvds_open := by
  rfl

theorem state_lvds_open_reachable : Reachable state_lvds_open :=
  Reachable.connect
    (Reachable.set_active_monitor_config
      (Reachable.set_monitor_config (Reachable.init (0, 0)) parse_black "LVDS" none
        false false true true) (some "LVDS"))
    no_file (some ⟨true, false⟩) screen_laptop state_lvds_open_step

theorem state_lvds_closed_step :
    greeter_background_dbus_changed_cb state_lvds_open true = some state_lvds_closed := by
  rfl

theorem state_lvds_closed_reachable : Reachable state_lvds_closed :=
  Reachable.dbus_changed state_lvds_open_reachable (by decide) true state_lvds_closed_step

theorem auto_first_candidate {s : GreeterBackgroundPrivate} {id : String} {rest : List String}
    {m : Nat} (hcfg : s.active_monitors_config = id :: rest)
    (hm : g_hash_table_lookup s.monitors_map id = some m) (hq : selectable s m) :
    active_monitor_auto s = some (some m) := by
  have h := @from_config_first s [] rest id m hm hq
    (fun id' h => (by cases h))
  rw [List.nil_append] at h
  unfold active_monitor_auto
  rw [hcfg, h]

theorem auto_primary {s : GreeterBackgroundPrivate} {screen : GdkScreen}
    (hcfg : s.active_monitors_config = []) (hs : s.screen = some screen)
    (hq : selectable s screen.primary) :
    active_monitor_auto s = some (some screen.primary) := by
  have hp := primary_cases hs (monitor_background_lt hq.1)
  rw [if_pos hq] at hp
  unfold active_monitor_auto
  rw [hcfg]
  simp only [active_monitor_from_config, hp]

/-! ### The image cache -/

theorem scale_image_key_ne_path (path : String) (mode : ScalingMode) (width height : Int) :
    scale_image_key path mode width height ≠ path := by
  intro h
  have hl := congrArg String.length h
  simp only [scale_image_key, String.length_append] at hl
  have h1 : ("\n" : String).length = 1 := rfl
  omega

theorem scale_image_file_hit (load : String → Option GdkPixbuf) (path : String)
    (mode : ScalingMode) (width height : Int) (c : GHashTable GdkPixbuf) (pb : GdkPixbuf)
    (h : g_hash_table_lookup c (scale_image_key path mode width height) = some pb) :
    scale_image_file load path mode width height (some c) = (some pb, some c, []) := by
  unfold scale_image_file
  simp only [Option.bind, h]

theorem scale_image_file_source (load : String → Option GdkPixbuf) (path : String)
    (mode : ScalingMode) (width height : Int) (c : GHashTable GdkPixbuf) (pb : GdkPixbuf)
    (h : g_hash_table_lookup c path = some pb) :
    (scale_image_file load path mode width height (some c)).2.2 = [] := by
  unfold scale_image_file
  simp only [Option.bind, h]
  cases g_hash_table_lookup c (scale_image_key path mode width height) <;> rfl

/-- The three ways a call of `scale_image_file` with a cache ends. -/
theorem scale_image_file_cases (load : String → Option GdkPixbuf) (path : String)
    (mode : ScalingMode) (width height : Int) (c : GHashTable GdkPixbuf) :
    (∃ pb, g_hash_table_lookup c (scale_image_key path mode width height) = some pb ∧
      scale_image_file load path mode width height (some c) = (some pb, some c, [])) ∨
    (∃ src, g_hash_table_lookup c (scale_image_key path mode width height) = none ∧
      g_hash_table_lookup c path = some src ∧
      scale_image_file load path mode width height (some c) =
        (some (scale_image src mode width height),
         some (g_hash_table_insert c (scale_image_key path mode width height)
           (scale_image src mode width height)), [])) ∨
    (∃ src, g_hash_table_lookup c (scale_image_key path mode width height) = none ∧
      g_hash_table_lookup c path = none ∧ load path = some src ∧
      scale_image_file load path mode width height (some c) =
        (some (scale_image src mode width height),
         some (g_hash_table_insert (g_hash_table_insert c path src)
           (scale_image_key path mode width height) (scale_image src mode width height)),
         [path])) ∨
    (g_hash_table_lookup c (scale_image_key path mode width height) = none ∧
      g_hash_table_lookup c path = none ∧ load path = none ∧
      scale_image_file load path mode width height (some c) = (none, some c, [path])) := by
  unfold scale_image_file
  cases hk : g_hash_table_lookup c (scale_image_key path mode width height) with
  | some pb => left; exact ⟨pb, rfl, by simp [Option.bind, hk]⟩
  | none =>
    right
    cases hp : g_hash_table_lookup c path with
    | some src => left; exact ⟨src, rfl, rfl, by simp [Option.bind, hk, hp]⟩
    | none =>
      right
      cases hl : load path with
      | some src => left; exact ⟨src, rfl, rfl, rfl, by simp [Option.bind, hk, hp, hl]⟩
      | none => right; exact ⟨rfl, rfl, rfl, by simp [Option.bind, hk, hp, hl]⟩

/-! ### The fallback of the lines 500-501 -/

theorem connect_background_result (load : String → Option GdkPixbuf)
    (config : BackgroundConfig) (monitor : Monitor) (cache : Option (GHashTable GdkPixbuf)) :
    (( background_initialize load .invalid config monitor cache).1 = false →
      (connect_background load .invalid config monitor cache).1 = .color ⟨0, 0, 0, 1⟩) ∧
    (( background_initialize load .invalid config monitor cache).1 = true →
      (connect_background load .invalid config monitor cache).1 =
        ( background_initialize load .invalid config monitor cache).2.1 ∧
      (connect_background load .invalid config monitor cache).1.type = config.type) ∧
    ((connect_background load .invalid config monitor cache).1.type = .COLOR ∨
      (connect_background load .invalid config monitor cache).1.type = .IMAGE) := by
  have hres := background_initialize_result load .invalid config monitor cache
  unfold connect_background
  dsimp only
  rcases hres with ⟨h1, h2, h3⟩ | ⟨h1, h2⟩
  · rw [h1]
    refine ⟨fun h => (by cases h), fun _ => ⟨rfl, h2⟩, ?_⟩
    simp only [Bool.not_true, Bool.false_eq_true, if_false]
    rw [h2]
    exact h3
  · rw [h1]
    refine ⟨fun _ => rfl, fun h => (by cases h), Or.inl rfl⟩

theorem gint_of_gdouble_nonpos (q : Rat) (hq : q ≤ 0) :
    q ≤ (gint_of_gdouble q : Rat) ∧ (gint_of_gdouble q : Rat) < q + 1 ∧
    gint_of_gdouble q ≤ 0 := by
  unfold gint_of_gdouble
  by_cases h0 : 0 ≤ q
  · have hz : q = 0 := le_antisymm hq h0
    subst hz
    simp [Rat.floor_def']
  · rw [if_neg h0]
    have h1 : ((Rat.floor (-q) : Int) : Rat) ≤ -q := by
      have := (Rat.le_floor (z := Rat.floor (-q)) (r := -q)).1 (le_refl _)
      exact this
    have h2 : -q < ((Rat.floor (-q) : Int) : Rat) + 1 := by
      by_contra hc
      push_neg at hc
      have h3 : Rat.floor (-q) + 1 ≤ Rat.floor (-q) := by
        apply (Rat.le_floor).2
        push_cast
        exact hc
      omega
    have h4 : 0 ≤ Rat.floor (-q) := by
      apply (Rat.le_floor).2
      push_cast
      linarith
    refine ⟨?_, ?_, ?_⟩
    · push_cast; linarith
    · push_cast; linarith
    · omega

theorem gint_of_gdouble_int (z : Int) : gint_of_gdouble (z : Rat) = z := by
  unfold gint_of_gdouble
  have hf : ∀ y : Int, Rat.floor (y : Rat) = y := by
    intro y
    apply le_antisymm
    · have := (Rat.le_floor (z := Rat.floor (y : Rat)) (r := (y : Rat))).1 (le_refl _)
      exact_mod_cast this
    · exact (Rat.le_floor).2 (le_refl _)
  split
  · exact hf z
  · have : (-(z : Rat)) = ((-z : Int) : Rat) := by push_cast; rfl
    rw [this, hf]
    omega

/-! ### The trace of `greeter_background_save_xroot` -/

theorem save_xroot_loop_append (past_end : Monitor) (priv : GreeterBackgroundPrivate) :
    ∀ (l1 l2 : List Nat) (t : XRootTrace),
      save_xroot_loop past_end priv (l1 ++ l2) t =
        (save_xroot_loop past_end priv l1 t).bind (save_xroot_loop past_end priv l2) := by
  intro l1
  induction l1 with
  | nil => intro l2 t; rfl
  | cons i rest ih =>
    intro l2 t
    simp only [List.cons_append, save_xroot_loop]
    cases save_xroot_step past_end priv i t with
    | none => rfl
    | some t1 => exact ih l2 t1

theorem save_xroot_loop_inside (past_end : Monitor) (priv : GreeterBackgroundPrivate)
    (a : Nat) (ha : priv.active_monitor = some a) :
    ∀ (l : List Nat) (t : XRootTrace), (∀ i ∈ l, i < priv.monitors.length) →
      save_xroot_loop past_end priv l t =
        some ⟨t.reads ++ l.filter (fun i => decide (i ≠ a)),
              t.draws ++ l.filter (fun i => decide (i ≠ a) &&
                (monitor_background priv i).isSome)⟩ := by
  intro l
  induction l with
  | nil => intro t _; simp [save_xroot_loop]
  | cons i rest ih =>
    intro t hl
    have hi : i < priv.monitors.length := hl i (List.mem_cons_self _ _)
    have hrest : ∀ j ∈ rest, j < priv.monitors.length :=
      fun j hj => hl j (List.mem_cons_of_mem _ hj)
    have hget : priv.monitors.getD i past_end = priv.monitors[i] := by
      simp [List.getD_eq_getElem?_getD, List.getElem?_eq_getElem hi]
    have hbg : monitor_background priv i = priv.monitors[i].background := by
      simp [monitor_background, List.getElem?_eq_getElem hi]
    simp only [save_xroot_loop, save_xroot_step, ha, hget]
    by_cases hia : i = a
    · subst hia
      simp only [if_true]
      rw [ih t hrest]
      simp [List.filter_cons]
    · have hne : ¬ (some i = some a) := fun h => hia (Option.some.inj h)
      simp only [hne, if_false]
      have hn : ¬ (i = priv.monitors.length) := by omega
      cases hb : priv.monitors[i].background with
      | none =>
        simp only [Option.isNone_none, if_true]
        rw [ih _ hrest]
        simp [List.filter_cons, hia, hbg, hb]
      | some r =>
        simp only [Option.isNone_some, Bool.false_eq_true, if_false, hn]
        rw [ih _ hrest]
        simp [List.filter_cons, hia, hbg, hb]

/-- The trace of `greeter_background_save_xroot` when a monitor of the array
is active. -/
theorem save_xroot_trace (past_end : Monitor) (priv : GreeterBackgroundPrivate)
    (a : Nat) (ha : priv.active_monitor = some a) (hlt : a < priv.monitors.length) :
    greeter_background_save_xroot past_end priv =
      some ⟨(List.range priv.monitors.length).filter (fun i => decide (i ≠ a)) ++
              [priv.monitors.length],
            (List.range priv.monitors.length).filter (fun i => decide (i ≠ a) &&
                (monitor_background priv i).isSome) ++
              (if past_end.background.isSome then [a] else [])⟩ := by
  unfold greeter_background_save_xroot
  rw [List.range_succ, save_xroot_loop_append,
    save_xroot_loop_inside past_end priv a ha _ _ (fun i hi => List.mem_range.1 hi)]
  have hne : ¬ (some priv.monitors.length = some a) := by
    intro h
    have := Option.some.inj h
    omega
  have hget : priv.monitors.getD priv.monitors.length past_end = past_end := by
    simp [List.getD_eq_getElem?_getD]
  simp only [Option.bind, save_xroot_loop, save_xroot_step, ha, hne, if_false, hget,
    List.nil_append]
  cases hb : past_end.background <;> simp

theorem config_two_laptops_reachable (cursor : Int × Int) :
    Reachable (config_two_laptops cursor) :=
  Reachable.set_active_monitor_config
    (Reachable.set_monitor_config
      (Reachable.set_monitor_config (Reachable.init cursor) parse_black "A" none
        false false true true)
      parse_black "B" none false false true true)
    (some "#cursor")

theorem state_two_laptops_a_reachable : Reachable (state_two_laptops (0, 0)) :=
  Reachable.connect (config_two_laptops_reachable (0, 0)) no_file (some ⟨true, false⟩)
    screen_abc
    (show greeter_background_connect no_file (some ⟨true, false⟩) (config_two_laptops (0, 0))
      screen_abc = some (state_two_laptops (0, 0)) from rfl)

theorem state_two_laptops_b_reachable : Reachable (state_two_laptops (150, 50)) :=
  Reachable.connect (config_two_laptops_reachable (150, 50)) no_file (some ⟨true, false⟩)
    screen_abc
    (show greeter_background_connect no_file (some ⟨true, false⟩)
      (config_two_laptops (150, 50)) screen_abc = some (state_two_laptops (150, 50)) from rfl)

/-! ### The selection at the end of `greeter_background_connect` -/

theorem connect_eq_registry (load : String → Option GdkPixbuf) (upower : Option UPower)
    (s : GreeterBackgroundPrivate) (screen : GdkScreen) :
    greeter_background_connect load upower s screen =
      (match (if (connect_registry load upower s screen).follow_cursor_to_init = true then
          connect_cursor_loop (connect_registry load upower s screen).cursor.1
            (connect_registry load upower s screen).cursor.2
            (connect_registry load upower s screen).monitors 0
            (connect_registry load upower s screen)
        else some (connect_registry load upower s screen)) with
      | none => none
      | some priv =>
        if priv.active_monitor.isNone = true then
          greeter_background_set_active_monitor priv none
        else some priv) := rfl

theorem connect_monitors_frame (load : String → Option GdkPixbuf)
    (s : GreeterBackgroundPrivate) (screen : GdkScreen) :
    (connect_monitors load s screen).cursor = s.cursor ∧
    (connect_monitors load s screen).active_monitors_config = s.active_monitors_config ∧
    (connect_monitors load s screen).follow_cursor = s.follow_cursor := by
  have h := connect_loop_inv load screen.monitors.length screen.monitors 0
    { priv := { s with screen := some screen,
                       monitors := List.replicate screen.monitors.length Monitor.zero,
                       monitors_map := [] },
      first_not_skipped_monitor := none, images_cache := some [] }
    (by simp) (by simp) (by intro j hj; cases hj)
  obtain ⟨_, h2, _⟩ := h
  obtain ⟨_, _, _, _, f5, _, _, _, f9, _, f11⟩ := h2
  unfold connect_monitors
  exact ⟨f11, f5, f9⟩

theorem connect_registry_spec (load : String → Option GdkPixbuf) (upower : Option UPower)
    (s0 : GreeterBackgroundPrivate) (screen : GdkScreen) (hs0 : Reachable s0) :
    (connect_registry load upower s0 screen).active_monitor = none ∧
    (connect_registry load upower s0 screen).follow_cursor_to_init
      = s0.follow_cursor_to_init ∧
    (connect_registry load upower s0 screen).cursor = s0.cursor ∧
    (connect_registry load upower s0 screen).active_monitors_config
      = s0.active_monitors_config ∧
    (connect_registry load upower s0 screen).screen = some screen ∧
    (connect_registry load upower s0 screen).monitors.length = screen.monitors.length ∧
    (∀ (k : Nat) (sm : ScreenMonitor), screen.monitors[k]? = some sm →
      ∃ mon : Monitor, (connect_registry load upower s0 screen).monitors[k]? = some mon ∧
        mon.geometry = sm.geometry) := by
  obtain ⟨_, i2⟩ := reachable_invariant hs0
  have h0 : (if s0.screen.isSome then greeter_background_disconnect s0 else s0).active_monitor
      = none := by
    cases hx : s0.screen with
    | none => simpa using screen_none_active_none hs0 hx
    | some sc => simp [greeter_background_disconnect]
  have hcu : (if s0.screen.isSome then greeter_background_disconnect s0
      else s0).customized_monitors = [] := by
    cases hx : s0.screen with
    | none => simpa using (i2 hx).2.1
    | some sc => simp [greeter_background_disconnect]
  have hla : (if s0.screen.isSome then greeter_background_disconnect s0
      else s0).laptop_monitors = [] := by
    cases hx : s0.screen with
    | none => simpa using (i2 hx).2.2
    | some sc => simp [greeter_background_disconnect]
  have hfi : (if s0.screen.isSome then greeter_background_disconnect s0
      else s0).follow_cursor_to_init = s0.follow_cursor_to_init := by split <;> rfl
  have hcur : (if s0.screen.isSome then greeter_background_disconnect s0
      else s0).cursor = s0.cursor := by split <;> rfl
  have hamc : (if s0.screen.isSome then greeter_background_disconnect s0
      else s0).active_monitors_config = s0.active_monitors_config := by split <;> rfl
  unfold connect_registry
  dsimp only
  generalize (if s0.screen.isSome = true then greeter_background_disconnect s0 else s0) = s1
    at h0 hcu hla hfi hcur hamc ⊢
  obtain ⟨m1, m2, m3, m4, _, _⟩ := connect_monitors_spec load s1 screen
  obtain ⟨n1, n2, _⟩ := connect_monitors_frame load s1 screen
  obtain ⟨_, _, _, r4⟩ := connect_monitors_rebuild load s1 screen hcu hla
  generalize connect_monitors load s1 screen = p1 at m1 m2 m3 m4 n1 n2 r4 ⊢
  have hq := dbus_adjust_frame p1 upower _ rfl
  generalize (if (!p1.laptop_monitors.isEmpty && !p1.laptop_upower_proxy) = true then
          greeter_background_try_init_dbus p1 upower
        else if p1.laptop_monitors.isEmpty = true then greeter_background_stop_dbus p1
        else p1) = p2 at hq ⊢
  have e1 : p2.monitors = p1.monitors := by rw [hq]
  have e2 : p2.screen = p1.screen := by rw [hq]
  have e3 : p2.cursor = p1.cursor := by rw [hq]
  have e4 : p2.active_monitors_config = p1.active_monitors_config := by rw [hq]
  have e5 : p2.active_monitor = p1.active_monitor := by rw [hq]
  have e6 : p2.follow_cursor_to_init = p1.follow_cursor_to_init := by rw [hq]
  refine ⟨by rw [e5, m3, h0], by rw [e6, m4, hfi], by rw [e3, n1, hcur],
    by rw [e4, n2, hamc], by rw [e2, m2], by rw [e1, m1], ?_⟩
  intro k sm hsm
  obtain ⟨mon, hmon, hrm⟩ := r4 k sm hsm
  exact ⟨mon, by rw [e1]; exact hmon, (rebuilt_monitor_background hrm).2.2.1⟩

theorem selectable_congr {p s : GreeterBackgroundPrivate} (h : selection_frame p s) (m : Nat) :
    selectable s m ↔ selectable p m := by
  obtain ⟨f1, _, _, f4, f5, f6, _⟩ := h
  unfold selectable monitor_background greeter_background_monitor_enabled
  rw [f1, f4, f5, f6]

theorem auto_of_candidate {s : GreeterBackgroundPrivate} {m : Nat}
    (h : active_monitor_from_config s s.active_monitors_config = some m) :
    active_monitor_auto s = some (some m) := by
  unfold active_monitor_auto
  rw [h]

theorem auto_primary_of_none {s : GreeterBackgroundPrivate} {screen : GdkScreen}
    (h : active_monitor_from_config s s.active_monitors_config = none)
    (hs : s.screen = some screen) (hq : selectable s screen.primary) :
    active_monitor_auto s = some (some screen.primary) := by
  have hp := primary_cases hs (monitor_background_lt hq.1)
  rw [if_pos hq] at hp
  unfold active_monitor_auto
  rw [h]
  simp only [hp]

/-- The loop of lines 519-526 stops at the first enabled monitor under the
pointer and makes it the active monitor when it has a background. -/
theorem connect_cursor_loop_first (x y : Int) (k : Nat) :
    ∀ (l : List Monitor) (i : Nat) (p : GreeterBackgroundPrivate),
      p.monitors.drop i = l → p.active_monitor = none → i ≤ k →
      (∀ j mon, i ≤ j → j < k → p.monitors[j]? = some mon →
        ¬ (greeter_background_monitor_enabled p j = true ∧
          mon.geometry.x ≤ x ∧ x < gint_add mon.geometry.x mon.geometry.width ∧
          mon.geometry.y ≤ y ∧ y < gint_add mon.geometry.y mon.geometry.height)) →
      (∃ mon, p.monitors[k]? = some mon ∧ mon.background ≠ none ∧
        greeter_background_monitor_enabled p k = true ∧
        mon.geometry.x ≤ x ∧ x < gint_add mon.geometry.x mon.geometry.width ∧
        mon.geometry.y ≤ y ∧ y < gint_add mon.geometry.y mon.geometry.height) →
      ∃ s, connect_cursor_loop x y l i p = some s ∧ s.active_monitor = some k ∧
        selection_frame p s := by
  intro l
  induction l with
  | nil =>
    intro i p hd _ hik _ hk
    obtain ⟨mon, hmon, _⟩ := hk
    have hlen : p.monitors.length ≤ i := by simpa using hd
    rw [List.getElem?_eq_none (by omega)] at hmon
    cases hmon
  | cons m rest ih =>
    intro i p hd hact hik hfirst hk
    obtain ⟨hm, hrest⟩ := drop_cons_getElem? hd
    unfold connect_cursor_loop
    rw [hact]
    simp only [Option.isSome_none, Bool.false_eq_true, if_false]
    by_cases hik2 : i = k
    · subst hik2
      obtain ⟨mon, hmon, hbg, hen, g1, g2, g3, g4⟩ := hk
      rw [hm] at hmon
      cases hmon
      have hcond : (greeter_background_monitor_enabled p i &&
          decide (x ≥ m.geometry.x) &&
          decide (x < gint_add m.geometry.x m.geometry.width) &&
          decide (y ≥ m.geometry.y) &&
          decide (y < gint_add m.geometry.y m.geometry.height)) = true := by
        simp [hen, g1, g2, g3, g4]
      rw [if_pos hcond]
      have hb : (monitor_background p i).isSome = true := by
        rw [monitor_background_getElem hm]
        cases hx : m.background with
        | none => exact absurd hx hbg
        | some r => rfl
      obtain ⟨s1, hs1⟩ := commit_isSome p i (monitor_background_lt hb)
      have hset : greeter_background_set_active_monitor p (some i) = some s1 := by
        rw [set_active_monitor_with_background hb]
        exact hs1
      rw [hset]
      dsimp only
      have ha1 : s1.active_monitor = some i := commit_active hs1
      have hf := set_active_monitor_selection_frame hset
      refine ⟨s1, ?_, ha1, hf⟩
      cases rest with
      | nil => rfl
      | cons m2 rest2 =>
        unfold connect_cursor_loop
        rw [ha1]
        rfl
    · have hcond : ¬ ((greeter_background_monitor_enabled p i &&
          decide (x ≥ m.geometry.x) &&
          decide (x < gint_add m.geometry.x m.geometry.width) &&
          decide (y ≥ m.geometry.y) &&
          decide (y < gint_add m.geometry.y m.geometry.height)) = true) := by
        intro hc
        simp only [Bool.and_eq_true, decide_eq_true_eq, ge_iff_le] at hc
        exact hfirst i m (le_refl i) (by omega) hm
          ⟨hc.1.1.1.1, hc.1.1.1.2, hc.1.1.2, hc.1.2, hc.2⟩
      rw [if_neg hcond]
      exact ih (i + 1) p hrest hact (by omega)
        (fun j mon h1 h2 h3 => hfirst j mon (by omega) h2 h3) hk

/-! ### Rounding to `gdouble` -/

theorem gint_add_eq (a b : Int) (h1 : -2147483648 ≤ a + b) (h2 : a + b ≤ 2147483647) :
    gint_add a b = a + b := by
  unfold gint_add
  rw [Int.emod_eq_of_lt (by omega) (by omega)]
  omega

theorem auto_none_not_selectable {s : GreeterBackgroundPrivate}
    (h : active_monitor_auto s = some none) : ∀ j, ¬ selectable s j := by
  unfold active_monitor_auto at h
  cases hc : active_monitor_from_config s s.active_monitors_config with
  | some m => simp [hc] at h
  | none =>
    simp only [hc] at h
    cases hp : active_monitor_primary s with
    | none => simp [hp] at h
    | some r =>
      cases r with
      | some p => simp [hp] at h
      | none =>
        simp only [hp, Option.some.injEq] at h
        exact fallback_none h

theorem not_selectable_auto {s : GreeterBackgroundPrivate} {screen : GdkScreen}
    (hs : s.screen = some screen) (hp : screen.primary < s.monitors.length)
    (h : ∀ j, ¬ selectable s j) : active_monitor_auto s = some none := by
  obtain ⟨r, hr⟩ := auto_isSome hs hp
  cases r with
  | none => exact hr
  | some m => exact absurd (auto_some hr) (h m)

theorem set_active_monitor_none_after {s s' : GreeterBackgroundPrivate} {req : Option Nat}
    (h : greeter_background_set_active_monitor s req = some s')
    (ha : s'.active_monitor = none) : s.active_monitor = none := by
  rcases set_active_monitor_cases h with e | ⟨chosen, hc, _⟩
  · subst e; exact ha
  · have hch := commit_active hc
    rw [ha] at hch
    subst hch
    rcases commit_none_cases s with ⟨h1, _⟩ | ⟨_, h2⟩
    · exact h1
    · rw [h2] at hc; cases hc

theorem set_active_monitor_none_result {s s' : GreeterBackgroundPrivate}
    (h : greeter_background_set_active_monitor s none = some s')
    (ha : s'.active_monitor = none) : ∀ j, ¬ selectable s' j := by
  have hf := set_active_monitor_selection_frame h
  rw [set_active_monitor_none] at h
  cases hauto : active_monitor_auto s with
  | none => rw [hauto] at h; cases h
  | some chosen =>
    rw [hauto] at h
    have hch := commit_active (s := s) (a := chosen) h
    rw [ha] at hch
    subst hch
    intro j hj
    exact auto_none_not_selectable hauto j ((selectable_congr hf j).1 hj)

theorem custom_background_monitor_proxy (load : String → Option GdkPixbuf)
    (config : BackgroundConfig) (m : Nat)
    (st : GreeterBackgroundPrivate × Option (GHashTable GdkPixbuf)) :
    (custom_background_monitor load config m st).1.laptop_upower_proxy
      = st.1.laptop_upower_proxy := by
  unfold custom_background_monitor
  dsimp only
  split
  · rfl
  · split
    · split <;> rfl
    · rfl

theorem custom_background_loop_proxy (load : String → Option GdkPixbuf)
    (config : BackgroundConfig) :
    ∀ (l : List Nat) (st : GreeterBackgroundPrivate × Option (GHashTable GdkPixbuf)),
      (custom_background_loop load config l st).1.laptop_upower_proxy
        = st.1.laptop_upower_proxy := by
  intro l
  induction l with
  | nil => intro st; rfl
  | cons m rest ih =>
    intro st
    simp only [custom_background_loop]
    rw [ih, custom_background_monitor_proxy]

theorem set_custom_background_back (parse : String → Option GdkRGBA)
    (load : String → Option GdkPixbuf) (s : GreeterBackgroundPrivate) (value : Option String) :
    (greeter_background_set_custom_background parse load s value).laptop_upower_proxy
      = s.laptop_upower_proxy ∧
    ∀ j, (monitor_background (greeter_background_set_custom_background parse load s value)
        j).isSome = true →
      (monitor_background s j).isSome = true ∨ j ∈ s.customized_monitors := by
  constructor
  · unfold greeter_background_set_custom_background
    split
    · rfl
    · dsimp only
      exact custom_background_loop_proxy load _ _ _
  · intro j hj
    by_cases hin : j ∈ s.customized_monitors
    · exact Or.inr hin
    · left
      have hlen := (set_custom_background_spec parse load s value).1
      cases hold : s.monitors[j]? with
      | none =>
        have hge : s.monitors.length ≤ j := by
          by_contra hc
          rw [List.getElem?_eq_getElem (Nat.lt_of_not_le hc)] at hold
          cases hold
        have := monitor_background_lt hj
        omega
      | some old =>
        obtain ⟨new, hnew, _, q2⟩ := custom_background_loop_monitors load
          ( background_config_initialize parse value).2 (fun _ _ => True)
          (by
            intro m st o ho
            obtain ⟨X, R, h1, _⟩ := custom_background_monitor_at load _ m st o ho
            exact ⟨_, h1, trivial⟩)
          (fun _ _ _ _ _ => trivial) s.customized_monitors
          (s, if ( background_config_initialize parse value).2.type = .IMAGE then some []
              else none) j old hold
        have hn := q2 hin
        subst hn
        unfold monitor_background at hj ⊢
        rw [set_custom_background_monitors, hnew] at hj
        rw [hold]
        exact hj

/-- In a reachable state without an active monitor every monitor that has a
background is on the laptop list, with a power proxy present; every
customizable monitor has a background. -/
theorem reachable_no_active {s : GreeterBackgroundPrivate} (h : Reachable s) :
    (s.active_monitor = none → ∀ j, (monitor_background s j).isSome = true →
      j ∈ s.laptop_monitors ∧ s.laptop_upower_proxy = true) ∧
    (∀ j ∈ s.customized_monitors, (monitor_background s j).isSome = true) := by
  have transfer : ∀ {s s' : GreeterBackgroundPrivate}, s'.monitors = s.monitors →
      s'.customized_monitors = s.customized_monitors →
      s'.laptop_monitors = s.laptop_monitors →
      s'.laptop_upower_proxy = s.laptop_upower_proxy →
      (s'.active_monitor = none → s.active_monitor = none) →
      ((s.active_monitor = none → ∀ j, (monitor_background s j).isSome = true →
          j ∈ s.laptop_monitors ∧ s.laptop_upower_proxy = true) ∧
        (∀ j ∈ s.customized_monitors, (monitor_background s j).isSome = true)) →
      ((s'.active_monitor = none → ∀ j, (monitor_background s' j).isSome = true →
          j ∈ s'.laptop_monitors ∧ s'.laptop_upower_proxy = true) ∧
        (∀ j ∈ s'.customized_monitors, (monitor_background s' j).isSome = true)) := by
    intro s s' hm hc hl hp ha inv
    refine ⟨?_, ?_⟩
    · intro hn j hj
      rw [monitor_background_congr hm] at hj
      rw [hl, hp]
      exact inv.1 (ha hn) j hj
    · intro j hj
      rw [monitor_background_congr hm]
      rw [hc] at hj
      exact inv.2 j hj
  have via_set : ∀ {s s' : GreeterBackgroundPrivate} {req : Option Nat},
      greeter_background_set_active_monitor s req = some s' →
      ((s.active_monitor = none → ∀ j, (monitor_background s j).isSome = true →
          j ∈ s.laptop_monitors ∧ s.laptop_upower_proxy = true) ∧
        (∀ j ∈ s.customized_monitors, (monitor_background s j).isSome = true)) →
      ((s'.active_monitor = none → ∀ j, (monitor_background s' j).isSome = true →
          j ∈ s'.laptop_monitors ∧ s'.laptop_upower_proxy = true) ∧
        (∀ j ∈ s'.customized_monitors, (monitor_background s' j).isSome = true)) := by
    intro s s' req step inv
    obtain ⟨f1, _, f3, f4, f5, _⟩ := set_active_monitor_selection_frame step
    exact transfer f1 f3 f4 f5 (set_active_monitor_none_after step) inv
  induction h with
  | init cursor =>
    refine ⟨fun _ j hj => ?_, fun j hj => (by cases hj)⟩
    have := monitor_background_lt hj
    simp [greeter_background_init] at this
  | set_active_monitor_config h value ih =>
    unfold greeter_background_set_active_monitor_config
    cases value with
    | none => exact ih
    | some v =>
      dsimp only
      split
      · exact ih
      · exact ih
  | set_default_config h parse bg user_bg laptop ih => exact ih
  | set_monitor_config h parse name bg u uu l lu ih => exact ih
  | remove_monitor_config h name ih => exact ih
  | @connect s s' h load upower screen step ih =>
    obtain ⟨_, r2, _, r4⟩ := connect_rebuild load upower s s' screen h step
    refine ⟨?_, ?_⟩
    · intro hn j hj
      have hns : ∀ j, ¬ selectable s' j := by
        rw [connect_eq_registry] at step
        cases hq : (if (connect_registry load upower s screen).follow_cursor_to_init = true then
            connect_cursor_loop (connect_registry load upower s screen).cursor.1
              (connect_registry load upower s screen).cursor.2
              (connect_registry load upower s screen).monitors 0
              (connect_registry load upower s screen)
          else some (connect_registry load upower s screen)) with
        | none => rw [hq] at step; cases step
        | some q =>
          rw [hq] at step
          dsimp only at step
          by_cases hqa : q.active_monitor.isNone = true
          · rw [if_pos hqa] at step
            exact set_active_monitor_none_result step hn
          · rw [if_neg hqa] at step
            cases step
            rw [hn] at hqa
            exact absurd rfl hqa
      have hdis : greeter_background_monitor_enabled s' j = false := by
        cases he : greeter_background_monitor_enabled s' j with
        | false => rfl
        | true => exact absurd ⟨hj, he⟩ (hns j)
      obtain ⟨m1, m2, _⟩ := (monitor_enabled_eq_false_iff s' j).1 hdis
      exact ⟨m1, m2⟩
    · intro j hj
      obtain ⟨cfg, hc, _⟩ := (r2 j).1 hj
      have hlt := rebuild_config_lt hc
      obtain ⟨mon, hmon, hrm⟩ := r4 j screen.monitors[j] (List.getElem?_eq_getElem hlt)
      obtain ⟨_, _, _, _, _, b6⟩ := rebuilt_monitor_background hrm
      rw [monitor_background_getElem hmon, (b6 cfg hc).1]
      rfl
  | disconnect h ih =>
    refine ⟨fun _ j hj => ?_, fun j hj => (by cases hj)⟩
    have := monitor_background_lt hj
    simp [greeter_background_disconnect] at this
  | @set_active_monitor s s' h active valid step ih => exact via_set step ih
  | @enter_notify s s' h monitor valid step ih =>
    unfold monitor_window_enter_notify_cb at step
    split at step
    · exact via_set step ih
    · cases step
      exact ih
  | @dbus_changed s s' h proxy new_state step ih =>
    unfold greeter_background_dbus_changed_cb at step
    split at step
    · cases step; exact ih
    · dsimp only at step
      split at step
      · cases step; exact ih
      · split at step
        · exact via_set step ih
        · cases step; exact ih
  | @set_custom_background s h parse load value ih =>
    obtain ⟨c1, c2, c3, c4, c5, c6⟩ := set_custom_background_spec parse load s value
    obtain ⟨b1, b2⟩ := set_custom_background_back parse load s value
    refine ⟨?_, ?_⟩
    · intro hn j hj
      rw [c2] at hn
      rw [c5, b1]
      rcases b2 j hj with h1 | h1
      · exact ih.1 hn j h1
      · exact ih.1 hn j (ih.2 j h1)
    · intro j hj
      rw [c4] at hj
      exact c6 j (ih.2 j hj)
  | add_subwindow h window ih =>
    unfold greeter_background_add_subwindow
    dsimp only
    split <;> split <;> exact ih
  | remove_subwindow h window ih => exact ih
  | pointer_moved h x y ih => exact ih

theorem state_all_laptops_reachable : Reachable state_all_laptops :=
  Reachable.connect
    (Reachable.set_monitor_config
      (Reachable.set_monitor_config (Reachable.init (0, 0)) parse_black "HDMI" none
        false false true true)
      parse_black "LVDS" none false false true true)
    no_file (some ⟨true, false⟩) screen_laptop
    (show greeter_background_connect no_file (some ⟨true, false⟩) config_all_laptops
      screen_laptop = some state_all_laptops from rfl)

/-- The sums of lines 523-524 wrap: the pointer at `(2147483620, 50)` lies in
the rectangle of `FAR`, whose right edge is beyond the `gint` range, and the
pointer loop passes the monitor over; the primary monitor becomes active. -/
theorem connect_cursor_loop_wraps :
    config_far.follow_cursor_to_init = true ∧
    gint_add 2147483600 100 = -2147483596 ∧
    (greeter_background_connect no_file none config_far screen_far).map
      (fun s => s.active_monitor) = some (some 0) := by
  decide

/-! ### Soundness of the image cache -/

/-- Rounding in `scale_image`: for a source of 3 x 15 zoomed into 49 x 1 the
quotient 49/3 is rounded down to a `gdouble`, the product with 15 falls below
245, and `offset_y` is -121 where exact arithmetic gives -122. -/
theorem scale_image_rounds_quotient :
    scale_image (.file "q" 3 15) .ZOOMED 49 1
      = .composite (.file "q" 3 15) 49 1 0 (-121)
          (4597424619607381 / 281474976710656) (4597424619607381 / 281474976710656) ∧
    (4597424619607381 / 281474976710656 : Rat) < 49 / 3 := by
  refine ⟨by decide!, by norm_num⟩

/-! ## Properties claimed by the specification -/

/-- C1: for every non-empty monitor list, from every reachable state (whatever
the default configuration, the overrides and the outcome of image decoding),
`greeter_background_connect` returns a state whose monitor array has one entry
per monitor of the screen and in which at least one monitor has
`background != NULL`. The primary monitor the screen reports is one of its
monitors (`hp`), as `gdk_screen_get_primary_monitor` promises. -/
theorem connect_leaves_a_background (load : String → Option GdkPixbuf)
    (upower : Option UPower) (s : GreeterBackgroundPrivate) (screen : GdkScreen)
    (hs : Reachable s) (hne : screen.monitors ≠ [])
    (hp : screen.primary < screen.monitors.length) :
    ∃ s', greeter_background_connect load upower s screen = some s' ∧
      s'.monitors.length = screen.monitors.length ∧
      ∃ (i : Nat) (mon : Monitor), s'.monitors[i]? = some mon ∧ mon.background ≠ none := by
  obtain ⟨ha, hb⟩ := connect_spec load upower s screen (screen_none_active_none hs)
  obtain ⟨s', hs'⟩ := hb hp
  obtain ⟨hm, _, _, _, _⟩ := ha s' hs'
  obtain ⟨m1, _, _, _, _, m6⟩ := connect_monitors_spec load
    (if s.screen.isSome then greeter_background_disconnect s else s) screen
  refine ⟨s', hs', by rw [hm, m1], ?_⟩
  obtain ⟨j, hj⟩ := m6 hne
  rw [← monitor_background_congr hm] at hj
  unfold monitor_background at hj
  cases hx : s'.monitors[j]? with
  | none => simp [hx] at hj
  | some mon =>
    refine ⟨j, mon, hx, ?_⟩
    intro hnone
    simp [hx, hnone] at hj

/-- Witness for C1: the three-monitor screen connected while every monitor is
configured `#skip`. -/
theorem connect_leaves_a_background_witness :
    ∃ s', greeter_background_connect no_file none config_skip screen_abc = some s' ∧
      s'.monitors.length = screen_abc.monitors.length ∧
      ∃ (i : Nat) (mon : Monitor), s'.monitors[i]? = some mon ∧ mon.background ≠ none :=
  connect_leaves_a_background no_file none config_skip screen_abc config_skip_reachable
    (by decide) (by decide)

/-- C2: when the resolved configuration of every monitor of a non-empty screen
is `#skip`, then after `greeter_background_connect` the last monitor (index
`n - 1`) is the only one with `background != NULL`; it was set up with the
default configuration when that is not `#skip` and with
`DEFAULT_MONITOR_CONFIG` (black, `user_bg`, not `laptop`) otherwise: its
configured background is rendered from that configuration, and it is on the
customizable list and the laptop list exactly as the flags of that
configuration say. -/
theorem connect_all_skipped_forces_last (load : String → Option GdkPixbuf)
    (upower : Option UPower) (s : GreeterBackgroundPrivate) (screen : GdkScreen)
    (hs : Reachable s) (hne : screen.monitors ≠ [])
    (hp : screen.primary < screen.monitors.length)
    (hskip : ∀ k sm, screen.monitors[k]? = some sm → ∀ m : Monitor,
      m.name = sm.plug_name → m.number = k → (monitor_config_resolve s m).bg.type = .SKIP)
    (cfg : MonitorConfig)
    (hcfg : cfg = if s.default_config.bg.type ≠ .SKIP then s.default_config
                  else DEFAULT_MONITOR_CONFIG) :
    ∃ s' last, greeter_background_connect load upower s screen = some s' ∧
      screen.monitors[screen.monitors.length - 1]? = some last ∧
      s'.monitors.length = screen.monitors.length ∧
      (∀ j, (monitor_background s' j).isSome = true ↔ j = screen.monitors.length - 1) ∧
      s'.monitors[screen.monitors.length - 1]? =
        some { number := screen.monitors.length - 1, name := last.plug_name,
               geometry := last.geometry,
               background_configured :=
                 (connect_background load .invalid cfg.bg
                   { number := screen.monitors.length - 1, name := last.plug_name,
                     geometry := last.geometry, background_configured := .invalid,
                     background_custom := .invalid, background := none } (some [])).1,
               background_custom := .invalid, background := some .configured } ∧
      s'.customized_monitors = (if cfg.user_bg then [screen.monitors.length - 1] else []) ∧
      s'.laptop_monitors = (if cfg.laptop then [screen.monitors.length - 1] else []) := by
  obtain ⟨ha, hb⟩ := connect_spec load upower s screen (screen_none_active_none hs)
  obtain ⟨s', hs'⟩ := hb hp
  obtain ⟨hm, hc, hl, _, _⟩ := ha s' hs'
  obtain ⟨_, hinv⟩ := reachable_invariant hs
  have h0 : ∀ s0, s0 = (if s.screen.isSome then greeter_background_disconnect s else s) →
      s0.configs = s.configs ∧ s0.default_config = s.default_config ∧
      s0.customized_monitors = [] ∧ s0.laptop_monitors = [] := by
    intro s0 e
    subst e
    cases hx : s.screen with
    | none =>
      obtain ⟨_, i2, i3⟩ := hinv hx
      simp [i2, i3]
    | some sc => simp [greeter_background_disconnect]
  generalize hs0 : (if s.screen.isSome then greeter_background_disconnect s else s) = s0
    at hm hc hl
  obtain ⟨z1, z2, z3, z4⟩ := h0 s0 hs0.symm
  rcases List.eq_nil_or_concat' screen.monitors with hnil | ⟨front, last, hsplit⟩
  · exact absurd hnil hne
  have hn : screen.monitors.length - 1 = front.length := by simp [hsplit]
  obtain ⟨a1, a2, a3, a4⟩ := connect_monitors_all_skip load s0 screen front last hsplit
    (by
      intro k sm hk m hmn hmk
      rw [← hskip k sm hk m hmn hmk]
      exact congrArg (fun c => c.bg.type) (monitor_config_resolve_congr z1 z2 rfl rfl))
    cfg (by rw [hcfg, z2])
  obtain ⟨m1, _, _, _, _, _⟩ := connect_monitors_spec load s0 screen
  refine ⟨s', last, hs', by rw [hn, hsplit]; simp, by rw [hm, m1], ?_, ?_, ?_, ?_⟩
  · intro j
    rw [monitor_background_congr hm, hn]
    constructor
    · intro hj
      by_contra hne'
      rw [a2 j hne'] at hj
      simp at hj
    · intro hj
      subst hj
      simp [monitor_background, a1]
  · rw [hm, hn]; exact a1
  · rw [hc, a3, z3, hn]
  · rw [hl, a4, z4, hn]

/-- Witness for C2: the three-monitor screen with the default configuration
`#skip`; the last monitor gets the built-in black background. -/
theorem connect_all_skipped_forces_last_witness :
    ∃ s' last, greeter_background_connect no_file none config_skip screen_abc = some s' ∧
      screen_abc.monitors[screen_abc.monitors.length - 1]? = some last ∧
      s'.monitors.length = screen_abc.monitors.length ∧
      (∀ j, (monitor_background s' j).isSome = true ↔ j = screen_abc.monitors.length - 1) ∧
      s'.monitors[screen_abc.monitors.length - 1]? =
        some { number := screen_abc.monitors.length - 1, name := last.plug_name,
               geometry := last.geometry,
               background_configured :=
                 (connect_background no_file .invalid DEFAULT_MONITOR_CONFIG.bg
                   { number := screen_abc.monitors.length - 1, name := last.plug_name,
                     geometry := last.geometry, background_configured := .invalid,
                     background_custom := .invalid, background := none } (some [])).1,
               background_custom := .invalid, background := some .configured } ∧
      s'.customized_monitors =
        (if DEFAULT_MONITOR_CONFIG.user_bg then [screen_abc.monitors.length - 1] else []) ∧
      s'.laptop_monitors =
        (if DEFAULT_MONITOR_CONFIG.laptop then [screen_abc.monitors.length - 1] else []) :=
  connect_all_skipped_forces_last no_file none config_skip screen_abc config_skip_reachable
    (by decide) (by decide)
    (by
      intro k sm hk m hmn hmk
      have hcfg : config_skip.configs = [] := rfl
      simp [monitor_config_resolve, greeter_background_find_monitor_data, hcfg,
        g_hash_table_lookup]
      rfl)
    DEFAULT_MONITOR_CONFIG (by decide)

/-- C3 (the code departs from the claim): the panel `LVDS` is the only monitor,
is flagged `laptop` and the lid is closed. After `greeter_background_connect`
the monitor has a background and is disabled, yet no monitor is active, and
`greeter_background_set_active_monitor(NULL)` leaves it so: the fallback of
lines 620-636 assigns `first_not_skipped = active`, which is still `NULL`. When
the lid closes while the panel is the active monitor, the same fallback yields
`NULL` and line 643 dereferences it. -/
theorem fallback_yields_no_monitor_when_all_disabled :
    (greeter_background_connect no_file (some ⟨true, true⟩) config_laptop screen_panel).map
        (fun s => (monitor_background s 0, greeter_background_monitor_enabled s 0,
          s.active_monitor,
          (greeter_background_set_active_monitor s none).map (fun s' => s'.active_monitor)))
      = some (some .configured, false, none, some none) ∧
    state_panel_open.active_monitor = some 0 ∧
    greeter_background_dbus_changed_cb state_panel_open true = none := by
  decide

/-- C4: with no request, `greeter_background_set_active_monitor` makes active
the monitor of the first identity of `active_monitors_config` that
`monitors_map` knows and whose monitor has a background and is enabled
(identities not found or not qualifying are passed over); when no listed
identity qualifies, the primary monitor if it has a background and is enabled;
and when that fails too, the first monitor in index order that has a background
and is enabled. With the list `B;A` on the screen `A`, `B`, `C` (primary `C`),
all enabled with backgrounds, the active monitor is `B`. -/
theorem set_active_monitor_precedence (s : GreeterBackgroundPrivate) :
    (∀ pre id post m, s.active_monitors_config = pre ++ id :: post →
      g_hash_table_lookup s.monitors_map id = some m → selectable s m →
      (∀ id' ∈ pre, ∀ m', g_hash_table_lookup s.monitors_map id' = some m' →
        ¬ selectable s m') →
      ∃ s', greeter_background_set_active_monitor s none = some s' ∧
        s'.active_monitor = some m) ∧
    (∀ screen, s.screen = some screen → screen.primary < s.monitors.length →
      (∀ id ∈ s.active_monitors_config, ∀ m',
        g_hash_table_lookup s.monitors_map id = some m' → ¬ selectable s m') →
      (selectable s screen.primary →
        ∃ s', greeter_background_set_active_monitor s none = some s' ∧
          s'.active_monitor = some screen.primary) ∧
      (¬ selectable s screen.primary →
        ∀ i, selectable s i → (∀ j, j < i → ¬ selectable s j) →
          ∃ s', greeter_background_set_active_monitor s none = some s' ∧
            s'.active_monitor = some i)) ∧
    (greeter_background_connect no_file none config_abc screen_abc).map
        (fun s' => (s'.active_monitor, s'.monitors[1]?.bind (fun m => m.name)))
      = some (some 1, some "B") ∧
    (greeter_background_set_active_monitor { state_abc with active_monitor := none } none).map
        (fun s' => s'.active_monitor) = some (some 1) := by
  refine ⟨?_, ?_, by decide, by decide⟩
  · intro pre id post m hl hm hq hpre
    apply auto_commit
    unfold active_monitor_auto
    rw [hl, from_config_first hm hq hpre]
  · intro screen hs hp hnone
    have hc := from_config_none.mpr hnone
    refine ⟨?_, ?_⟩
    · intro hq
      apply auto_commit
      unfold active_monitor_auto
      rw [hc, primary_cases hs hp]
      simp [hq]
    · intro hq i hi hfirst
      apply auto_commit
      unfold active_monitor_auto
      rw [hc, primary_cases hs hp]
      simp [hq, fallback_first hi hfirst]

/-- Witness for C4: in `state_abc` the first listed identity `B` names monitor
1, which has a background and is enabled. -/
theorem set_active_monitor_precedence_witness :
    ∃ s', greeter_background_set_active_monitor state_abc none = some s' ∧
      s'.active_monitor = some 1 :=
  (set_active_monitor_precedence state_abc).1 [] "B" ["A"] 1 (by decide) (by decide)
    (by decide) (by simp)

/-- C5: in every reachable state the active monitor, when there is one, is an
entry of the monitor array whose `background` is not `NULL`. -/
theorem active_monitor_has_background (s : GreeterBackgroundPrivate) (hs : Reachable s)
    (a : Nat) (ha : s.active_monitor = some a) :
    ∃ mon, s.monitors[a]? = some mon ∧ mon.background ≠ none := by
  have h := (reachable_invariant hs).1 a ha
  unfold monitor_background at h
  cases hx : s.monitors[a]? with
  | none => simp [hx] at h
  | some mon =>
    refine ⟨mon, rfl, ?_⟩
    intro hnone
    simp [hx, hnone] at h

/-- Witness for C5: the active monitor `B` of `state_abc`. -/
theorem active_monitor_has_background_witness :
    ∃ mon, state_abc.monitors[1]? = some mon ∧ mon.background ≠ none :=
  active_monitor_has_background state_abc state_abc_reachable 1 (by decide)

/-- C6: a request for a monitor `r` that is disabled or has no background. The
request reaches the static function `greeter_background_set_active_monitor`
through the pointer-enter handler (lines 1076-1085) or through the pointer loop
of `greeter_background_connect` (lines 519-526); both pass a monitor only when
it is enabled, and the function itself tests the background. While an active
monitor exists the handler leaves the state as it is: the active monitor stays
and nothing is emitted. While none exists, a request for a monitor without
background is served as a call with no request; a disabled monitor is not
passed on and the state stays as it is, which in a reachable state is the
result of a call with no request, no monitor being eligible then (the primary
monitor the screen reports is one of its monitors), and the pointer loop goes
on to the next monitor. -/
theorem request_for_unqualified_monitor_is_ignored (s : GreeterBackgroundPrivate) (r : Nat)
    (hr : greeter_background_monitor_enabled s r = false ∨ monitor_background s r = none) :
    (s.active_monitor.isSome = true → monitor_window_enter_notify_cb s r = some s) ∧
    (s.active_monitor.isSome = true → monitor_background s r = none →
      greeter_background_set_active_monitor s (some r) = some s) ∧
    (s.active_monitor = none → monitor_background s r = none →
      greeter_background_set_active_monitor s (some r) =
        greeter_background_set_active_monitor s none ∧
      (greeter_background_monitor_enabled s r = true →
        monitor_window_enter_notify_cb s r =
          greeter_background_set_active_monitor s none)) ∧
    (greeter_background_monitor_enabled s r = false →
      monitor_window_enter_notify_cb s r = some s ∧
      (s.active_monitor = none → Reachable s → ∀ screen, s.screen = some screen →
        screen.primary < s.monitors.length →
        monitor_window_enter_notify_cb s r =
          greeter_background_set_active_monitor s none)) ∧
    (s.active_monitor = none → greeter_background_monitor_enabled s r = false →
      ∀ (x y : Int) (mon : Monitor) (rest : List Monitor),
        connect_cursor_loop x y (mon :: rest) r s = connect_cursor_loop x y rest (r + 1) s) := by
  refine ⟨?_, ?_, ?_, ?_, ?_⟩
  · intro ha
    unfold monitor_window_enter_notify_cb
    split
    · rename_i hc
      simp only [Bool.and_eq_true, decide_eq_true_eq] at hc
      rcases hr with hd | hb
      · rw [hd] at hc
        exact absurd hc.2 (by decide)
      · rw [set_active_monitor_without_background hb, if_pos ha]
    · rfl
  · intro ha hb
    rw [set_active_monitor_without_background hb, if_pos ha]
  · intro ha hb
    have h1 : greeter_background_set_active_monitor s (some r) =
        greeter_background_set_active_monitor s none := by
      rw [set_active_monitor_without_background hb]
      simp [ha]
    refine ⟨h1, ?_⟩
    intro he
    unfold monitor_window_enter_notify_cb
    rw [ha, he]
    simpa using h1
  · intro hd
    have henter : monitor_window_enter_notify_cb s r = some s := by
      simp [monitor_window_enter_notify_cb, hd]
    refine ⟨henter, ?_⟩
    intro ha hreach screen hs hp
    obtain ⟨_, hproxy, hlid⟩ := (monitor_enabled_eq_false_iff s r).1 hd
    have hns : ∀ j, ¬ selectable s j := by
      intro j hj
      obtain ⟨hl, _⟩ := (reachable_no_active hreach).1 ha j hj.1
      have := (monitor_enabled_eq_false_iff s j).2 ⟨hl, hproxy, hlid⟩
      rw [hj.2] at this
      cases this
    have hset : greeter_background_set_active_monitor s none = some s := by
      rw [set_active_monitor_none, not_selectable_auto hs hp hns]
      rcases commit_none_cases s with ⟨_, h2⟩ | ⟨h1, _⟩
      · exact h2
      · exact absurd ha h1
    exact henter.trans hset.symm
  · intro ha hd x y mon rest
    rw [connect_cursor_loop]
    simp [ha, hd]

/-- Witness for C6: in `state_laptop_closed` the monitor `HDMI` is active and
the panel `LVDS` (index 1) is disabled, the lid being closed; the pointer
entering the panel changes nothing. -/
theorem request_for_unqualified_monitor_is_ignored_witness :
    state_laptop_closed.active_monitor = some 0 ∧
    greeter_background_monitor_enabled state_laptop_closed 1 = false ∧
    monitor_window_enter_notify_cb state_laptop_closed 1 = some state_laptop_closed :=
  ⟨by decide, by decide,
    (request_for_unqualified_monitor_is_ignored state_laptop_closed 1
      (Or.inl (by decide))).1 (by decide)⟩

/-- C7: a monitor is disabled exactly when it is on the laptop list, the power
proxy exists and the cached lid state is closed. Hence without a proxy every
monitor is enabled whatever the cached lid state, and that is the situation
`greeter_background_try_init_dbus` leaves when the proxy cannot be created or
reports that no lid is present. -/
theorem monitor_enabled_iff_lid (s : GreeterBackgroundPrivate) (monitor : Nat) :
    (greeter_background_monitor_enabled s monitor = false ↔
      (monitor ∈ s.laptop_monitors ∧ s.laptop_upower_proxy = true ∧
        s.laptop_lid_closed = true)) ∧
    (s.laptop_upower_proxy = false → greeter_background_monitor_enabled s monitor = true) ∧
    (∀ upower : Option UPower,
      (upower = none ∨ ∃ up, upower = some up ∧ up.lid_is_present = false) →
      (greeter_background_try_init_dbus s upower).laptop_upower_proxy = false ∧
      greeter_background_monitor_enabled (greeter_background_try_init_dbus s upower) monitor
        = true) := by
  refine ⟨monitor_enabled_eq_false_iff s monitor, ?_, ?_⟩
  · intro hp
    simp [greeter_background_monitor_enabled, hp]
  · intro upower h
    have hp := try_init_dbus_no_proxy s upower h
    refine ⟨hp, ?_⟩
    simp [greeter_background_monitor_enabled, hp]

/-- Witness for C7: once the power service reports that no lid is present, the
panel of `state_laptop_closed` is enabled although the cached lid state is
closed. -/
theorem monitor_enabled_iff_lid_witness :
    (greeter_background_try_init_dbus state_laptop_closed
        (some ⟨false, true⟩)).laptop_upower_proxy = false ∧
    greeter_background_monitor_enabled
      (greeter_background_try_init_dbus state_laptop_closed (some ⟨false, true⟩)) 1 = true :=
  (monitor_enabled_iff_lid state_laptop_closed 1).2.2 (some ⟨false, true⟩)
    (Or.inr ⟨⟨false, true⟩, rfl, rfl⟩)

/-- C8: let a call of `greeter_background_set_active_monitor` select the monitor
`N`: either `N` is requested and has a background, or the request is absent (or
names a monitor without background while no monitor is active) and the
automatic choice is `N`. If `N` is not the active monitor, the call makes it
the active monitor and emits `active-monitor-changed` exactly once, leaving the
monitor registry as it was. If `N` is the active monitor already, the call
returns the state unchanged: nothing is emitted, warped or re-stacked. -/
theorem set_active_monitor_notifies_once (s : GreeterBackgroundPrivate)
    (req : Option Nat) (N : Nat)
    (hsel : (req = some N ∧ (monitor_background s N).isSome = true) ∨
      ((req = none ∨
          ∃ r, req = some r ∧ monitor_background s r = none ∧ s.active_monitor = none) ∧
        active_monitor_auto s = some (some N))) :
    (s.active_monitor ≠ some N →
      ∃ s', greeter_background_set_active_monitor s req = some s' ∧
        s'.active_monitor = some N ∧
        s'.events.count Event.active_monitor_changed =
          s.events.count Event.active_monitor_changed + 1 ∧
        selection_frame s s') ∧
    (s.active_monitor = some N → greeter_background_set_active_monitor s req = some s) := by
  have hcommit : greeter_background_set_active_monitor s req =
      active_monitor_commit s (some N) ∧ N < s.monitors.length := by
    rcases hsel with ⟨hr, hb⟩ | ⟨hr, hauto⟩
    · subst hr
      exact ⟨set_active_monitor_with_background hb, monitor_background_lt hb⟩
    · have hlt := monitor_background_lt (auto_some hauto).1
      have hnone : greeter_background_set_active_monitor s none =
          active_monitor_commit s (some N) := by
        rw [set_active_monitor_none, hauto]; rfl
      rcases hr with hr | ⟨r, hr, hb, ha⟩
      · subst hr
        exact ⟨hnone, hlt⟩
      · subst hr
        rw [set_active_monitor_without_background hb]
        simp [ha, hnone, hlt]
  refine ⟨?_, ?_⟩
  · intro hne
    obtain ⟨s', hs'⟩ := commit_isSome s N hcommit.2
    have hstep : greeter_background_set_active_monitor s req = some s' := by
      rw [hcommit.1]; exact hs'
    exact ⟨s', hstep, commit_active hs', commit_changed_count hs' (fun e => hne e.symm),
      set_active_monitor_selection_frame hstep⟩
  · intro he
    rw [hcommit.1, ← he]
    exact commit_same s

/-- Witness for C8: in `state_abc`, where `B` is active, a request for `A`
(index 0) selects `A`. -/
theorem set_active_monitor_notifies_once_witness :
    ∃ s', greeter_background_set_active_monitor state_abc (some 0) = some s' ∧
      s'.active_monitor = some 0 ∧
      s'.events.count Event.active_monitor_changed =
        state_abc.events.count Event.active_monitor_changed + 1 ∧
      selection_frame state_abc s' :=
  (set_active_monitor_notifies_once state_abc (some 0) 0 (Or.inl ⟨rfl, by decide⟩)).1
    (by decide)

/-- C9: the configuration of a monitor is the entry of `configs` under its name
when it has a name and that key exists (whatever is stored under its number);
otherwise the entry under its number printed in decimal when that key exists;
otherwise `default_config`. -/
theorem monitor_config_resolve_order (s : GreeterBackgroundPrivate) (monitor : Monitor) :
    (∀ name c, monitor.name = some name → g_hash_table_lookup s.configs name = some c →
      monitor_config_resolve s monitor = c) ∧
    ((monitor.name = none ∨
        ∃ name, monitor.name = some name ∧ g_hash_table_lookup s.configs name = none) →
      (∀ c, g_hash_table_lookup s.configs (toString monitor.number) = some c →
        monitor_config_resolve s monitor = c) ∧
      (g_hash_table_lookup s.configs (toString monitor.number) = none →
        monitor_config_resolve s monitor = s.default_config)) := by
  refine ⟨?_, ?_⟩
  · intro name c hn hc
    simp [monitor_config_resolve, find_monitor_data_by_name s.configs monitor name c hn hc]
  · intro hn
    have h := find_monitor_data_by_number s.configs monitor hn
    refine ⟨?_, ?_⟩
    · intro c hc
      simp [monitor_config_resolve, h, hc]
    · intro hc
      simp [monitor_config_resolve, h, hc]

/-- Witness for C9: the monitor `LVDS` with number 12, when overrides exist
under `LVDS` and under `12`, gets the one stored under its name; an unnamed
monitor with number 12 gets the one stored under `12`. -/
theorem monitor_config_resolve_order_witness :
    monitor_config_resolve
        { greeter_background_init (0, 0) with
          configs := [("12", ⟨.skip, false, false⟩), ("LVDS", ⟨.skip, true, true⟩)] }
        { Monitor.zero with name := some "LVDS", number := 12 } = ⟨.skip, true, true⟩ ∧
    monitor_config_resolve
        { greeter_background_init (0, 0) with
          configs := [("12", ⟨.skip, false, false⟩), ("LVDS", ⟨.skip, true, true⟩)] }
        { Monitor.zero with name := none, number := 12 } = ⟨.skip, false, false⟩ :=
  ⟨(monitor_config_resolve_order _ _).1 "LVDS" ⟨.skip, true, true⟩ rfl (by decide),
   ((monitor_config_resolve_order _ _).2 (Or.inl rfl)).1 ⟨.skip, false, false⟩ (by decide)⟩

/-- C10: after `greeter_background_set_monitor_config` the entry stored under
`name` has the parsed background when `background_config_initialize` succeeds
and a copy of the background of the current default otherwise, `user_bg` and
`laptop` as given when their `_used` flag is set and as in the default
otherwise; the entries under other names and the default are unchanged. -/
theorem set_monitor_config_override (gdk_rgba_parse : String → Option GdkRGBA)
    (s : GreeterBackgroundPrivate) (name : String) (bg : Option String)
    (user_bg user_bg_used laptop laptop_used : Bool) :
    g_hash_table_lookup
        (greeter_background_set_monitor_config gdk_rgba_parse s name bg
          user_bg user_bg_used laptop laptop_used).configs name =
      some { bg := if ( background_config_initialize gdk_rgba_parse bg).1 = true then
                     ( background_config_initialize gdk_rgba_parse bg).2
                   else s.default_config.bg
             user_bg := if user_bg_used = true then user_bg else s.default_config.user_bg
             laptop := if laptop_used = true then laptop else s.default_config.laptop } ∧
    (∀ other, other ≠ name →
      g_hash_table_lookup
          (greeter_background_set_monitor_config gdk_rgba_parse s name bg
            user_bg user_bg_used laptop laptop_used).configs other =
        g_hash_table_lookup s.configs other) ∧
    (greeter_background_set_monitor_config gdk_rgba_parse s name bg
      user_bg user_bg_used laptop laptop_used).default_config = s.default_config := by
  refine ⟨?_, ?_, rfl⟩
  · simp only [greeter_background_set_monitor_config, lookup_insert_self,
      background_config_copy]
    cases ( background_config_initialize gdk_rgba_parse bg).1 <;> simp
  · intro other ho
    simp only [greeter_background_set_monitor_config]
    exact lookup_insert_other _ _ _ _ ho

/-- Witness for C10: storing an override under `HDMI` leaves the entry stored
under `LVDS` as it was. -/
theorem set_monitor_config_override_witness :
    g_hash_table_lookup
        (greeter_background_set_monitor_config parse_black config_laptop "HDMI" (some "")
          false false true true).configs "LVDS" =
      g_hash_table_lookup config_laptop.configs "LVDS" :=
  (set_monitor_config_override parse_black config_laptop "HDMI" (some "")
    false false true true).2.1 "LVDS" (by decide)

/-- C11: after `greeter_background_set_default_config` the default has `user_bg`
and `laptop` as given, in every case, and the parsed background when
`background_config_initialize` succeeds; when it fails the background is the
opaque black of `DEFAULT_MONITOR_CONFIG`, whatever the previous default was.
Nothing else of the state changes. -/
theorem set_default_config_result (gdk_rgba_parse : String → Option GdkRGBA)
    (s : GreeterBackgroundPrivate) (bg : Option String) (user_bg laptop : Bool) :
    (greeter_background_set_default_config gdk_rgba_parse s bg user_bg laptop).default_config
      = { bg := if ( background_config_initialize gdk_rgba_parse bg).1 = true then
                  ( background_config_initialize gdk_rgba_parse bg).2
                else .color ⟨0, 0, 0, 1⟩
          user_bg := user_bg
          laptop := laptop } ∧
    greeter_background_set_default_config gdk_rgba_parse s bg user_bg laptop =
      { s with default_config :=
          (greeter_background_set_default_config gdk_rgba_parse s bg user_bg
            laptop).default_config } := by
  refine ⟨?_, rfl⟩
  simp only [greeter_background_set_default_config, background_config_copy,
    DEFAULT_MONITOR_CONFIG]
  cases ( background_config_initialize gdk_rgba_parse bg).1 <;> simp

/-- C12: `background_config_initialize` fails, leaving the type `INVALID`,
exactly for `NULL` and the empty string; `#skip` gives `SKIP` whatever the
colour parser says; any other value the colour parser accepts gives that
colour; every remaining value gives an image: with the prefix `#source:`,
`#zoomed:` or `#stretched:` the mode is the one named and the path is the value
without the prefix, and without such a prefix the mode is `ZOOMED` and the path
the whole value. -/
theorem background_config_initialize_cases (gdk_rgba_parse : String → Option GdkRGBA) :
    (∀ value, ( background_config_initialize gdk_rgba_parse value).1 = false ↔
      (value = none ∨ value = some "")) ∧
    (∀ value, ( background_config_initialize gdk_rgba_parse value).2 = .invalid ↔
      (value = none ∨ value = some "")) ∧
    background_config_initialize gdk_rgba_parse (some "#skip") = (true, .skip) ∧
    (∀ v color, v ≠ "" → v ≠ "#skip" → gdk_rgba_parse v = some color →
      background_config_initialize gdk_rgba_parse (some v) = (true, .color color)) ∧
    (∀ path : String, gdk_rgba_parse ("#source:" ++ path) = none →
      background_config_initialize gdk_rgba_parse (some ("#source:" ++ path))
        = (true, .image path .SOURCE)) ∧
    (∀ path : String, gdk_rgba_parse ("#zoomed:" ++ path) = none →
      background_config_initialize gdk_rgba_parse (some ("#zoomed:" ++ path))
        = (true, .image path .ZOOMED)) ∧
    (∀ path : String, gdk_rgba_parse ("#stretched:" ++ path) = none →
      background_config_initialize gdk_rgba_parse (some ("#stretched:" ++ path))
        = (true, .image path .STRETCHED)) ∧
    (∀ v : String, v ≠ "" → v ≠ "#skip" → gdk_rgba_parse v = none →
      (∀ rest : String, v ≠ "#source:" ++ rest) →
      (∀ rest : String, v ≠ "#zoomed:" ++ rest) →
      (∀ rest : String, v ≠ "#stretched:" ++ rest) →
      background_config_initialize gdk_rgba_parse (some v) = (true, .image v .ZOOMED)) := by
  have hres : ∀ v : String, v ≠ "" →
      ( background_config_initialize gdk_rgba_parse (some v)).1 = true ∧
      ( background_config_initialize gdk_rgba_parse (some v)).2 ≠ .invalid := by
    intro v hv
    simp only [ background_config_initialize, hv, if_false]
    split
    · exact ⟨rfl, by simp⟩
    · split
      · exact ⟨rfl, by simp⟩
      · split
        · exact ⟨rfl, by simp⟩
        · exact ⟨rfl, by simp⟩
  have himg : ∀ (p path : String) (mode : ScalingMode), 6 ≤ p.data.length →
      gdk_rgba_parse (p ++ path) = none →
      find_scaling_mode (p ++ path) SCALING_MODE_PREFIXES = some (p, mode) →
      background_config_initialize gdk_rgba_parse (some (p ++ path))
        = (true, .image path mode) := by
    intro p path mode hp hparse hfind
    obtain ⟨h1, h2⟩ := prefixed_ne_empty_skip p path hp
    simp only [ background_config_initialize, h1, h2, if_false, hparse, hfind, drop_prefix]
  refine ⟨?_, ?_, ?_, ?_, ?_, ?_, ?_, ?_⟩
  · intro value
    cases value with
    | none => simp [ background_config_initialize]
    | some v =>
      by_cases hv : v = ""
      · simp [ background_config_initialize, hv]
      · simp [(hres v hv).1, hv]
  · intro value
    cases value with
    | none => simp [ background_config_initialize]
    | some v =>
      by_cases hv : v = ""
      · simp [ background_config_initialize, hv]
      · simp [(hres v hv).2, hv]
  · simp [ background_config_initialize, BACKGROUND_TYPE_SKIP_VALUE]
  · intro v color h1 h2 hp
    simp [ background_config_initialize, BACKGROUND_TYPE_SKIP_VALUE, h1, h2, hp]
  · intro path hp
    exact himg _ _ _ (by decide) hp (find_scaling_mode_source path)
  · intro path hp
    exact himg _ _ _ (by decide) hp (find_scaling_mode_zoomed path)
  · intro path hp
    exact himg _ _ _ (by decide) hp (find_scaling_mode_stretched path)
  · intro v h1 h2 hp h3 h4 h5
    simp [ background_config_initialize, BACKGROUND_TYPE_SKIP_VALUE, h1, h2, hp,
      find_scaling_mode_none v h3 h4 h5]

/-- Witness for C12: `#stretched:/usr/share/wall.png` and the bare path. -/
theorem background_config_initialize_cases_witness :
    background_config_initialize parse_black (some ("#stretched:" ++ "/usr/share/wall.png"))
        = (true, .image "/usr/share/wall.png" .STRETCHED) ∧
    background_config_initialize parse_black (some "black")
        = (true, .color ⟨0, 0, 0, 1⟩) :=
  ⟨(background_config_initialize_cases parse_black).2.2.2.2.2.2.1 "/usr/share/wall.png"
      (by decide),
   (background_config_initialize_cases parse_black).2.2.2.1 "black" ⟨0, 0, 0, 1⟩
      (by decide) (by decide) (by decide)⟩

/-- C13: for a non-empty string `greeter_background_set_active_monitor_config`
stores the tokens between the `;` that are not `#cursor`, in their order, and
sets `follow_cursor` exactly when some token is `#cursor`; the tokens are the
pieces that, joined with `;`, give the string back, none containing `;`. For
`NULL` and the empty string the list is empty and both flags are false. The
three fields are the same whatever the state before the call. -/
theorem set_active_monitor_config_tokens (s : GreeterBackgroundPrivate)
    (value : Option String) :
    ((value = none ∨ value = some "") →
      (greeter_background_set_active_monitor_config s value).active_monitors_config = [] ∧
      (greeter_background_set_active_monitor_config s value).follow_cursor = false ∧
      (greeter_background_set_active_monitor_config s value).follow_cursor_to_init = false) ∧
    (∀ v, value = some v → v ≠ "" →
      (greeter_background_set_active_monitor_config s value).active_monitors_config =
        (g_strsplit v ';').filter (fun t => decide (t ≠ "#cursor")) ∧
      ((greeter_background_set_active_monitor_config s value).follow_cursor = true ↔
        "#cursor" ∈ g_strsplit v ';') ∧
      List.intercalate [';'] ((g_strsplit v ';').map String.data) = v.data ∧
      ∀ t ∈ g_strsplit v ';', ';' ∉ t.data) ∧
    (∀ s2 : GreeterBackgroundPrivate,
      (greeter_background_set_active_monitor_config s2 value).active_monitors_config =
        (greeter_background_set_active_monitor_config s value).active_monitors_config ∧
      (greeter_background_set_active_monitor_config s2 value).follow_cursor =
        (greeter_background_set_active_monitor_config s value).follow_cursor ∧
      (greeter_background_set_active_monitor_config s2 value).follow_cursor_to_init =
        (greeter_background_set_active_monitor_config s value).follow_cursor_to_init) := by
  refine ⟨?_, ?_, ?_⟩
  · rintro (h | h) <;> subst h <;> simp [greeter_background_set_active_monitor_config]
  · intro v hv hne
    subst hv
    have hsplit : g_strsplit v ';' = (g_strsplit_chars ';' v.data).map String.mk := by
      simp [g_strsplit, hne]
    refine ⟨?_, ?_, ?_, ?_⟩
    · simp only [greeter_background_set_active_monitor_config, hne, if_false,
        config_loop_list, List.append_nil, List.reverse_reverse, ACTIVE_MONITOR_CURSOR_TAG]
    · simp only [greeter_background_set_active_monitor_config, hne, if_false,
        config_loop_follow, ACTIVE_MONITOR_CURSOR_TAG]
      simp
    · rw [hsplit, List.map_map]
      have : (String.data ∘ String.mk) = id := by funext l; rfl
      rw [this, List.map_id]
      exact g_strsplit_chars_join ';' v.data
    · intro t ht
      rw [hsplit] at ht
      obtain ⟨l, hl, e⟩ := List.mem_map.mp ht
      subst e
      exact g_strsplit_chars_no_delim ';' v.data l hl
  · intro s2
    cases value with
    | none => exact ⟨rfl, rfl, rfl⟩
    | some v =>
      by_cases hne : v = ""
      · simp [greeter_background_set_active_monitor_config, hne]
      · simp [greeter_background_set_active_monitor_config, hne]

/-- Witness for C13: the string `A;#cursor;B`. -/
theorem set_active_monitor_config_tokens_witness :
    (greeter_background_set_active_monitor_config state_abc (some "A;#cursor;B")
        ).active_monitors_config =
      (g_strsplit "A;#cursor;B" ';').filter (fun t => decide (t ≠ "#cursor")) ∧
    ((greeter_background_set_active_monitor_config state_abc (some "A;#cursor;B")
        ).follow_cursor = true ↔ "#cursor" ∈ g_strsplit "A;#cursor;B" ';') ∧
    List.intercalate [';'] ((g_strsplit "A;#cursor;B" ';').map String.data)
      = "A;#cursor;B".data ∧
    ∀ t ∈ g_strsplit "A;#cursor;B" ';', ';' ∉ t.data :=
  (set_active_monitor_config_tokens state_abc (some "A;#cursor;B")).2.1 "A;#cursor;B" rfl
    (by decide)

/-- Counterexample to C14 as stated: for `#cursor;A;#cursor` the sentinel is the
first token, yet `follow_cursor_to_init` is false after the call. -/
theorem repeated_cursor_tag_clears_init_flag :
    g_strsplit "#cursor;A;#cursor" ';' = ["#cursor", "A", "#cursor"] ∧
    (greeter_background_set_active_monitor_config (greeter_background_init (0, 0))
      (some "#cursor;A;#cursor")).follow_cursor = true ∧
    (greeter_background_set_active_monitor_config (greeter_background_init (0, 0))
      (some "#cursor;A;#cursor")).follow_cursor_to_init = false := by
  decide

/-- C14 as amended: line 336 recomputes `follow_cursor_to_init` at every
`#cursor` token, so for a non-empty string it is true exactly when the string
has a `#cursor` token and no other token stands before the last one. In
particular it is false when some other token precedes the first `#cursor`, and
true when the only `#cursor` token is the first token. -/
theorem set_active_monitor_config_init_flag (s : GreeterBackgroundPrivate) (v : String)
    (hne : v ≠ "") :
    ((greeter_background_set_active_monitor_config s (some v)).follow_cursor_to_init = true ↔
      ∃ pre post, g_strsplit v ';' = pre ++ "#cursor" :: post ∧ "#cursor" ∉ post ∧
        ∀ t ∈ pre, t = "#cursor") ∧
    (∀ pre t post, g_strsplit v ';' = pre ++ t :: post → t ≠ "#cursor" →
      "#cursor" ∉ pre →
      (greeter_background_set_active_monitor_config s (some v)).follow_cursor_to_init
        = false) ∧
    (∀ post, g_strsplit v ';' = "#cursor" :: post → "#cursor" ∉ post →
      (greeter_background_set_active_monitor_config s (some v)).follow_cursor_to_init
        = true) := by
  have hiff : (greeter_background_set_active_monitor_config s (some v)).follow_cursor_to_init
      = true ↔
      ∃ pre post, g_strsplit v ';' = pre ++ "#cursor" :: post ∧ "#cursor" ∉ post ∧
        ∀ t ∈ pre, t = "#cursor" := by
    simp only [greeter_background_set_active_monitor_config, hne, if_false]
    rw [config_loop_init]
    simp [ACTIVE_MONITOR_CURSOR_TAG]
  refine ⟨hiff, ?_, ?_⟩
  · intro pre t post hsplit ht hpre
    cases hx : (greeter_background_set_active_monitor_config s (some v)).follow_cursor_to_init
    · rfl
    · exfalso
      obtain ⟨pre2, post2, h1, h2, h3⟩ := hiff.mp hx
      rw [hsplit] at h1
      rcases List.append_eq_append_iff.mp h1 with ⟨a, ha1, ha2⟩ | ⟨c, hc1, hc2⟩
      · cases a with
        | nil =>
          simp only [List.nil_append, List.cons.injEq] at ha2
          exact ht ha2.1
        | cons x a' =>
          simp only [List.cons_append, List.cons.injEq] at ha2
          apply ht
          apply h3 t
          rw [ha1, ha2.1]
          simp
      · cases c with
        | nil =>
          simp only [List.nil_append, List.cons.injEq] at hc2
          exact ht hc2.1.symm
        | cons x c' =>
          simp only [List.cons_append, List.cons.injEq] at hc2
          apply hpre
          rw [hc1, ← hc2.1]
          simp
  · intro post hsplit hpost
    exact hiff.mpr ⟨[], post, by simpa using hsplit, hpost, by simp⟩

/-- Witness for C14 as amended: `#cursor;A` sets the flag, `A;#cursor` does
not. -/
theorem set_active_monitor_config_init_flag_witness :
    (greeter_background_set_active_monitor_config state_abc
      (some "#cursor;A")).follow_cursor_to_init = true :=
  (set_active_monitor_config_init_flag state_abc "#cursor;A" (by decide)).2.2 ["A"]
    (by decide) (by decide)

/-- C15: let `s` be the state a rebuild (`greeter_background_connect`) leads to
from a reachable state `s0`, and let the override specification parse to a
colour, or to an image whose file the decoder reads. The customizable list of
`s` holds exactly the constructed monitors whose effective configuration
(`rebuild_config`) has `user_bg`. After
`greeter_background_set_custom_background` every such monitor has
`background` pointing to its custom background, which is rendered from the
specification (the colour itself for a colour); every other monitor is left as
it was, with `background` pointing to its configured background when it was
constructed and `NULL` when it was skipped; `background_configured` and the
geometry of no monitor change. -/
theorem custom_background_applies_to_user_bg_monitors
    (load0 : String → Option GdkPixbuf) (upower : Option UPower)
    (s0 s : GreeterBackgroundPrivate) (screen : GdkScreen) (hs0 : Reachable s0)
    (hconn : greeter_background_connect load0 upower s0 screen = some s)
    (parse : String → Option GdkRGBA) (load : String → Option GdkPixbuf)
    (value : Option String)
    (hrender : (∃ c, ( background_config_initialize parse value).2 = .color c) ∨
      (∃ path mode, ( background_config_initialize parse value).2 = .image path mode ∧
        load path ≠ none)) :
    (∀ k, k ∈ s.customized_monitors ↔
      ∃ cfg, rebuild_config s0 screen k = some cfg ∧ cfg.user_bg = true) ∧
    ∀ k sm, screen.monitors[k]? = some sm →
      ∃ old new, s.monitors[k]? = some old ∧
        (greeter_background_set_custom_background parse load s value).monitors[k]?
          = some new ∧
        new.background_configured = old.background_configured ∧
        new.geometry = old.geometry ∧
        (∀ cfg, rebuild_config s0 screen k = some cfg → cfg.user_bg = true →
          new.background = some .custom ∧
          new.background_custom.type = ( background_config_initialize parse value).2.type ∧
          ∀ c, ( background_config_initialize parse value).2 = .color c →
            new.background_custom = .color c) ∧
        (∀ cfg, rebuild_config s0 screen k = some cfg → cfg.user_bg = false →
          new = old ∧ new.background = some .configured) ∧
        (rebuild_config s0 screen k = none → new = old ∧ new.background = none) := by
  obtain ⟨_, r2, _, r4⟩ := connect_rebuild load0 upower s0 s screen hs0 hconn
  refine ⟨r2, ?_⟩
  generalize hcfg : ( background_config_initialize parse value).2 = config at hrender ⊢
  have hloop := custom_background_loop_monitors load config
    (fun old new => ∃ X : Background, X.type = config.type ∧
      (∀ c, config = .color c → X = .color c) ∧
      new = { old with background_custom := X, background := some .custom })
    (by
      intro m st old hold
      obtain ⟨X, R, h1, _, h3, h4, _⟩ := custom_background_monitor_at load config m st old hold
      rcases hrender with ⟨c, hc⟩ | ⟨path, mode, hc, hl⟩
      · obtain ⟨hx, hr⟩ := h3 c hc
        refine ⟨_, h1, X, ?_, ?_, ?_⟩
        · rw [hx, hc]; rfl
        · intro c2 hc2
          rw [hc] at hc2
          cases hc2
          exact hx
        · rw [hr]
      · obtain ⟨hx, hr⟩ := h4 path mode hc hl
        refine ⟨_, h1, X, ?_, ?_, ?_⟩
        · rw [hx, hc]; rfl
        · intro c2 hc2
          rw [hc] at hc2
          cases hc2
        · rw [hr])
    (by
      rintro a b c ⟨X1, _, _, hb⟩ ⟨X2, t2, u2, hc⟩
      refine ⟨X2, t2, u2, ?_⟩
      rw [hc, hb])
  intro k sm hsm
  obtain ⟨old, hold, hrm⟩ := r4 k sm hsm
  obtain ⟨_, _, _, _, b1, b2⟩ := rebuilt_monitor_background hrm
  obtain ⟨new, hnew, q1, q2⟩ := hloop s.customized_monitors
    (s, if config.type = .IMAGE then some [] else none) k old hold
  refine ⟨old, new, hold, ?_, ?_, ?_, ?_, ?_, ?_⟩
  · rw [set_custom_background_monitors, hcfg]
    exact hnew
  · by_cases hk : k ∈ s.customized_monitors
    · obtain ⟨X, _, _, hx⟩ := q1 hk
      rw [hx]
    · rw [q2 hk]
  · by_cases hk : k ∈ s.customized_monitors
    · obtain ⟨X, _, _, hx⟩ := q1 hk
      rw [hx]
    · rw [q2 hk]
  · intro cfg h1 h2
    obtain ⟨X, t, u, hx⟩ := q1 ((r2 k).2 ⟨cfg, h1, h2⟩)
    rw [hx]
    exact ⟨rfl, t, u⟩
  · intro cfg h1 h2
    have hk : k ∉ s.customized_monitors := by
      intro hin
      obtain ⟨c2, e1, e2⟩ := (r2 k).1 hin
      rw [h1] at e1
      cases e1
      rw [h2] at e2
      cases e2
    rw [q2 hk]
    exact ⟨rfl, (b2 cfg h1).1⟩
  · intro h1
    have hk : k ∉ s.customized_monitors := by
      intro hin
      obtain ⟨c2, e1, _⟩ := (r2 k).1 hin
      rw [h1] at e1
      cases e1
    rw [q2 hk]
    exact ⟨rfl, (b1 h1).1⟩

/-- Witness for C15: on the screen `A`, `B`, `C` with `B` configured as not
customizable, the override `black` is applied. -/
theorem custom_background_applies_to_user_bg_monitors_witness :
    (∀ k, k ∈ state_plain_b.customized_monitors ↔
      ∃ cfg, rebuild_config config_plain_b screen_abc k = some cfg ∧ cfg.user_bg = true) ∧
    ∀ k sm, screen_abc.monitors[k]? = some sm →
      ∃ old new, state_plain_b.monitors[k]? = some old ∧
        (greeter_background_set_custom_background parse_black no_file state_plain_b
          (some "black")).monitors[k]? = some new ∧
        new.background_configured = old.background_configured ∧
        new.geometry = old.geometry ∧
        (∀ cfg, rebuild_config config_plain_b screen_abc k = some cfg → cfg.user_bg = true →
          new.background = some .custom ∧
          new.background_custom.type
            = ( background_config_initialize parse_black (some "black")).2.type ∧
          ∀ c, ( background_config_initialize parse_black (some "black")).2 = .color c →
            new.background_custom = .color c) ∧
        (∀ cfg, rebuild_config config_plain_b screen_abc k = some cfg → cfg.user_bg = false →
          new = old ∧ new.background = some .configured) ∧
        (rebuild_config config_plain_b screen_abc k = none →
          new = old ∧ new.background = none) :=
  custom_background_applies_to_user_bg_monitors no_file none config_plain_b state_plain_b
    screen_abc
    (Reachable.set_monitor_config (Reachable.init (0, 0)) parse_black "B" (some "black")
      false true false false)
    state_plain_b_step parse_black no_file (some "black") (Or.inl ⟨⟨0, 0, 0, 1⟩, by decide⟩)

/-- C16, counterexample: in the reachable state `state_overlay` the overlay
window 7 is attached and no monitor is customizable; there
`greeter_background_set_custom_background` with `NULL` returns at line 834 and
leaves the state as it is, so no `gtk_widget_queue_draw` is issued for the
window. -/
theorem set_custom_background_returns_early_without_redraw :
    Reachable state_overlay ∧
    state_overlay.greeter_windows = [⟨7, true⟩] ∧
    state_overlay.customized_monitors = [] ∧
    greeter_background_set_custom_background parse_black no_file state_overlay none
      = state_overlay ∧
    Event.window_queue_draw 7 ∉
      (greeter_background_set_custom_background parse_black no_file state_overlay
        none).events :=
  ⟨state_overlay_reachable, by decide, by decide, by decide, by decide⟩

/-- C16, as the code has it: for `NULL` and for the empty string, when the
customizable list is not empty every customizable monitor gets
`background` pointing to its configured background and an empty custom
background, every other monitor is left as it was, one
`gtk_widget_queue_draw` is issued for the window of each customizable monitor
and then one for every overlay window, in the order of `greeter_windows`; when
the customizable list is empty the call changes nothing and issues no
redraw. -/
theorem set_custom_background_invalid (parse : String → Option GdkRGBA)
    (load : String → Option GdkPixbuf) (s : GreeterBackgroundPrivate) (value : Option String)
    (hv : value = none ∨ value = some "") :
    (s.customized_monitors ≠ [] →
      (∀ (i : Nat) (old : Monitor), s.monitors[i]? = some old →
        (greeter_background_set_custom_background parse load s value).monitors[i]? =
          some (if i ∈ s.customized_monitors then
                  { old with background_custom := .invalid, background := some .configured }
                else old)) ∧
      (greeter_background_set_custom_background parse load s value).events =
        s.events ++
          (s.customized_monitors.filter (fun m => decide (m < s.monitors.length))).map
            Event.monitor_queue_draw ++
          s.greeter_windows.map (fun w => Event.window_queue_draw w.id)) ∧
    (s.customized_monitors = [] →
      greeter_background_set_custom_background parse load s value = s) := by
  have hcfg : ( background_config_initialize parse value).2 = .invalid := by
    rcases hv with h | h <;> subst h <;> rfl
  refine ⟨fun hne => ⟨?_, ?_⟩, fun he => ?_⟩
  · intro i old hold
    have hloop := custom_background_loop_monitors load BackgroundConfig.invalid
      (fun old new => new = { old with background_custom := .invalid,
                                       background := some .configured })
      (by
        intro m st o ho
        obtain ⟨X, R, h1, h2, _⟩ := custom_background_monitor_at load .invalid m st o ho
        obtain ⟨hx, hr⟩ := h2 rfl
        refine ⟨_, h1, ?_⟩
        rw [hx, hr])
      (by
        rintro a b c hb hc
        rw [hc, hb])
    obtain ⟨new, hnew, q1, q2⟩ := hloop s.customized_monitors (s, none) i old hold
    rw [set_custom_background_monitors, hcfg]
    have hcache : (if BackgroundConfig.invalid.type = BackgroundType.IMAGE then
        (some [] : Option (GHashTable GdkPixbuf)) else none) = none := rfl
    rw [hcache, hnew]
    by_cases hi : i ∈ s.customized_monitors
    · rw [if_pos hi, q1 hi]
    · rw [if_neg hi, q2 hi]
  · unfold greeter_background_set_custom_background
    have hemp : s.customized_monitors.isEmpty = false := by
      cases hx : s.customized_monitors with
      | nil => exact absurd hx hne
      | cons a l => rfl
    rw [hemp]
    simp only [Bool.false_eq_true, if_false]
    rw [hcfg]
    rw [custom_background_loop_events load .invalid rfl]
  · unfold greeter_background_set_custom_background
    rw [he]
    rfl

/-- Witness for C16: the screen `A`, `B`, `C` with every monitor customizable
and the override `NULL`. -/
theorem set_custom_background_invalid_witness :
    (state_abc.customized_monitors ≠ [] →
      (∀ (i : Nat) (old : Monitor), state_abc.monitors[i]? = some old →
        (greeter_background_set_custom_background parse_black no_file state_abc
          none).monitors[i]? =
          some (if i ∈ state_abc.customized_monitors then
                  { old with background_custom := .invalid, background := some .configured }
                else old)) ∧
      (greeter_background_set_custom_background parse_black no_file state_abc none).events =
        state_abc.events ++
          (state_abc.customized_monitors.filter
            (fun m => decide (m < state_abc.monitors.length))).map
            Event.monitor_queue_draw ++
          state_abc.greeter_windows.map (fun w => Event.window_queue_draw w.id)) ∧
    (state_abc.customized_monitors = [] →
      greeter_background_set_custom_background parse_black no_file state_abc none
        = state_abc) :=
  set_custom_background_invalid parse_black no_file state_abc none (Or.inl rfl)

/-- C17 (counterexample to the claim as worded): `HDMI` and `LVDS` are both
flagged `laptop` and the screen is connected with the lid open. The state is
reachable, lid tracking is on, `follow_cursor` is false, the active monitor 0
is on the laptop list and monitor 1 has a background and is enabled while the
lid is open. Monitor 1 is on the laptop list too, so the closed lid disables
it; no monitor is left to select and the lid-closed event ends in the `NULL`
dereference of line 643: the handler does not return. -/
theorem lid_close_with_second_laptop_monitor_faults :
    Reachable state_all_laptops ∧
    state_all_laptops.laptop_upower_proxy = true ∧
    state_all_laptops.follow_cursor = false ∧
    state_all_laptops.laptop_lid_closed = false ∧
    state_all_laptops.laptop_monitors = [1, 0] ∧
    state_all_laptops.active_monitor = some 0 ∧
    (monitor_background state_all_laptops 1).isSome = true ∧
    greeter_background_monitor_enabled state_all_laptops 1 = true ∧
    greeter_background_monitor_enabled { state_all_laptops with laptop_lid_closed := true } 1
      = false ∧
    greeter_background_dbus_changed_cb state_all_laptops true = none :=
  ⟨state_all_laptops_reachable, by decide, by decide, by decide, by decide, by decide,
    by decide, by decide, by decide, by decide⟩

/-- C17, as the code has it: with a power proxy, `follow_cursor` false, the lid
cached as open, the active monitor `M` on the laptop list, and another monitor
`Q` that has a background and is still enabled once the lid counts as closed
(`hQen`: it is not on the laptop list), the lid-closed event makes
`greeter_background_dbus_changed_cb` store the new lid state and run the
selection with no request; it returns with an active monitor `N` that is not
`M`, has a background and is enabled. The primary monitor the screen reports is
one of its monitors (`hp`). -/
theorem lid_close_moves_active_monitor (s : GreeterBackgroundPrivate) (screen : GdkScreen)
    (M Q : Nat) (hproxy : s.laptop_upower_proxy = true) (hfc : s.follow_cursor = false)
    (hM : M ∈ s.laptop_monitors) (hact : s.active_monitor = some M)
    (hopen : s.laptop_lid_closed = false)
    (hQ : (monitor_background s Q).isSome = true)
    (hQen : greeter_background_monitor_enabled { s with laptop_lid_closed := true } Q = true)
    (hscreen : s.screen = some screen) (hp : screen.primary < s.monitors.length) :
    ∃ s' N, greeter_background_dbus_changed_cb s true = some s' ∧
      greeter_background_dbus_changed_cb s true =
        greeter_background_set_active_monitor { s with laptop_lid_closed := true } none ∧
      s'.laptop_lid_closed = true ∧ s'.active_monitor = some N ∧ N ≠ M ∧
      (monitor_background s' N).isSome = true ∧
      greeter_background_monitor_enabled s' N = true := by
  have hcb : greeter_background_dbus_changed_cb s true =
      greeter_background_set_active_monitor { s with laptop_lid_closed := true } none := by
    unfold greeter_background_dbus_changed_cb
    rw [hopen]
    simp only [Bool.true_eq_false, if_false]
    cases hl : s.laptop_monitors with
    | nil => rw [hl] at hM; cases hM
    | cons head rest => simp [hfc]
  obtain ⟨N, hN⟩ := @auto_selectable { s with laptop_lid_closed := true }
    screen Q hscreen hp ⟨hQ, hQen⟩
  obtain ⟨hb, he⟩ := auto_some hN
  have hNM : N ≠ M := by
    rintro rfl
    unfold greeter_background_monitor_enabled at he
    simp [hproxy, hM] at he
  obtain ⟨s', hs'⟩ := commit_isSome { s with laptop_lid_closed := true } N
    (monitor_background_lt hb)
  have hset : greeter_background_set_active_monitor { s with laptop_lid_closed := true } none
      = some s' := by
    rw [set_active_monitor_none, hN]
    exact hs'
  obtain ⟨f1, f2, f3, f4, f5, f6, _⟩ := set_active_monitor_selection_frame hset
  refine ⟨s', N, hcb.trans hset, hcb, f6, commit_active hs', hNM, ?_, ?_⟩
  · rw [monitor_background_congr f1]; exact hb
  · unfold greeter_background_monitor_enabled at he ⊢
    rw [f5, f4, f6]
    exact he

/-- Witness for C17: the panel `LVDS` is active with the lid open and `HDMI`
is the other monitor. -/
theorem lid_close_moves_active_monitor_witness :
    ∃ s' N, greeter_background_dbus_changed_cb state_lvds_open true = some s' ∧
      greeter_background_dbus_changed_cb state_lvds_open true =
        greeter_background_set_active_monitor
          { state_lvds_open with laptop_lid_closed := true } none ∧
      s'.laptop_lid_closed = true ∧ s'.active_monitor = some N ∧ N ≠ 1 ∧
      (monitor_background s' N).isSome = true ∧
      greeter_background_monitor_enabled s' N = true :=
  lid_close_moves_active_monitor state_lvds_open screen_laptop 1 0 (by decide) (by decide)
    (by decide) (by decide) (by decide) (by decide) (by decide) (by decide) (by decide)

/-- C18, counterexample: in `state_lvds_closed` (`follow_cursor` false) the
active monitor moved from the panel `LVDS` (index 1), the first candidate, to
`HDMI` (index 0) when the lid closed; the lid-opened event selects `LVDS`
again. -/
theorem lid_open_reselects_laptop_monitor :
    Reachable state_lvds_closed ∧
    state_lvds_open.active_monitor = some 1 ∧
    state_lvds_closed.follow_cursor = false ∧
    state_lvds_closed.laptop_monitors = [1] ∧
    state_lvds_closed.active_monitor = some 0 ∧
    (greeter_background_dbus_changed_cb state_lvds_closed false).map
      (fun s => s.active_monitor) = some (some 1) :=
  ⟨state_lvds_closed_reachable, by decide, by decide, by decide, by decide, by decide⟩

/-- C18, as the code has it: with a laptop monitor on the list and the lid
cached as closed, the lid-opened event with `follow_cursor` false runs
`greeter_background_set_active_monitor` with no request in the state with the
lid open, where every monitor is enabled: a monitor `M` with a background is
selected when it is the first candidate, and when there is no candidate and it
is the primary monitor. With `follow_cursor` true the event only stores the
new lid state. -/
theorem lid_open_runs_selection (s : GreeterBackgroundPrivate)
    (hlap : s.laptop_monitors ≠ []) (hclosed : s.laptop_lid_closed = true) :
    (s.follow_cursor = false →
      greeter_background_dbus_changed_cb s false =
        greeter_background_set_active_monitor { s with laptop_lid_closed := false } none) ∧
    (s.follow_cursor = false → ∀ (M : Nat) (id : String) (rest : List String),
      s.active_monitors_config = id :: rest →
      g_hash_table_lookup s.monitors_map id = some M →
      (monitor_background s M).isSome = true →
      ∃ s', greeter_background_dbus_changed_cb s false = some s' ∧
        s'.active_monitor = some M) ∧
    (s.follow_cursor = false → ∀ (screen : GdkScreen), s.active_monitors_config = [] →
      s.screen = some screen → (monitor_background s screen.primary).isSome = true →
      ∃ s', greeter_background_dbus_changed_cb s false = some s' ∧
        s'.active_monitor = some screen.primary) ∧
    (s.follow_cursor = true →
      greeter_background_dbus_changed_cb s false
        = some { s with laptop_lid_closed := false }) := by
  have hcb : s.follow_cursor = false → greeter_background_dbus_changed_cb s false =
      greeter_background_set_active_monitor { s with laptop_lid_closed := false } none := by
    intro hfc
    unfold greeter_background_dbus_changed_cb
    rw [hclosed]
    simp only [Bool.false_eq_true, if_false]
    cases hl : s.laptop_monitors with
    | nil => exact absurd hl hlap
    | cons head rest => simp [hfc]
  refine ⟨hcb, ?_, ?_, ?_⟩
  · intro hfc M id rest hcfg hm hb
    rw [hcb hfc]
    apply auto_commit
    exact auto_first_candidate (s := { s with laptop_lid_closed := false }) hcfg hm
      ⟨hb, enabled_lid_open s M⟩
  · intro hfc screen hcfg hs hb
    rw [hcb hfc]
    apply auto_commit
    exact auto_primary (s := { s with laptop_lid_closed := false }) hcfg hs
      ⟨hb, enabled_lid_open s screen.primary⟩
  · intro hfc
    unfold greeter_background_dbus_changed_cb
    rw [hclosed]
    simp only [Bool.false_eq_true, if_false]
    cases hl : s.laptop_monitors with
    | nil => exact absurd hl hlap
    | cons head rest => simp [hfc]

/-- Witness for C18: the state in which the lid was closed while `LVDS` was
active. -/
theorem lid_open_runs_selection_witness :
    (state_lvds_closed.follow_cursor = false →
      greeter_background_dbus_changed_cb state_lvds_closed false =
        greeter_background_set_active_monitor
          { state_lvds_closed with laptop_lid_closed := false } none) ∧
    (state_lvds_closed.follow_cursor = false → ∀ (M : Nat) (id : String) (rest : List String),
      state_lvds_closed.active_monitors_config = id :: rest →
      g_hash_table_lookup state_lvds_closed.monitors_map id = some M →
      (monitor_background state_lvds_closed M).isSome = true →
      ∃ s', greeter_background_dbus_changed_cb state_lvds_closed false = some s' ∧
        s'.active_monitor = some M) ∧
    (state_lvds_closed.follow_cursor = false → ∀ (screen : GdkScreen),
      state_lvds_closed.active_monitors_config = [] →
      state_lvds_closed.screen = some screen →
      (monitor_background state_lvds_closed screen.primary).isSome = true →
      ∃ s', greeter_background_dbus_changed_cb state_lvds_closed false = some s' ∧
        s'.active_monitor = some screen.primary) ∧
    (state_lvds_closed.follow_cursor = true →
      greeter_background_dbus_changed_cb state_lvds_closed false
        = some { state_lvds_closed with laptop_lid_closed := false }) :=
  lid_open_runs_selection state_lvds_closed (by decide) (by decide)

/-- C19, counterexample: for a file that cannot be decoded, two calls of
`scale_image_file` with the same path, mode and size on the same cache hand the
path to `gdk_pixbuf_new_from_file` once each, twice in total: the failure is
not recorded in the cache. -/
theorem scale_image_file_decodes_unreadable_file_twice :
    (scale_image_file no_file "/missing.png" .ZOOMED 100 100 (some [])).2.2
      = ["/missing.png"] ∧
    (scale_image_file no_file "/missing.png" .ZOOMED 100 100
      (scale_image_file no_file "/missing.png" .ZOOMED 100 100 (some [])).2.1).2.2
      = ["/missing.png"] ∧
    ((scale_image_file no_file "/missing.png" .ZOOMED 100 100 (some [])).2.2 ++
      (scale_image_file no_file "/missing.png" .ZOOMED 100 100
        (scale_image_file no_file "/missing.png" .ZOOMED 100 100
          (some [])).2.1).2.2).length = 2 :=
  ⟨rfl, rfl, rfl⟩

/-- C19, as the code has it: for a call of `scale_image_file` with a cache `c`
and a second call with the same path, mode and size on the cache the first
call leaves. When the first call returns a pixbuf, it decodes at most once and
only `path`, the second call decodes nothing and returns the same pixbuf; and
when the first call did decode `path`, a later call for that path with any
mode and size decodes nothing, the source being found under the bare path.
When the first call returns `NULL`, the file cannot be decoded, the cache is
left as it was, and the second call decodes the file again and returns
`NULL`. -/
theorem scale_image_file_twice (load : String → Option GdkPixbuf) (path : String)
    (mode : ScalingMode) (width height : Int) (c : GHashTable GdkPixbuf) :
    ((scale_image_file load path mode width height (some c)).1 ≠ none →
      ((scale_image_file load path mode width height (some c)).2.2 = [] ∨
        (scale_image_file load path mode width height (some c)).2.2 = [path]) ∧
      (scale_image_file load path mode width height
        (scale_image_file load path mode width height (some c)).2.1).1
        = (scale_image_file load path mode width height (some c)).1 ∧
      (scale_image_file load path mode width height
        (scale_image_file load path mode width height (some c)).2.1).2.2 = [] ∧
      ((scale_image_file load path mode width height (some c)).2.2 = [path] →
        ∀ (mode2 : ScalingMode) (width2 height2 : Int),
          (scale_image_file load path mode2 width2 height2
            (scale_image_file load path mode width height (some c)).2.1).2.2 = [])) ∧
    ((scale_image_file load path mode width height (some c)).1 = none →
      load path = none ∧
      scale_image_file load path mode width height (some c) = (none, some c, [path]) ∧
      scale_image_file load path mode width height
        (scale_image_file load path mode width height (some c)).2.1
        = (none, some c, [path])) := by
  rcases scale_image_file_cases load path mode width height c with
    ⟨pb, hk, h⟩ | ⟨src, hk, hp, h⟩ | ⟨src, hk, hp, hl, h⟩ | ⟨hk, hp, hl, h⟩
  · rw [h]
    dsimp only
    rw [h]
    exact ⟨fun _ => ⟨Or.inl rfl, rfl, rfl, fun hx => (by cases hx)⟩, fun hx => (by cases hx)⟩
  · rw [h]
    dsimp only
    rw [scale_image_file_hit load path mode width height _ _ (lookup_insert_self _ _ _)]
    exact ⟨fun _ => ⟨Or.inl rfl, rfl, rfl, fun hx => (by cases hx)⟩, fun hx => (by cases hx)⟩
  · rw [h]
    dsimp only
    rw [scale_image_file_hit load path mode width height _ _ (lookup_insert_self _ _ _)]
    refine ⟨fun _ => ⟨Or.inr rfl, rfl, rfl, fun _ mode2 width2 height2 => ?_⟩,
      fun hx => (by cases hx)⟩
    apply scale_image_file_source load path mode2 width2 height2 _ src
    rw [lookup_insert_other _ _ _ _ (Ne.symm (scale_image_key_ne_path path mode width height))]
    exact lookup_insert_self _ _ _
  · rw [h]
    dsimp only
    rw [h]
    exact ⟨fun hx => absurd rfl hx, fun _ => ⟨hl, rfl, rfl⟩⟩

/-- Witness for C19: the readable file `/a.png` on an empty cache. -/
theorem scale_image_file_twice_witness :
    ((scale_image_file one_file "/a.png" .ZOOMED 100 100 (some [])).1 ≠ none →
      ((scale_image_file one_file "/a.png" .ZOOMED 100 100 (some [])).2.2 = [] ∨
        (scale_image_file one_file "/a.png" .ZOOMED 100 100 (some [])).2.2 = ["/a.png"]) ∧
      (scale_image_file one_file "/a.png" .ZOOMED 100 100
        (scale_image_file one_file "/a.png" .ZOOMED 100 100 (some [])).2.1).1
        = (scale_image_file one_file "/a.png" .ZOOMED 100 100 (some [])).1 ∧
      (scale_image_file one_file "/a.png" .ZOOMED 100 100
        (scale_image_file one_file "/a.png" .ZOOMED 100 100 (some [])).2.1).2.2 = [] ∧
      ((scale_image_file one_file "/a.png" .ZOOMED 100 100 (some [])).2.2 = ["/a.png"] →
        ∀ (mode2 : ScalingMode) (width2 height2 : Int),
          (scale_image_file one_file "/a.png" mode2 width2 height2
            (scale_image_file one_file "/a.png" .ZOOMED 100 100 (some [])).2.1).2.2
            = [])) ∧
    ((scale_image_file one_file "/a.png" .ZOOMED 100 100 (some [])).1 = none →
      one_file "/a.png" = none ∧
      scale_image_file one_file "/a.png" .ZOOMED 100 100 (some [])
        = (none, some [], ["/a.png"]) ∧
      scale_image_file one_file "/a.png" .ZOOMED 100 100
        (scale_image_file one_file "/a.png" .ZOOMED 100 100 (some [])).2.1
        = (none, some [], ["/a.png"])) :=
  scale_image_file_twice one_file "/a.png" .ZOOMED 100 100 []

/-- C21 (the code departs from the claim): line 778 compares the active monitor
with `laptop_monitors->data`, the first entry of the laptop list, and with no
other entry. With `follow_cursor` true and the lid cached as open, the
lid-closed event runs `greeter_background_set_active_monitor` with no request
when the active monitor is that first entry, and only stores the new lid state
when it is any other monitor. With the pointer at `(0, 0)` the monitors `A`
(index 0) and `B` (index 1) are flagged `laptop`, the list is `[B, A]`, and `A`
is active; `C` (index 2) has a background and is not flagged. The lid-closed
event leaves `A` active, which `greeter_background_monitor_enabled` reports as
disabled by then, although `C` has a background and is enabled. With the
pointer at `(150, 50)` the monitor `B` is active and the same event moves the
active monitor to `C`. -/
theorem lid_close_checks_only_first_laptop_entry :
    (∀ (s : GreeterBackgroundPrivate) (head : Nat) (rest : List Nat),
      s.follow_cursor = true → s.laptop_lid_closed = false →
      s.laptop_monitors = head :: rest →
      (s.active_monitor = some head →
        greeter_background_dbus_changed_cb s true =
          greeter_background_set_active_monitor { s with laptop_lid_closed := true } none) ∧
      (s.active_monitor ≠ some head →
        greeter_background_dbus_changed_cb s true
          = some { s with laptop_lid_closed := true })) ∧
    Reachable (state_two_laptops (0, 0)) ∧
    (state_two_laptops (0, 0)).follow_cursor = true ∧
    (state_two_laptops (0, 0)).laptop_upower_proxy = true ∧
    (state_two_laptops (0, 0)).laptop_lid_closed = false ∧
    (state_two_laptops (0, 0)).laptop_monitors = [1, 0] ∧
    (state_two_laptops (0, 0)).active_monitor = some 0 ∧
    greeter_background_dbus_changed_cb (state_two_laptops (0, 0)) true =
      some { state_two_laptops (0, 0) with laptop_lid_closed := true } ∧
    greeter_background_monitor_enabled
      { state_two_laptops (0, 0) with laptop_lid_closed := true } 0 = false ∧
    selectable { state_two_laptops (0, 0) with laptop_lid_closed := true } 2 ∧
    Reachable (state_two_laptops (150, 50)) ∧
    (state_two_laptops (150, 50)).active_monitor = some 1 ∧
    (greeter_background_dbus_changed_cb (state_two_laptops (150, 50)) true).map
      (fun s => s.active_monitor) = some (some 2) := by
  refine ⟨?_, state_two_laptops_a_reachable, by decide, by decide, by decide, by decide,
    by decide, by decide, by decide, by decide, state_two_laptops_b_reachable, by decide,
    by decide⟩
  intro s head rest hfc hopen hl
  constructor
  · intro ha
    unfold greeter_background_dbus_changed_cb
    rw [hopen]
    simp only [Bool.true_eq_false, if_false]
    rw [hl]
    simp [hfc, ha]
  · intro ha
    unfold greeter_background_dbus_changed_cb
    rw [hopen]
    simp only [Bool.true_eq_false, if_false]
    rw [hl]
    have hne : ¬ (some head = s.active_monitor) := fun h => ha h.symm
    simp [hfc, hne]

/-- C22: `greeter_background_connect` from a reachable state with
`follow_cursor_to_init` set. Let `k` be the first monitor of the screen, in
index order, that is enabled and whose geometry contains the pointer position
read at line 518, enabled being judged in the state the rebuild leaves at line
514 (`connect_registry`). The rectangles of the monitors up to `k` end within
the `gint` range (`hfit`), as the rectangles of a screen do, so that the `gint`
sums of lines 523-524 are the exact sums. If `k` has a background, the call
returns and `k` is the active monitor; it has a background and is enabled in
the state returned. -/
theorem connect_selects_monitor_under_pointer (load : String → Option GdkPixbuf)
    (upower : Option UPower) (s0 : GreeterBackgroundPrivate) (screen : GdkScreen)
    (hs0 : Reachable s0) (hinit : s0.follow_cursor_to_init = true)
    (k : Nat) (sm : ScreenMonitor) (hsm : screen.monitors[k]? = some sm)
    (hin : sm.geometry.x ≤ s0.cursor.1 ∧ s0.cursor.1 < sm.geometry.x + sm.geometry.width ∧
      sm.geometry.y ≤ s0.cursor.2 ∧ s0.cursor.2 < sm.geometry.y + sm.geometry.height)
    (hen : greeter_background_monitor_enabled (connect_registry load upower s0 screen) k
      = true)
    (hbg : (monitor_background (connect_registry load upower s0 screen) k).isSome = true)
    (hfirst : ∀ (j : Nat) (smj : ScreenMonitor), j < k → screen.monitors[j]? = some smj →
      ¬ (greeter_background_monitor_enabled (connect_registry load upower s0 screen) j
          = true ∧
        smj.geometry.x ≤ s0.cursor.1 ∧ s0.cursor.1 < smj.geometry.x + smj.geometry.width ∧
        smj.geometry.y ≤ s0.cursor.2 ∧
        s0.cursor.2 < smj.geometry.y + smj.geometry.height))
    (hfit : ∀ (j : Nat) (smj : ScreenMonitor), j ≤ k → screen.monitors[j]? = some smj →
      -2147483648 ≤ smj.geometry.x + smj.geometry.width ∧
      smj.geometry.x + smj.geometry.width ≤ 2147483647 ∧
      -2147483648 ≤ smj.geometry.y + smj.geometry.height ∧
      smj.geometry.y + smj.geometry.height ≤ 2147483647) :
    ∃ s, greeter_background_connect load upower s0 screen = some s ∧
      s.active_monitor = some k ∧
      s.monitors = (connect_registry load upower s0 screen).monitors ∧
      (monitor_background s k).isSome = true ∧
      greeter_background_monitor_enabled s k = true := by
  obtain ⟨p1, p2, p3, _, _, p6, p7⟩ := connect_registry_spec load upower s0 screen hs0
  rw [connect_eq_registry]
  generalize connect_registry load upower s0 screen = p at p1 p2 p3 p6 p7 hen hbg hfirst ⊢
  rw [p2, hinit, if_pos rfl, p3]
  obtain ⟨mon, hmon, hgeo⟩ := p7 k sm hsm
  have hmb : mon.background ≠ none := by
    intro hnone
    rw [monitor_background_getElem hmon, hnone] at hbg
    cases hbg
  have hgin : mon.geometry.x ≤ s0.cursor.1 ∧
      s0.cursor.1 < gint_add mon.geometry.x mon.geometry.width ∧
      mon.geometry.y ≤ s0.cursor.2 ∧
      s0.cursor.2 < gint_add mon.geometry.y mon.geometry.height := by
    obtain ⟨f1, f2, f3, f4⟩ := hfit k sm (le_refl k) hsm
    rw [hgeo, gint_add_eq _ _ f1 f2, gint_add_eq _ _ f3 f4]
    exact hin
  have hloop := connect_cursor_loop_first s0.cursor.1 s0.cursor.2 k p.monitors 0 p rfl p1
    (Nat.zero_le k)
    (by
      intro j monj _ hjk hj hc
      have hjn : j < screen.monitors.length := by
        have := monitor_background_lt hbg
        omega
      obtain ⟨mon2, hmon2, hgeo2⟩ := p7 j screen.monitors[j] (List.getElem?_eq_getElem hjn)
      rw [hj] at hmon2
      cases hmon2
      obtain ⟨f1, f2, f3, f4⟩ := hfit j screen.monitors[j] (le_of_lt hjk)
        (List.getElem?_eq_getElem hjn)
      rw [hgeo2, gint_add_eq _ _ f1 f2, gint_add_eq _ _ f3 f4] at hc
      exact hfirst j screen.monitors[j] hjk (List.getElem?_eq_getElem hjn) hc)
    ⟨mon, hmon, hmb, hen, hgin⟩
  obtain ⟨s, hs, hact, hf⟩ := hloop
  refine ⟨s, ?_, hact, hf.1, ?_, ?_⟩
  · rw [hs]
    dsimp only
    rw [hact]
    rfl
  · rw [monitor_background_congr hf.1]; exact hbg
  · have := (selectable_congr hf k).2 ⟨hbg, hen⟩
    exact this.2

/-- Witness for C22: the screen `A`, `B`, `C` (primary `C`) connected with the
pointer at `(150, 50)`, inside `B`. -/
theorem connect_selects_monitor_under_pointer_witness :
    ∃ s, greeter_background_connect no_file none config_cursor screen_abc = some s ∧
      s.active_monitor = some 1 ∧
      s.monitors = (connect_registry no_file none config_cursor screen_abc).monitors ∧
      (monitor_background s 1).isSome = true ∧
      greeter_background_monitor_enabled s 1 = true :=
  connect_selects_monitor_under_pointer no_file none config_cursor screen_abc
    (Reachable.set_active_monitor_config (Reachable.init (150, 50)) (some "#cursor"))
    (by decide) 1 ⟨some "B", ⟨100, 0, 100, 100⟩⟩ (by decide) (by decide) (by decide)
    (by decide)
    (fun j smj hj hs h => by
      have hj0 : j = 0 := by omega
      subst hj0
      have hA : smj = ⟨some "A", ⟨0, 0, 100, 100⟩⟩ := by
        have h2 : screen_abc.monitors[0]? = some ⟨some "A", ⟨0, 0, 100, 100⟩⟩ := rfl
        rw [h2] at hs
        exact (Option.some.inj hs).symm
      subst hA
      exact absurd h.2.2.1 (by decide))
    (fun j smj hj hs => by
      have hj2 : j = 0 ∨ j = 1 := by omega
      rcases hj2 with h0 | h1
      · subst h0
        have h2 : screen_abc.monitors[0]? = some ⟨some "A", ⟨0, 0, 100, 100⟩⟩ := rfl
        rw [h2] at hs
        cases hs
        decide
      · subst h1
        have h2 : screen_abc.monitors[1]? = some ⟨some "B", ⟨100, 0, 100, 100⟩⟩ := rfl
        rw [h2] at hs
        cases hs
        decide)

/-- C23, counterexample: the configuration `active-monitor=B;A` has
`follow_cursor_to_init` false. After the rebuild for the screen `A`, `B`, `C`,
whose primary monitor `C` (index 2) has a background and is enabled, the active
monitor is the candidate `B` (index 1), not the primary monitor. -/
theorem connect_prefers_candidate_to_primary :
    Reachable config_abc ∧
    config_abc.follow_cursor_to_init = false ∧
    screen_abc.primary = 2 ∧
    greeter_background_connect no_file none config_abc screen_abc = some state_abc ∧
    selectable state_abc 2 ∧
    state_abc.active_monitors_config = ["B", "A"] ∧
    state_abc.active_monitor = some 1 :=
  ⟨Reachable.set_active_monitor_config (Reachable.init (0, 0)) (some "B;A"),
    by decide, by decide, state_abc_step, by decide, by decide, by decide⟩

/-- C23, as the code has it: with `follow_cursor_to_init` false,
`greeter_background_connect` from a reachable state ends with
`greeter_background_set_active_monitor` with no request in the state the
rebuild leaves at line 514, so the whole rule order applies, starting with the
candidate list. In the state returned the active monitor is the first
candidate of the list that names a monitor with a background that is enabled;
it is the primary monitor when no candidate qualifies and the primary monitor
has a background and is enabled. The call returns when the primary index is a
monitor of the screen. -/
theorem connect_without_init_cursor_runs_selection (load : String → Option GdkPixbuf)
    (upower : Option UPower) (s0 : GreeterBackgroundPrivate) (screen : GdkScreen)
    (hs0 : Reachable s0) (hinit : s0.follow_cursor_to_init = false) :
    greeter_background_connect load upower s0 screen =
      greeter_background_set_active_monitor (connect_registry load upower s0 screen) none ∧
    (screen.primary < screen.monitors.length →
      ∃ s, greeter_background_connect load upower s0 screen = some s) ∧
    ∀ s, greeter_background_connect load upower s0 screen = some s →
      s.active_monitors_config = s0.active_monitors_config ∧
      (∀ (pre : List String) (id : String) (post : List String) (m : Nat),
        s.active_monitors_config = pre ++ id :: post →
        g_hash_table_lookup s.monitors_map id = some m → selectable s m →
        (∀ id' ∈ pre, ∀ m', g_hash_table_lookup s.monitors_map id' = some m' →
          ¬ selectable s m') →
        s.active_monitor = some m) ∧
      ((∀ id ∈ s.active_monitors_config, ∀ m',
          g_hash_table_lookup s.monitors_map id = some m' → ¬ selectable s m') →
        selectable s screen.primary → s.active_monitor = some screen.primary) := by
  obtain ⟨p1, p2, _, p4, p5, _, _⟩ := connect_registry_spec load upower s0 screen hs0
  have heq : greeter_background_connect load upower s0 screen =
      greeter_background_set_active_monitor (connect_registry load upower s0 screen)
        none := by
    rw [connect_eq_registry, p2, hinit]
    simp only [Bool.false_eq_true, if_false]
    rw [p1]
    rfl
  refine ⟨heq, ?_, ?_⟩
  · intro hp
    exact (connect_spec load upower s0 screen (screen_none_active_none hs0)).2 hp
  · intro s hs
    rw [heq] at hs
    generalize connect_registry load upower s0 screen = p at p1 p4 p5 hs
    have hf := set_active_monitor_selection_frame hs
    have hfr := set_active_monitor_frame hs
    have hcfg : s.active_monitors_config = p.active_monitors_config := by rw [hfr]
    have hmap : s.monitors_map = p.monitors_map := hf.2.2.2.2.2.2.1
    have hsel : ∀ m, selectable s m ↔ selectable p m := selectable_congr hf
    have hact : ∀ m, active_monitor_auto p = some (some m) → s.active_monitor = some m := by
      intro m hm
      rw [set_active_monitor_none, hm] at hs
      exact commit_active hs
    refine ⟨hcfg.trans p4, ?_, ?_⟩
    · intro pre id post m hl hm hq hpre
      apply hact
      apply auto_of_candidate
      rw [← hcfg, hl]
      apply from_config_first
      · rw [← hmap]; exact hm
      · exact (hsel m).1 hq
      · intro id' hid m' hm' hq'
        rw [← hmap] at hm'
        exact hpre id' hid m' hm' ((hsel m').2 hq')
    · intro hnone hq
      apply hact
      apply auto_primary_of_none _ p5 ((hsel _).1 hq)
      rw [from_config_none]
      intro id hid m hm hq'
      rw [← hcfg] at hid
      rw [← hmap] at hm
      exact hnone id hid m hm ((hsel m).2 hq')

/-- Witness for C23: the configuration `active-monitor=B;A` connected to the
screen `A`, `B`, `C`. -/
theorem connect_without_init_cursor_runs_selection_witness :
    greeter_background_connect no_file none config_abc screen_abc =
      greeter_background_set_active_monitor
        (connect_registry no_file none config_abc screen_abc) none ∧
    (screen_abc.primary < screen_abc.monitors.length →
      ∃ s, greeter_background_connect no_file none config_abc screen_abc = some s) ∧
    ∀ s, greeter_background_connect no_file none config_abc screen_abc = some s →
      s.active_monitors_config = config_abc.active_monitors_config ∧
      (∀ (pre : List String) (id : String) (post : List String) (m : Nat),
        s.active_monitors_config = pre ++ id :: post →
        g_hash_table_lookup s.monitors_map id = some m → selectable s m →
        (∀ id' ∈ pre, ∀ m', g_hash_table_lookup s.monitors_map id' = some m' →
          ¬ selectable s m') →
        s.active_monitor = some m) ∧
      ((∀ id ∈ s.active_monitors_config, ∀ m',
          g_hash_table_lookup s.monitors_map id = some m' → ¬ selectable s m') →
        selectable s screen_abc.primary → s.active_monitor = some screen_abc.primary) :=
  connect_without_init_cursor_runs_selection no_file none config_abc screen_abc
    (Reachable.set_active_monitor_config (Reachable.init (0, 0)) (some "B;A")) (by decide)

/-- C25 (the code departs from the claim): with a monitor `a` of the array
active, `greeter_background_save_xroot` tests `monitors[i].background` for
every index `i` other than `a` from 0 up to and including `monitors_size`, so
the last test reads past the end of the array (`past_end` is what it finds
there). The monitors other than `a` that have a background are drawn once each
in index order; the active monitor is drawn after them only when the entry
read past the end has a non-`NULL` background field. In `state_abc` (three
monitors, `B` active) the indices read are 0, 2 and 3, and with zeroed memory
behind the array the active monitor is not drawn. -/
theorem save_xroot_reads_past_the_end :
    (∀ (past_end : Monitor) (priv : GreeterBackgroundPrivate) (a : Nat),
      priv.active_monitor = some a → a < priv.monitors.length →
      ∃ t, greeter_background_save_xroot past_end priv = some t ∧
        t.reads = (List.range priv.monitors.length).filter (fun i => decide (i ≠ a)) ++
          [priv.monitors.length] ∧
        priv.monitors.length ∈ t.reads ∧
        t.draws = (List.range priv.monitors.length).filter (fun i => decide (i ≠ a) &&
            (monitor_background priv i).isSome) ++
          (if past_end.background.isSome then [a] else [])) ∧
    state_abc.monitors.length = 3 ∧ state_abc.active_monitor = some 1 ∧
    greeter_background_save_xroot Monitor.zero state_abc = some ⟨[0, 2, 3], [0, 2]⟩ ∧
    greeter_background_save_xroot { Monitor.zero with background := some .configured }
      state_abc = some ⟨[0, 2, 3], [0, 2, 1]⟩ := by
  refine ⟨?_, by decide, by decide, by decide, by decide⟩
  intro past_end priv a ha hlt
  refine ⟨_, save_xroot_trace past_end priv a ha hlt, rfl, ?_, rfl⟩
  simp

end GreeterBackground
